import Mathlib

/-!
Verification of the rustnes CPU/PPU core: a shallow embedding of the
emulator's data model and operations (src/types.rs, src/cpu.rs,
src/cpu/instructions.rs, src/cpu/addressing_modes.rs, src/cpu/status.rs,
src/memory_map.rs, src/ppu.rs, src/ppu/register.rs, src/ppu/background.rs,
src/ppu/sprite.rs, src/ppu/vram_address.rs, src/interrupt.rs, src/nes.rs)
together with theorems about the claims of the specification.

Machine integers are modeled as Nat with wrapping applied at each operation
site, mirroring the Byte/Word wrapper types of types.rs (u8 and u16 with
wrapping arithmetic).  The u128 CPU cycle counter and the u64 PPU frame
counter are monotone counters and are modeled as unbounded Nat (the spec's
design notes state the counter width is chosen so it never wraps in
practice).  Rust arrays are modeled as total functions Nat -> Nat; an
out-of-bounds array access, which would panic in Rust, is modeled as an
access of the total function at the same index.
-/

set_option linter.unusedVariables false
set_option linter.unusedTactic false
set_option linter.unusedSectionVars false

namespace RustNES

/-! ### Bit-width helpers (src/types.rs: Byte = u8, Word = u16, wrapping ops) -/

/-- Reduce to the range of a Rust u8. -/
def byte (n : Nat) : Nat := n % 256

/-- Reduce to the range of a Rust u16. -/
def word (n : Nat) : Nat := n % 65536

/-- u8 wrapping_add. -/
def byteAdd (a b : Nat) : Nat := (a + b) % 256

/-- u8 wrapping_sub. -/
def byteSub (a b : Nat) : Nat := (a + 256 - b % 256) % 256

/-- u16 wrapping_add. -/
def wordAdd (a b : Nat) : Nat := (a + b) % 65536

/-- u16 wrapping_sub. -/
def wordSub (a b : Nat) : Nat := (a + 65536 - b % 65536) % 65536

/-- u16 wrapping_mul. -/
def wordMul (a b : Nat) : Nat := (a * b) % 65536

/-- Byte::nth: bit n of a u8, via wrapping_shr (the shift amount is
masked by the bit width, so n is taken mod 8). -/
def nth (b n : Nat) : Nat := (b >>> (n % 8)) &&& 1

/-- Word::nth: bit n of a u16, via wrapping_shr (shift taken mod 16). -/
def wordNth (b n : Nat) : Nat := (b >>> (n % 16)) &&& 1

/-- u8 wrapping_mul. -/
def byteMul (a b : Nat) : Nat := (a * b) % 256

/-- u8 bitwise complement (the Rust ! operator on u8). -/
def bnot8 (m : Nat) : Nat := m ^^^ 0xFF

/-- u16 bitwise complement (the Rust ! operator on u16). -/
def bnot16 (m : Nat) : Nat := m ^^^ 0xFFFF

/-- u8 shift left (truncating like Rust u8 shl). -/
def byteShl (a k : Nat) : Nat := (a <<< k) % 256

/-- u8 shift right. -/
def byteShr (a k : Nat) : Nat := (a % 256) >>> k

/-- u16 shift left (truncating like Rust u16 shl). -/
def wordShl (a k : Nat) : Nat := (a <<< k) % 65536

/-- Interpret the low byte of a value as a Rust i8 (the `as i8` cast). -/
def toI8 (n : Nat) : Int :=
  let b := n % 256
  if b < 128 then (b : Int) else (b : Int) - 256

/-! ### CPU status flags (src/cpu/status.rs) -/

namespace CPUStatus

def N : Nat := 0x80
def V : Nat := 0x40
def R : Nat := 0x20
def B : Nat := 0x10
def D : Nat := 0x08
def I : Nat := 0x04
def Z : Nat := 0x02
def C : Nat := 0x01
def OPERATED_B : Nat := 0b110000
def INTERRUPTED_B : Nat := 0b100000

end CPUStatus

/-- CPUStatus::is_set. -/
def pIsSet (p m : Nat) : Bool := p &&& m == m

/-- CPUStatus::set. -/
def pSet (p m : Nat) : Nat := p ||| m

/-- CPUStatus::unset. -/
def pUnset (p m : Nat) : Nat := p &&& bnot8 m

/-- CPUStatus::update. -/
def pUpdate (p m : Nat) (cond : Bool) : Nat := if cond then pSet p m else pUnset p m

/-- CPUStatus::update_zn (instructions.rs): Z from value == 0, N from bit 7. -/
def pUpdateZN (p v : Nat) : Nat :=
  pUpdate (pUpdate p CPUStatus.Z (v == 0)) CPUStatus.N ((v >>> 7) &&& 1 == 1)

/-! ### The bus interface (src/types.rs trait Memory)

A bus access may mutate the bus state (the Rust CPUBus reaches the PPU
through a RefCell, so a read can have side effects); the interface
therefore returns the successor bus state alongside the value. -/

class Memory (σ : Type) where
  read : σ → Nat → Nat × σ
  write : σ → Nat → Nat → σ

/-! ### CPU state and primitives (src/cpu.rs) -/

structure CPU (σ : Type) where
  a : Nat
  x : Nat
  y : Nat
  s : Nat
  p : Nat
  pc : Nat
  cycles : Nat
  bus : σ

variable {σ : Type} [Memory σ]

/-- CPU::read: one bus read, costing one cycle. -/
def CPU.read (c : CPU σ) (addr : Nat) : Nat × CPU σ :=
  let r := Memory.read c.bus (word addr)
  (r.1, { c with cycles := c.cycles + 1, bus := r.2 })

/-- CPU::read_word: two little-endian bus reads. -/
def CPU.read_word (c : CPU σ) (addr : Nat) : Nat × CPU σ :=
  let (lo, c) := c.read addr
  let (hi, c) := c.read (wordAdd addr 1)
  (lo ||| (hi <<< 8), c)

/-- CPU::read_on_indirect, reproducing the 6502 page-wrap bug: the high
byte is fetched from the pointer's page with the low byte wrapped. -/
def CPU.read_on_indirect (c : CPU σ) (operand : Nat) : Nat × CPU σ :=
  let (low, c) := c.read operand
  let addr := (operand &&& 0xFF00) ||| (wordAdd operand 1 &&& 0x00FF)
  let (high, c) := c.read addr
  (low ||| (high <<< 8), c)

/-- CPU::write: one bus write, costing one cycle. -/
def CPU.write (c : CPU σ) (addr v : Nat) : CPU σ :=
  { c with cycles := c.cycles + 1, bus := Memory.write c.bus (word addr) v }

/-- CPU::push_stack: write to 0x0100 + S, then decrement S. -/
def CPU.push_stack (c : CPU σ) (v : Nat) : CPU σ :=
  let c := c.write (wordAdd c.s 0x100) v
  { c with s := byteSub c.s 1 }

/-- CPU::push_stack_word: high byte first, then low byte. -/
def CPU.push_stack_word (c : CPU σ) (w : Nat) : CPU σ :=
  let c := c.push_stack (byte (w >>> 8))
  c.push_stack (w &&& 0xFF)

/-- CPU::pull_stack: increment S, then read 0x0100 + S. -/
def CPU.pull_stack (c : CPU σ) : Nat × CPU σ :=
  let c := { c with s := byteAdd c.s 1 }
  c.read (wordAdd c.s 0x100)

/-- CPU::pull_stack_word: low byte first, then high byte. -/
def CPU.pull_stack_word (c : CPU σ) : Nat × CPU σ :=
  let (l, c) := c.pull_stack
  let (h, c) := c.pull_stack
  ((h <<< 8) ||| l, c)

/-- CPU::interrupted: true when the I flag is set. -/
def CPU.interrupted (c : CPU σ) : Bool := pIsSet c.p CPUStatus.I

/-- CPU::reset. -/
def CPU.reset (c : CPU σ) : CPU σ :=
  let c := { c with cycles := c.cycles + 5 }
  let (v, c) := c.read_word 0xFFFC
  { c with pc := v, p := pSet c.p CPUStatus.I, s := byteSub c.s 3 }

/-- CPU::non_markable_interrupt (NMI entry). -/
def CPU.non_markable_interrupt (c : CPU σ) : CPU σ :=
  let c := { c with cycles := c.cycles + 2 }
  let c := c.push_stack_word c.pc
  let c := c.push_stack (c.p ||| CPUStatus.INTERRUPTED_B)
  let c := { c with p := pSet c.p CPUStatus.I }
  let (v, c) := c.read_word 0xFFFA
  { c with pc := v }

/-- CPU::interrupt_request (IRQ entry). -/
def CPU.interrupt_request (c : CPU σ) : CPU σ :=
  let c := { c with cycles := c.cycles + 2 }
  let c := c.push_stack_word c.pc
  let c := c.push_stack (c.p ||| CPUStatus.INTERRUPTED_B)
  let c := { c with p := pSet c.p CPUStatus.I }
  let (v, c) := c.read_word 0xFFFE
  { c with pc := v }

/-- CPU::break_interrupt (BRK entry through the interrupt latch). -/
def CPU.break_interrupt (c : CPU σ) : CPU σ :=
  let c := { c with cycles := c.cycles + 2 }
  let c := { c with pc := wordAdd c.pc 1 }
  let c := c.push_stack_word c.pc
  let c := c.push_stack (c.p ||| CPUStatus.INTERRUPTED_B)
  let c := { c with p := pSet c.p CPUStatus.I }
  let (v, c) := c.read_word 0xFFFE
  { c with pc := v }

/-- page_crossed_u16 (src/cpu.rs). -/
def page_crossed_u16 (value base : Nat) : Bool :=
  (wordAdd base value &&& 0xFF00) != (base &&& 0xFF00)

/-- page_crossed on i64 (src/cpu.rs), used by branches; the i64 sum is
reduced to its 64-bit two's-complement representative before masking. -/
def page_crossed (value : Int) (base : Nat) : Bool :=
  ((((base : Int) + value).emod (2 ^ 64)).toNat &&& 0xFF00) != (base &&& 0xFF00)

/-! ### Addressing modes (src/cpu/addressing_modes.rs) -/

inductive AddressingMode where
  | implicit
  | accumulator
  | immediate
  | zeroPage
  | zeroPageX
  | zeroPageY
  | absolute
  | absoluteX (penalty : Bool)
  | absoluteY (penalty : Bool)
  | relative
  | indirect
  | indexedIndirect
  | indirectIndexed
deriving Repr, DecidableEq

/-- AddressingMode::get_operand. -/
def AddressingMode.get_operand (m : AddressingMode) (c : CPU σ) : Nat × CPU σ :=
  match m with
  | .implicit => (0x00, c)
  | .accumulator => (c.a, c)
  | .immediate =>
      let operand := c.pc
      (operand, { c with pc := wordAdd c.pc 1 })
  | .zeroPage =>
      let (v, c) := c.read c.pc
      (v &&& 0xFF, { c with pc := wordAdd c.pc 1 })
  | .zeroPageX =>
      let (v, c) := c.read c.pc
      let operand := wordAdd v c.x &&& 0xFF
      (operand, { c with pc := wordAdd c.pc 1, cycles := c.cycles + 1 })
  | .zeroPageY =>
      let (v, c) := c.read c.pc
      let operand := wordAdd v c.y &&& 0xFF
      (operand, { c with pc := wordAdd c.pc 1, cycles := c.cycles + 1 })
  | .absolute =>
      let (operand, c) := c.read_word c.pc
      (operand, { c with pc := wordAdd c.pc 2 })
  | .absoluteX penalty =>
      let (data, c) := c.read_word c.pc
      let operand := wordAdd data c.x
      let c := { c with pc := wordAdd c.pc 2 }
      let c :=
        if penalty then
          if page_crossed_u16 c.x data then { c with cycles := c.cycles + 1 } else c
        else { c with cycles := c.cycles + 1 }
      (operand, c)
  | .absoluteY penalty =>
      let (data, c) := c.read_word c.pc
      let operand := wordAdd data c.y
      let c := { c with pc := wordAdd c.pc 2 }
      let c :=
        if penalty then
          if page_crossed_u16 c.y data then { c with cycles := c.cycles + 1 } else c
        else { c with cycles := c.cycles + 1 }
      (operand, c)
  | .relative =>
      let (operand, c) := c.read c.pc
      (operand, { c with pc := wordAdd c.pc 1 })
  | .indirect =>
      let (data, c) := c.read_word c.pc
      let (operand, c) := c.read_on_indirect data
      (operand, { c with pc := wordAdd c.pc 2 })
  | .indexedIndirect =>
      let (data, c) := c.read c.pc
      let (operand, c) := c.read_on_indirect (byteAdd data c.x &&& 0xFF)
      (operand, { c with pc := wordAdd c.pc 1, cycles := c.cycles + 1 })
  | .indirectIndexed =>
      let y := c.y
      let (data, c) := c.read c.pc
      let (ind, c) := c.read_on_indirect data
      let operand := wordAdd ind y
      let c := { c with pc := wordAdd c.pc 1 }
      let c :=
        if page_crossed_u16 y (wordSub operand y) then { c with cycles := c.cycles + 1 }
        else c
      (operand, c)

/-! ### Mnemonics and decode (src/cpu/instructions.rs) -/

inductive Mnemonic where
  | LDA | LDX | LDY | STA | STX | STY
  | TAX | TSX | TAY | TXA | TXS | TYA
  | PHA | PHP | PLA | PLP
  | AND | EOR | ORA | BIT
  | ADC | SBC | CMP | CPX | CPY
  | INC | INX | INY | DEC | DEX | DEY
  | ASL | LSR | ROL | ROR
  | JMP | JSR | RTS | RTI
  | BCC | BCS | BEQ | BMI | BNE | BPL | BVC | BVS
  | CLC | CLD | CLI | CLV | SEC | SED | SEI
  | BRK | NOP
  | LAX | SAX | DCP | ISB | SLO | RLA | SRE | RRA
deriving Repr, DecidableEq

structure Opcode where
  mnemonic : Mnemonic
  addressing_mode : AddressingMode
deriving Repr, DecidableEq

set_option maxHeartbeats 3200000 in
/-- decode (src/cpu/instructions.rs): the 256-entry opcode table. -/
def decode (opcode : Nat) : Opcode :=
  let (m, am) : Mnemonic × AddressingMode :=
    match opcode with
    | 0xA9 => (.LDA, .immediate)
    | 0xA5 => (.LDA, .zeroPage)
    | 0xB5 => (.LDA, .zeroPageX)
    | 0xAD => (.LDA, .absolute)
    | 0xBD => (.LDA, .absoluteX true)
    | 0xB9 => (.LDA, .absoluteY true)
    | 0xA1 => (.LDA, .indexedIndirect)
    | 0xB1 => (.LDA, .indirectIndexed)
    | 0xA2 => (.LDX, .immediate)
    | 0xA6 => (.LDX, .zeroPage)
    | 0xB6 => (.LDX, .zeroPageY)
    | 0xAE => (.LDX, .absolute)
    | 0xBE => (.LDX, .absoluteY true)
    | 0xA0 => (.LDY, .immediate)
    | 0xA4 => (.LDY, .zeroPage)
    | 0xB4 => (.LDY, .zeroPageX)
    | 0xAC => (.LDY, .absolute)
    | 0xBC => (.LDY, .absoluteX true)
    | 0x85 => (.STA, .zeroPage)
    | 0x95 => (.STA, .zeroPageX)
    | 0x8D => (.STA, .absolute)
    | 0x9D => (.STA, .absoluteX false)
    | 0x99 => (.STA, .absoluteY false)
    | 0x81 => (.STA, .indexedIndirect)
    | 0x91 => (.STA, .indirectIndexed)
    | 0x86 => (.STX, .zeroPage)
    | 0x96 => (.STX, .zeroPageY)
    | 0x8E => (.STX, .absolute)
    | 0x84 => (.STY, .zeroPage)
    | 0x94 => (.STY, .zeroPageX)
    | 0x8C => (.STY, .absolute)
    | 0xAA => (.TAX, .implicit)
    | 0xBA => (.TSX, .implicit)
    | 0xA8 => (.TAY, .implicit)
    | 0x8A => (.TXA, .implicit)
    | 0x9A => (.TXS, .implicit)
    | 0x98 => (.TYA, .implicit)
    | 0x48 => (.PHA, .implicit)
    | 0x08 => (.PHP, .implicit)
    | 0x68 => (.PLA, .implicit)
    | 0x28 => (.PLP, .implicit)
    | 0x29 => (.AND, .immediate)
    | 0x25 => (.AND, .zeroPage)
    | 0x35 => (.AND, .zeroPageX)
    | 0x2D => (.AND, .absolute)
    | 0x3D => (.AND, .absoluteX true)
    | 0x39 => (.AND, .absoluteY true)
    | 0x21 => (.AND, .indexedIndirect)
    | 0x31 => (.AND, .indirectIndexed)
    | 0x49 => (.EOR, .immediate)
    | 0x45 => (.EOR, .zeroPage)
    | 0x55 => (.EOR, .zeroPageX)
    | 0x4D => (.EOR, .absolute)
    | 0x5D => (.EOR, .absoluteX true)
    | 0x59 => (.EOR, .absoluteY true)
    | 0x41 => (.EOR, .indexedIndirect)
    | 0x51 => (.EOR, .indirectIndexed)
    | 0x09 => (.ORA, .immediate)
    | 0x05 => (.ORA, .zeroPage)
    | 0x15 => (.ORA, .zeroPageX)
    | 0x0D => (.ORA, .absolute)
    | 0x1D => (.ORA, .absoluteX true)
    | 0x19 => (.ORA, .absoluteY true)
    | 0x01 => (.ORA, .indexedIndirect)
    | 0x11 => (.ORA, .indirectIndexed)
    | 0x24 => (.BIT, .zeroPage)
    | 0x2C => (.BIT, .absolute)
    | 0x69 => (.ADC, .immediate)
    | 0x65 => (.ADC, .zeroPage)
    | 0x75 => (.ADC, .zeroPageX)
    | 0x6D => (.ADC, .absolute)
    | 0x7D => (.ADC, .absoluteX true)
    | 0x79 => (.ADC, .absoluteY true)
    | 0x61 => (.ADC, .indexedIndirect)
    | 0x71 => (.ADC, .indirectIndexed)
    | 0xE9 => (.SBC, .immediate)
    | 0xE5 => (.SBC, .zeroPage)
    | 0xF5 => (.SBC, .zeroPageX)
    | 0xED => (.SBC, .absolute)
    | 0xFD => (.SBC, .absoluteX true)
    | 0xF9 => (.SBC, .absoluteY true)
    | 0xE1 => (.SBC, .indexedIndirect)
    | 0xF1 => (.SBC, .indirectIndexed)
    | 0xC9 => (.CMP, .immediate)
    | 0xC5 => (.CMP, .zeroPage)
    | 0xD5 => (.CMP, .zeroPageX)
    | 0xCD => (.CMP, .absolute)
    | 0xDD => (.CMP, .absoluteX true)
    | 0xD9 => (.CMP, .absoluteY true)
    | 0xC1 => (.CMP, .indexedIndirect)
    | 0xD1 => (.CMP, .indirectIndexed)
    | 0xE0 => (.CPX, .immediate)
    | 0xE4 => (.CPX, .zeroPage)
    | 0xEC => (.CPX, .absolute)
    | 0xC0 => (.CPY, .immediate)
    | 0xC4 => (.CPY, .zeroPage)
    | 0xCC => (.CPY, .absolute)
    | 0xE6 => (.INC, .zeroPage)
    | 0xF6 => (.INC, .zeroPageX)
    | 0xEE => (.INC, .absolute)
    | 0xFE => (.INC, .absoluteX false)
    | 0xE8 => (.INX, .implicit)
    | 0xC8 => (.INY, .implicit)
    | 0xC6 => (.DEC, .zeroPage)
    | 0xD6 => (.DEC, .zeroPageX)
    | 0xCE => (.DEC, .absolute)
    | 0xDE => (.DEC, .absoluteX false)
    | 0xCA => (.DEX, .implicit)
    | 0x88 => (.DEY, .implicit)
    | 0x0A => (.ASL, .accumulator)
    | 0x06 => (.ASL, .zeroPage)
    | 0x16 => (.ASL, .zeroPageX)
    | 0x0E => (.ASL, .absolute)
    | 0x1E => (.ASL, .absoluteX false)
    | 0x4A => (.LSR, .accumulator)
    | 0x46 => (.LSR, .zeroPage)
    | 0x56 => (.LSR, .zeroPageX)
    | 0x4E => (.LSR, .absolute)
    | 0x5E => (.LSR, .absoluteX false)
    | 0x2A => (.ROL, .accumulator)
    | 0x26 => (.ROL, .zeroPage)
    | 0x36 => (.ROL, .zeroPageX)
    | 0x2E => (.ROL, .absolute)
    | 0x3E => (.ROL, .absoluteX false)
    | 0x6A => (.ROR, .accumulator)
    | 0x66 => (.ROR, .zeroPage)
    | 0x76 => (.ROR, .zeroPageX)
    | 0x6E => (.ROR, .absolute)
    | 0x7E => (.ROR, .absoluteX false)
    | 0x4C => (.JMP, .absolute)
    | 0x6C => (.JMP, .indirect)
    | 0x20 => (.JSR, .absolute)
    | 0x60 => (.RTS, .implicit)
    | 0x40 => (.RTI, .implicit)
    | 0x90 => (.BCC, .relative)
    | 0xB0 => (.BCS, .relative)
    | 0xF0 => (.BEQ, .relative)
    | 0x30 => (.BMI, .relative)
    | 0xD0 => (.BNE, .relative)
    | 0x10 => (.BPL, .relative)
    | 0x50 => (.BVC, .relative)
    | 0x70 => (.BVS, .relative)
    | 0x18 => (.CLC, .implicit)
    | 0xD8 => (.CLD, .implicit)
    | 0x58 => (.CLI, .implicit)
    | 0xB8 => (.CLV, .implicit)
    | 0x38 => (.SEC, .implicit)
    | 0xF8 => (.SED, .implicit)
    | 0x78 => (.SEI, .implicit)
    | 0x00 => (.BRK, .implicit)
    | 0xEB => (.SBC, .immediate)
    | 0x04 | 0x44 | 0x64 => (.NOP, .zeroPage)
    | 0x0C => (.NOP, .absolute)
    | 0x14 | 0x34 | 0x54 | 0x74 | 0xD4 | 0xF4 => (.NOP, .zeroPageX)
    | 0x1A | 0x3A | 0x5A | 0x7A | 0xDA | 0xEA | 0xFA => (.NOP, .implicit)
    | 0x1C | 0x3C | 0x5C | 0x7C | 0xDC | 0xFC => (.NOP, .absoluteX true)
    | 0x80 | 0x82 | 0x89 | 0xC2 | 0xE2 => (.NOP, .immediate)
    | 0xA3 => (.LAX, .indexedIndirect)
    | 0xA7 => (.LAX, .zeroPage)
    | 0xAF => (.LAX, .absolute)
    | 0xB3 => (.LAX, .indirectIndexed)
    | 0xB7 => (.LAX, .zeroPageY)
    | 0xBF => (.LAX, .absoluteY true)
    | 0x83 => (.SAX, .indexedIndirect)
    | 0x87 => (.SAX, .zeroPage)
    | 0x8F => (.SAX, .absolute)
    | 0x97 => (.SAX, .zeroPageY)
    | 0xC3 => (.DCP, .indexedIndirect)
    | 0xC7 => (.DCP, .zeroPage)
    | 0xCF => (.DCP, .absolute)
    | 0xD3 => (.DCP, .indirectIndexed)
    | 0xD7 => (.DCP, .zeroPageX)
    | 0xDB => (.DCP, .absoluteY false)
    | 0xDF => (.DCP, .absoluteX false)
    | 0xE3 => (.ISB, .indexedIndirect)
    | 0xE7 => (.ISB, .zeroPage)
    | 0xEF => (.ISB, .absolute)
    | 0xF3 => (.ISB, .indirectIndexed)
    | 0xF7 => (.ISB, .zeroPageX)
    | 0xFB => (.ISB, .absoluteY false)
    | 0xFF => (.ISB, .absoluteX false)
    | 0x03 => (.SLO, .indexedIndirect)
    | 0x07 => (.SLO, .zeroPage)
    | 0x0F => (.SLO, .absolute)
    | 0x13 => (.SLO, .indirectIndexed)
    | 0x17 => (.SLO, .zeroPageX)
    | 0x1B => (.SLO, .absoluteY false)
    | 0x1F => (.SLO, .absoluteX false)
    | 0x23 => (.RLA, .indexedIndirect)
    | 0x27 => (.RLA, .zeroPage)
    | 0x2F => (.RLA, .absolute)
    | 0x33 => (.RLA, .indirectIndexed)
    | 0x37 => (.RLA, .zeroPageX)
    | 0x3B => (.RLA, .absoluteY false)
    | 0x3F => (.RLA, .absoluteX false)
    | 0x43 => (.SRE, .indexedIndirect)
    | 0x47 => (.SRE, .zeroPage)
    | 0x4F => (.SRE, .absolute)
    | 0x53 => (.SRE, .indirectIndexed)
    | 0x57 => (.SRE, .zeroPageX)
    | 0x5B => (.SRE, .absoluteY false)
    | 0x5F => (.SRE, .absoluteX false)
    | 0x63 => (.RRA, .indexedIndirect)
    | 0x67 => (.RRA, .zeroPage)
    | 0x6F => (.RRA, .absolute)
    | 0x73 => (.RRA, .indirectIndexed)
    | 0x77 => (.RRA, .zeroPageX)
    | 0x7B => (.RRA, .absoluteY false)
    | 0x7F => (.RRA, .absoluteX false)
    | _ => (.NOP, .implicit)
  { mnemonic := m, addressing_mode := am }

/-! ### Instructions (src/cpu/instructions.rs) -/

/-- LoaD Accumulator. -/
def lda (c : CPU σ) (operand : Nat) : CPU σ :=
  let (v, c) := c.read operand
  { c with a := v, p := pUpdateZN c.p v }

/-- LoaD X register. -/
def ldx (c : CPU σ) (operand : Nat) : CPU σ :=
  let (v, c) := c.read operand
  { c with x := v, p := pUpdateZN c.p v }

/-- LoaD Y register. -/
def ldy (c : CPU σ) (operand : Nat) : CPU σ :=
  let (v, c) := c.read operand
  { c with y := v, p := pUpdateZN c.p v }

/-- STore Accumulator. -/
def sta (c : CPU σ) (operand : Nat) : CPU σ :=
  c.write operand c.a

/-- STore X register. -/
def stx (c : CPU σ) (operand : Nat) : CPU σ :=
  c.write operand c.x

/-- STore Y register. -/
def sty (c : CPU σ) (operand : Nat) : CPU σ :=
  c.write operand c.y

/-- Transfer Accumulator to X. -/
def tax (c : CPU σ) : CPU σ :=
  { c with x := c.a, p := pUpdateZN c.p c.a, cycles := c.cycles + 1 }

/-- Transfer Stack pointer to X. -/
def tsx (c : CPU σ) : CPU σ :=
  { c with x := c.s, p := pUpdateZN c.p c.s, cycles := c.cycles + 1 }

/-- Transfer Accumulator to Y. -/
def tay (c : CPU σ) : CPU σ :=
  { c with y := c.a, p := pUpdateZN c.p c.a, cycles := c.cycles + 1 }

/-- Transfer X to Accumulator. -/
def txa (c : CPU σ) : CPU σ :=
  { c with a := c.x, p := pUpdateZN c.p c.x, cycles := c.cycles + 1 }

/-- Transfer X to Stack pointer (no flag update). -/
def txs (c : CPU σ) : CPU σ :=
  { c with s := c.x, cycles := c.cycles + 1 }

/-- Transfer Y to Accumulator. -/
def tya (c : CPU σ) : CPU σ :=
  { c with a := c.y, p := pUpdateZN c.p c.y, cycles := c.cycles + 1 }

/-- PusH Accumulator. -/
def pha (c : CPU σ) : CPU σ :=
  let c := c.push_stack c.a
  { c with cycles := c.cycles + 1 }

/-- PusH Processor status: pushed with both B bits (0x30) set. -/
def php (c : CPU σ) : CPU σ :=
  let c := c.push_stack (c.p ||| CPUStatus.OPERATED_B)
  { c with cycles := c.cycles + 1 }

/-- PulL Accumulator. -/
def pla (c : CPU σ) : CPU σ :=
  let (v, c) := c.pull_stack
  { c with a := v, p := pUpdateZN c.p v, cycles := c.cycles + 2 }

/-- PulL Processor status: B cleared and R forced to 1 in the live register. -/
def plp (c : CPU σ) : CPU σ :=
  let (v, c) := c.pull_stack
  { c with p := (v &&& bnot8 CPUStatus.B) ||| CPUStatus.R, cycles := c.cycles + 2 }

/-- bitwise AND with accumulator. -/
def and (c : CPU σ) (operand : Nat) : CPU σ :=
  let (v, c) := c.read operand
  let a := c.a &&& v
  { c with a := a, p := pUpdateZN c.p a }

/-- bitwise Exclusive OR. -/
def eor (c : CPU σ) (operand : Nat) : CPU σ :=
  let (v, c) := c.read operand
  let a := c.a ^^^ v
  { c with a := a, p := pUpdateZN c.p a }

/-- bitwise OR with Accumulator. -/
def ora (c : CPU σ) (operand : Nat) : CPU σ :=
  let (v, c) := c.read operand
  let a := c.a ||| v
  { c with a := a, p := pUpdateZN c.p a }

/-- test BITs. -/
def bit (c : CPU σ) (operand : Nat) : CPU σ :=
  let (v, c) := c.read operand
  let data := c.a &&& v
  let p := pUpdate c.p CPUStatus.Z (data == 0)
  let p := pUpdate p CPUStatus.V (nth v 6 == 1)
  let p := pUpdate p CPUStatus.N (nth v 7 == 1)
  { c with p := p }

/-- ADd with Carry, with C and V from the carry-chain bits c6 and c7. -/
def adc (c : CPU σ) (operand : Nat) : CPU σ :=
  let a := c.a
  let (val, c) := c.read operand
  let result := byteAdd a val
  let result := if pIsSet c.p CPUStatus.C then byteAdd result 1 else result
  let a7 := nth a 7
  let v7 := nth val 7
  let c6 := a7 ^^^ v7 ^^^ nth result 7
  let c7 := (a7 &&& v7) ||| (a7 &&& c6) ||| (v7 &&& c6)
  let p := pUpdate c.p CPUStatus.C (c7 == 1)
  let p := pUpdate p CPUStatus.V ((c6 ^^^ c7) == 1)
  { c with a := result, p := pUpdateZN p result }

/-- SuBtract with carry: ADC of the bit-inverted operand byte. -/
def sbc (c : CPU σ) (operand : Nat) : CPU σ :=
  let a := c.a
  let (m, c) := c.read operand
  let val := bnot8 m
  let result := byteAdd a val
  let result := if pIsSet c.p CPUStatus.C then byteAdd result 1 else result
  let a7 := nth a 7
  let v7 := nth val 7
  let c6 := a7 ^^^ v7 ^^^ nth result 7
  let c7 := (a7 &&& v7) ||| (a7 &&& c6) ||| (v7 &&& c6)
  let p := pUpdate c.p CPUStatus.C (c7 == 1)
  let p := pUpdate p CPUStatus.V ((c6 ^^^ c7) == 1)
  { c with a := result, p := pUpdateZN p result }

/-- CoMPare accumulator: 16-bit wrapping A - M, C from the sign of the
result viewed as i16, Z and N from the 16-bit value. -/
def cmp (c : CPU σ) (operand : Nat) : CPU σ :=
  let (m, c) := c.read operand
  let d := wordSub c.a m
  let p := pUpdate c.p CPUStatus.C (decide (d < 0x8000))
  { c with p := pUpdateZN p d }

/-- ComPare X register. -/
def cpx (c : CPU σ) (operand : Nat) : CPU σ :=
  let (v, c) := c.read operand
  let d := byteSub c.x v
  let p := pUpdate c.p CPUStatus.C (decide (v ≤ c.x))
  { c with p := pUpdateZN p d }

/-- ComPare Y register. -/
def cpy (c : CPU σ) (operand : Nat) : CPU σ :=
  let (v, c) := c.read operand
  let d := byteSub c.y v
  let p := pUpdate c.p CPUStatus.C (decide (v ≤ c.y))
  { c with p := pUpdateZN p d }

/-- INCrement memory. -/
def inc (c : CPU σ) (operand : Nat) : CPU σ :=
  let (v, c) := c.read operand
  let result := byteAdd v 1
  let c := { c with p := pUpdateZN c.p result }
  let c := c.write operand result
  { c with cycles := c.cycles + 1 }

/-- INcrement X register. -/
def inx (c : CPU σ) : CPU σ :=
  let x := byteAdd c.x 1
  { c with x := x, p := pUpdateZN c.p x, cycles := c.cycles + 1 }

/-- INcrement Y register. -/
def iny (c : CPU σ) : CPU σ :=
  let y := byteAdd c.y 1
  { c with y := y, p := pUpdateZN c.p y, cycles := c.cycles + 1 }

/-- DECrement memory. -/
def dec (c : CPU σ) (operand : Nat) : CPU σ :=
  let (v, c) := c.read operand
  let result := byteSub v 1
  let c := { c with p := pUpdateZN c.p result }
  let c := c.write operand result
  { c with cycles := c.cycles + 1 }

/-- DEcrement X register. -/
def dex (c : CPU σ) : CPU σ :=
  let x := byteSub c.x 1
  { c with x := x, p := pUpdateZN c.p x, cycles := c.cycles + 1 }

/-- DEcrement Y register. -/
def dey (c : CPU σ) : CPU σ :=
  let y := byteSub c.y 1
  { c with y := y, p := pUpdateZN c.p y, cycles := c.cycles + 1 }

/-- Arithmetic Shift Left (memory form). -/
def asl (c : CPU σ) (operand : Nat) : CPU σ :=
  let (data, c) := c.read operand
  let c := { c with p := pUpdate c.p CPUStatus.C (nth data 7 == 1) }
  let data := byteShl data 1
  let c := { c with p := pUpdateZN c.p data }
  let c := c.write operand data
  { c with cycles := c.cycles + 1 }

/-- Arithmetic Shift Left (accumulator form). -/
def asl_for_accumelator (c : CPU σ) : CPU σ :=
  let c := { c with p := pUpdate c.p CPUStatus.C (nth c.a 7 == 1) }
  let a := byteShl c.a 1
  { c with a := a, p := pUpdateZN c.p a, cycles := c.cycles + 1 }

/-- Logical Shift Right (memory form). -/
def lsr (c : CPU σ) (operand : Nat) : CPU σ :=
  let (data, c) := c.read operand
  let c := { c with p := pUpdate c.p CPUStatus.C (nth data 0 == 1) }
  let data := byteShr data 1
  let c := { c with p := pUpdateZN c.p data }
  let c := c.write operand data
  { c with cycles := c.cycles + 1 }

/-- Logical Shift Right (accumulator form). -/
def lsr_for_accumelator (c : CPU σ) : CPU σ :=
  let c := { c with p := pUpdate c.p CPUStatus.C (nth c.a 0 == 1) }
  let a := byteShr c.a 1
  { c with a := a, p := pUpdateZN c.p a, cycles := c.cycles + 1 }

/-- ROtate Left (memory form). -/
def rol (c : CPU σ) (operand : Nat) : CPU σ :=
  let (data, c) := c.read operand
  let cBit := nth data 7
  let data := byteShl data 1
  let data := if pIsSet c.p CPUStatus.C then data ||| 0x01 else data
  let c := { c with p := pUpdate c.p CPUStatus.C (cBit == 1) }
  let c := { c with p := pUpdateZN c.p data }
  let c := c.write operand data
  { c with cycles := c.cycles + 1 }

/-- ROtate Left (accumulator form). -/
def rol_for_accumelator (c : CPU σ) : CPU σ :=
  let cBit := nth c.a 7
  let a := byteShl c.a 1
  let a := if pIsSet c.p CPUStatus.C then a ||| 0x01 else a
  let c := { c with a := a }
  let c := { c with p := pUpdate c.p CPUStatus.C (cBit == 1) }
  { c with p := pUpdateZN c.p c.a, cycles := c.cycles + 1 }

/-- ROtate Right (memory form). -/
def ror (c : CPU σ) (operand : Nat) : CPU σ :=
  let (data, c) := c.read operand
  let cBit := nth data 0
  let data := byteShr data 1
  let data := if pIsSet c.p CPUStatus.C then data ||| 0x80 else data
  let c := { c with p := pUpdate c.p CPUStatus.C (cBit == 1) }
  let c := { c with p := pUpdateZN c.p data }
  let c := c.write operand data
  { c with cycles := c.cycles + 1 }

/-- ROtate Right (accumulator form). -/
def ror_for_accumelator (c : CPU σ) : CPU σ :=
  let cBit := nth c.a 0
  let a := byteShr c.a 1
  let a := if pIsSet c.p CPUStatus.C then a ||| 0x80 else a
  let c := { c with a := a }
  let c := { c with p := pUpdate c.p CPUStatus.C (cBit == 1) }
  { c with p := pUpdateZN c.p c.a, cycles := c.cycles + 1 }

/-- JuMP. -/
def jmp (c : CPU σ) (operand : Nat) : CPU σ :=
  { c with pc := operand }

/-- Jump to SubRoutine. -/
def jsr (c : CPU σ) (operand : Nat) : CPU σ :=
  let c := c.push_stack_word (wordSub c.pc 1)
  { c with cycles := c.cycles + 1, pc := operand }

/-- ReTurn from Subroutine. -/
def rts (c : CPU σ) : CPU σ :=
  let c := { c with cycles := c.cycles + 3 }
  let (v, c) := c.pull_stack_word
  { c with pc := wordAdd v 1 }

/-- ReTurn from Interrupt: pulled P has B cleared and R forced to 1. -/
def rti (c : CPU σ) : CPU σ :=
  let c := { c with cycles := c.cycles + 2 }
  let (v, c) := c.pull_stack
  let c := { c with p := (v &&& bnot8 CPUStatus.B) ||| CPUStatus.R }
  let (w, c) := c.pull_stack_word
  { c with pc := w }

/-- Taken-branch helper: one cycle, another one on page crossing, then
add the sign-extended offset to PC. -/
def branch (c : CPU σ) (operand : Nat) : CPU σ :=
  let c := { c with cycles := c.cycles + 1 }
  let offset := toI8 operand
  let c := if page_crossed offset c.pc then { c with cycles := c.cycles + 1 } else c
  { c with pc := word (c.pc + (offset.emod 65536).toNat) }

/-- Branch if Carry Clear. -/
def bcc (c : CPU σ) (operand : Nat) : CPU σ :=
  if ¬ pIsSet c.p CPUStatus.C then branch c operand else c

/-- Branch if Carry Set. -/
def bcs (c : CPU σ) (operand : Nat) : CPU σ :=
  if pIsSet c.p CPUStatus.C then branch c operand else c

/-- Branch if EQual. -/
def beq (c : CPU σ) (operand : Nat) : CPU σ :=
  if pIsSet c.p CPUStatus.Z then branch c operand else c

/-- Branch if MInus. -/
def bmi (c : CPU σ) (operand : Nat) : CPU σ :=
  if pIsSet c.p CPUStatus.N then branch c operand else c

/-- Branch if NotEqual. -/
def bne (c : CPU σ) (operand : Nat) : CPU σ :=
  if ¬ pIsSet c.p CPUStatus.Z then branch c operand else c

/-- Branch if PLus. -/
def bpl (c : CPU σ) (operand : Nat) : CPU σ :=
  if ¬ pIsSet c.p CPUStatus.N then branch c operand else c

/-- Branch if oVerflow Clear. -/
def bvc (c : CPU σ) (operand : Nat) : CPU σ :=
  if ¬ pIsSet c.p CPUStatus.V then branch c operand else c

/-- Branch if oVerflow Set. -/
def bvs (c : CPU σ) (operand : Nat) : CPU σ :=
  if pIsSet c.p CPUStatus.V then branch c operand else c

/-- CLear Carry. -/
def clc (c : CPU σ) : CPU σ :=
  { c with p := pUnset c.p CPUStatus.C, cycles := c.cycles + 1 }

/-- CLear Decimal. -/
def cld (c : CPU σ) : CPU σ :=
  { c with p := pUnset c.p CPUStatus.D, cycles := c.cycles + 1 }

/-- Clear Interrupt disable. -/
def cli (c : CPU σ) : CPU σ :=
  { c with p := pUnset c.p CPUStatus.I, cycles := c.cycles + 1 }

/-- CLear oVerflow. -/
def clv (c : CPU σ) : CPU σ :=
  { c with p := pUnset c.p CPUStatus.V, cycles := c.cycles + 1 }

/-- SEt Carry flag. -/
def sec (c : CPU σ) : CPU σ :=
  { c with p := pSet c.p CPUStatus.C, cycles := c.cycles + 1 }

/-- SEt Decimal flag. -/
def sed (c : CPU σ) : CPU σ :=
  { c with p := pSet c.p CPUStatus.D, cycles := c.cycles + 1 }

/-- SEt Interrupt disable. -/
def sei (c : CPU σ) : CPU σ :=
  { c with p := pSet c.p CPUStatus.I, cycles := c.cycles + 1 }

/-- BReaK (the 0x00 opcode body): pushes the current PC (not advanced),
pushes P with only bit 5 (INTERRUPTED_B) added, does not set I, and
loads PC from 0xFFFE/F. -/
def brk (c : CPU σ) : CPU σ :=
  let c := c.push_stack_word c.pc
  let c := c.push_stack (c.p ||| CPUStatus.INTERRUPTED_B)
  let c := { c with cycles := c.cycles + 1 }
  let (v, c) := c.read_word 0xFFFE
  { c with pc := v }

/-- No OPeration. -/
def nop (c : CPU σ) : CPU σ :=
  { c with cycles := c.cycles + 1 }

/-- Load Accumulator and X register. -/
def lax (c : CPU σ) (operand : Nat) : CPU σ :=
  let (data, c) := c.read operand
  { c with a := data, x := data, p := pUpdateZN c.p data }

/-- Store Accumulator and X register. -/
def sax (c : CPU σ) (operand : Nat) : CPU σ :=
  c.write operand (c.a &&& c.x)

/-- Decrement memory and ComPare to accumulator. -/
def dcp (c : CPU σ) (operand : Nat) : CPU σ :=
  let (v, c) := c.read operand
  let result := byteSub v 1
  let c := { c with p := pUpdateZN c.p result }
  let c := c.write operand result
  cmp c operand

/-- Increment memory and SuBtract with carry. -/
def isb (c : CPU σ) (operand : Nat) : CPU σ :=
  let (v, c) := c.read operand
  let result := byteAdd v 1
  let c := { c with p := pUpdateZN c.p result }
  let c := c.write operand result
  sbc c operand

/-- arithmetic Shift Left and bitwise Or with accumulator. -/
def slo (c : CPU σ) (operand : Nat) : CPU σ :=
  let (data, c) := c.read operand
  let c := { c with p := pUpdate c.p CPUStatus.C (nth data 7 == 1) }
  let data := byteShl data 1
  let c := { c with p := pUpdateZN c.p data }
  let c := c.write operand data
  ora c operand

/-- Rotate Left and bitwise And with accumulator. -/
def rla (c : CPU σ) (operand : Nat) : CPU σ :=
  let (data, c) := c.read operand
  let cBit := data &&& 0x80
  let data := byteShl data 1
  let data := if pIsSet c.p CPUStatus.C then data ||| 0x01 else data
  let c := { c with p := pUnset c.p (CPUStatus.C ||| CPUStatus.Z ||| CPUStatus.N) }
  let c := { c with p := pUpdate c.p CPUStatus.C (cBit == 0x80) }
  let c := { c with p := pUpdateZN c.p data }
  let c := c.write operand data
  and c operand

/-- logical Shift Right and bitwise Exclusive or. -/
def sre (c : CPU σ) (operand : Nat) : CPU σ :=
  let (data, c) := c.read operand
  let c := { c with p := pUpdate c.p CPUStatus.C (nth data 0 == 1) }
  let data := byteShr data 1
  let c := { c with p := pUpdateZN c.p data }
  let c := c.write operand data
  eor c operand

/-- Rotate Right and Add with carry. -/
def rra (c : CPU σ) (operand : Nat) : CPU σ :=
  let (data, c) := c.read operand
  let cBit := nth data 0
  let data := byteShr data 1
  let data := if pIsSet c.p CPUStatus.C then data ||| 0x80 else data
  let c := { c with p := pUpdate c.p CPUStatus.C (cBit == 1) }
  let c := { c with p := pUpdateZN c.p data }
  let c := c.write operand data
  adc c operand

/-- execute (src/cpu/instructions.rs): resolve the operand through the
addressing mode, then dispatch on the mnemonic. -/
def execute (c : CPU σ) (opcode : Opcode) : CPU σ :=
  let r := opcode.addressing_mode.get_operand c
  let operand := r.1
  let c := r.2
  match opcode.mnemonic, opcode.addressing_mode with
  | .LDA, _ => lda c operand
  | .LDX, _ => ldx c operand
  | .LDY, _ => ldy c operand
  | .STA, .indirectIndexed =>
      let c := sta c operand
      { c with cycles := c.cycles + 1 }
  | .STA, _ => sta c operand
  | .STX, _ => stx c operand
  | .STY, _ => sty c operand
  | .TAX, _ => tax c
  | .TSX, _ => tsx c
  | .TAY, _ => tay c
  | .TXA, _ => txa c
  | .TXS, _ => txs c
  | .TYA, _ => tya c
  | .PHA, _ => pha c
  | .PHP, _ => php c
  | .PLA, _ => pla c
  | .PLP, _ => plp c
  | .AND, _ => and c operand
  | .EOR, _ => eor c operand
  | .ORA, _ => ora c operand
  | .BIT, _ => bit c operand
  | .ADC, _ => adc c operand
  | .SBC, _ => sbc c operand
  | .CMP, _ => cmp c operand
  | .CPX, _ => cpx c operand
  | .CPY, _ => cpy c operand
  | .INC, _ => inc c operand
  | .INX, _ => inx c
  | .INY, _ => iny c
  | .DEC, _ => dec c operand
  | .DEX, _ => dex c
  | .DEY, _ => dey c
  | .ASL, .accumulator => asl_for_accumelator c
  | .ASL, _ => asl c operand
  | .LSR, .accumulator => lsr_for_accumelator c
  | .LSR, _ => lsr c operand
  | .ROL, .accumulator => rol_for_accumelator c
  | .ROL, _ => rol c operand
  | .ROR, .accumulator => ror_for_accumelator c
  | .ROR, _ => ror c operand
  | .JMP, _ => jmp c operand
  | .JSR, _ => jsr c operand
  | .RTS, _ => rts c
  | .RTI, _ => rti c
  | .BCC, _ => bcc c operand
  | .BCS, _ => bcs c operand
  | .BEQ, _ => beq c operand
  | .BMI, _ => bmi c operand
  | .BNE, _ => bne c operand
  | .BPL, _ => bpl c operand
  | .BVC, _ => bvc c operand
  | .BVS, _ => bvs c operand
  | .CLC, _ => clc c
  | .CLD, _ => cld c
  | .CLI, _ => cli c
  | .CLV, _ => clv c
  | .SEC, _ => sec c
  | .SED, _ => sed c
  | .SEI, _ => sei c
  | .BRK, _ => brk c
  | .NOP, _ => nop c
  | .LAX, _ => lax c operand
  | .SAX, _ => sax c operand
  | .DCP, _ => dcp c operand
  | .ISB, _ => isb c operand
  | .SLO, _ => slo c operand
  | .RLA, _ => rla c operand
  | .SRE, _ => sre c operand
  | .RRA, _ => rra c operand

/-- CPU::fetch: read the opcode byte at PC and advance PC. -/
def CPU.fetch (c : CPU σ) : Nat × CPU σ :=
  let (opcode, c) := c.read c.pc
  (opcode, { c with pc := wordAdd c.pc 1 })

/-- CPU::step: fetch, decode, execute exactly one instruction. -/
def CPU.step (c : CPU σ) : CPU σ :=
  let r := c.fetch
  execute r.2 (decode r.1)

/-! ### Flat 64 KiB test memory (impl Memory for [u8; 0x10000] in
src/memory_map.rs, the bus used by the repository's own CPU tests and by
NES::default), instrumented with a ghost chronological access log so that
bus-access patterns can be stated. -/

/-- One bus access, for the ghost log. -/
inductive BusAcc where
  | rd (addr : Nat)
  | wr (addr : Nat)
deriving Repr, DecidableEq

structure FlatBus where
  mem : Nat → Nat
  log : List BusAcc

instance : Memory FlatBus where
  read b addr := (byte (b.mem addr), { b with log := b.log ++ [.rd addr] })
  write b addr v :=
    { mem := fun a => if a = addr then byte v else b.mem a,
      log := b.log ++ [.wr addr] }

@[simp] theorem FlatBus.read_def (b : FlatBus) (addr : Nat) :
    Memory.read b addr = (byte (b.mem addr), { b with log := b.log ++ [.rd addr] }) := rfl

@[simp] theorem FlatBus.write_def (b : FlatBus) (addr v : Nat) :
    Memory.write b addr v =
      { mem := fun a => if a = addr then byte v else b.mem a,
        log := b.log ++ [.wr addr] } := rfl

set_option maxRecDepth 8192

/-! ### CPU-level claim theorems -/

theorem byteByte (n : Nat) : byte (byte n) = byte n := by
  unfold byte; omega

/-- Concrete state for the BRK scenario: PC = 0x8000 holding opcode 0x00,
P = 0x20 (I clear), S = 0xFD, IRQ/BRK vector 0xFFFE/F = 0x1234. -/
def cpuC4 : CPU FlatBus :=
  { a := 0, x := 0, y := 0, s := 0xFD, p := 0x20, pc := 0x8000, cycles := 0,
    bus := { mem := fun ad => if ad = 0xFFFE then 0x34 else if ad = 0xFFFF then 0x12 else 0,
             log := [] } }

/-- C4: executing opcode 0x00 (BRK) via CPU::step takes 7 cycles and loads
PC from 0xFFFE/F, but, contrary to the claim, it does not advance PC past
the operand byte before pushing (the pushed return address is 0x8001, the
byte right after the opcode, so PCL on the stack is 0x01 and not 0x02),
it pushes P with bit 4 (B) clear (0x20 = P with only bit 5 added, not
0x30), and it leaves the I flag clear.  This theorem records the actual
behavior of the code at the concrete scenario state. -/
theorem brk_missing_b_and_i :
    (CPU.step cpuC4).cycles = 7 ∧
    (CPU.step cpuC4).pc = 0x1234 ∧
    (CPU.step cpuC4).bus.mem 0x01FD = 0x80 ∧
    (CPU.step cpuC4).bus.mem 0x01FC = 0x01 ∧
    (CPU.step cpuC4).bus.mem 0x01FB = 0x20 ∧
    pIsSet (CPU.step cpuC4).p CPUStatus.I = false := by
  decide

/-- The memory image of the JMP ($30FF) scenario: opcode 0x6C with pointer
0x30FF at PC = 0x8000, and $30FF = $40, $3000 = $80, $3100 = $50. -/
def memC6 : Nat → Nat := fun ad =>
  if ad = 0x8000 then 0x6C else if ad = 0x8001 then 0xFF
  else if ad = 0x8002 then 0x30 else if ad = 0x30FF then 0x40
  else if ad = 0x3000 then 0x80 else if ad = 0x3100 then 0x50 else 0

/-- The JMP ($30FF) scenario state, with a fresh cycle counter. -/
def cpuC6 : CPU FlatBus :=
  { a := 0, x := 0, y := 0, s := 0xFD, p := 0x24, pc := 0x8000, cycles := 0,
    bus := { mem := memC6, log := [] } }

/-- C6: from the scenario state (memory $30FF = $40, $3000 = $80,
$3100 = $50, PC at a JMP ($30FF) instruction), one CPU step sets PC to
0x8040 -- the pointer's high byte comes from $3000, keeping the pointer's
page and wrapping its low byte -- and consumes exactly 5 cycles. -/
theorem jmp_indirect_page_wrap :
    (CPU.step cpuC6).pc = 0x8040 ∧ (CPU.step cpuC6).cycles = 5 := by
  decide

/-- Concrete state for the BEQ scenario: PC = 0x80FE holding BEQ +4
(0xF0 0x04), P = 0x26 (Z set). -/
def cpuC7 : CPU FlatBus :=
  { a := 0, x := 0, y := 0, s := 0xFD, p := 0x26, pc := 0x80FE, cycles := 0,
    bus := { mem := fun ad => if ad = 0x80FE then 0xF0 else if ad = 0x80FF then 0x04 else 0,
             log := [] } }

/-- C7 counterexample: at the claim's state (PC = 0x80FE, BEQ +4, Z set)
the step does not consume 4 cycles; the code charges the page-cross
penalty against the post-operand PC 0x8100, and 0x8104 is on the same
page, so only 3 cycles are consumed. -/
theorem beq_page_cross_counterexample :
    ¬ ((CPU.step cpuC7).pc = 0x8104 ∧ (CPU.step cpuC7).cycles = cpuC7.cycles + 4) := by
  decide

/-- C7 amended: from PC = 0x80FE with Z set, BEQ +4 leaves PC = 0x8104 and
consumes exactly 3 cycles (1 fetch + 1 operand + 1 taken; no page-cross
cycle, because the target 0x8104 shares a page with the post-operand PC
0x8100). -/
theorem beq_taken_cycles (c : CPU FlatBus) (hpc : c.pc = 0x80FE)
    (h1 : c.bus.mem 0x80FE = 0xF0) (h2 : c.bus.mem 0x80FF = 0x04)
    (hZ : pIsSet c.p CPUStatus.Z = true) :
    (CPU.step c).pc = 0x8104 ∧ (CPU.step c).cycles = c.cycles + 3 := by
  have hdec : decode 0xF0 = ⟨.BEQ, .relative⟩ := rfl
  have hcross : page_crossed 4 0x8100 = false := by decide
  have hemod : (Int.emod 4 65536).toNat = 4 := by decide
  simp [CPU.step, CPU.fetch, CPU.read, hpc, h1, h2, hZ, hdec, hcross, hemod, execute,
        AddressingMode.get_operand, beq, branch, word, wordAdd, byte, toI8]

/-- Witness for the amended C7 theorem at the concrete scenario state. -/
theorem beq_taken_cycles_witness :
    (CPU.step cpuC7).pc = 0x8104 ∧ (CPU.step cpuC7).cycles = cpuC7.cycles + 3 :=
  beq_taken_cycles cpuC7 (by decide) (by decide) (by decide) (by decide)

/-- After PHP the pushed byte has both B bits ORed in; PLP pulls it, clears
B and forces R.  Net effect on the 8-bit status register, for every byte. -/
theorem php_plp_mask : ∀ p < 256,
    (byte (p ||| CPUStatus.OPERATED_B) &&& bnot8 CPUStatus.B) ||| CPUStatus.R
      = (p &&& 0xEF) ||| 0x20 := by
  decide

/-- Bit-level reading of the PHP/PLP net effect, for every status byte. -/
theorem php_plp_bits : ∀ p < 256,
    (∀ i < 8, i ≠ 4 → i ≠ 5 → ((p &&& 0xEF) ||| 0x20).testBit i = p.testBit i) ∧
    ((p &&& 0xEF) ||| 0x20).testBit 4 = false ∧
    ((p &&& 0xEF) ||| 0x20).testBit 5 = true := by
  decide

/-- C8: executing PHP and then PLP (the bodies dispatched for opcodes 0x08
and 0x28; their Implicit addressing mode adds no bus access) restores S,
and leaves P equal to (P and 0xEF) or 0x20: bit 4 (B) is clear, bit 5 (R)
is forced to 1, and every other bit keeps its pre-sequence value (the
helper php_plp_bits spells out that per-bit reading of the mask). -/
theorem php_plp_roundtrip (c : CPU FlatBus) (hs : c.s < 256) (hp : c.p < 256) :
    (plp (php c)).s = c.s ∧
    (plp (php c)).p = (c.p &&& 0xEF) ||| 0x20 := by
  have hss : byteAdd (byteSub c.s 1) 1 = c.s := by unfold byteAdd byteSub; omega
  constructor
  · simp [php, plp, CPU.push_stack, CPU.pull_stack, CPU.read, CPU.write, hss]
  · simp [php, plp, CPU.push_stack, CPU.pull_stack, CPU.read, CPU.write, hss, byteByte,
          php_plp_mask c.p hp]

/-- Concrete CPU state used as the PHP/PLP witness input (S = 0,
exercising the stack wrap; P = 0xB5 with B set beforehand). -/
def cpuC8 : CPU FlatBus :=
  { a := 0x11, x := 0x22, y := 0x33, s := 0x00, p := 0xB5, pc := 0xC000, cycles := 9,
    bus := { mem := fun _ => 0, log := [] } }

/-- Witness for C8 at the concrete state cpuC8. -/
theorem php_plp_roundtrip_witness :
    cpuC8.s < 256 ∧ cpuC8.p < 256 ∧
    ((plp (php cpuC8)).s = cpuC8.s ∧ (plp (php cpuC8)).p = (cpuC8.p &&& 0xEF) ||| 0x20) :=
  ⟨by decide, by decide, php_plp_roundtrip cpuC8 (by decide) (by decide)⟩

/-- Fresh zeroed CPU state for the RMW access-pattern counterexample. -/
def cpuC9 : CPU FlatBus :=
  { a := 0, x := 0, y := 0, s := 0, p := 0, pc := 0, cycles := 0,
    bus := { mem := fun _ => 0, log := [] } }

/-- C9 counterexample: DCP at target address 0x10 performs two bus reads of
the target (its access log is read, write, read: the trailing CMP re-reads
the address after the write), so the target is not read exactly once. -/
theorem rmw_second_read_counterexample :
    ¬ (((dcp cpuC9 0x10).bus.log.count (BusAcc.rd 0x10) = 1) ∧
       ((dcp cpuC9 0x10).bus.log.count (BusAcc.wr 0x10) = 1)) := by
  decide

/-- C9 amended: every RMW opcode body writes the target effective address
exactly once, preceded by exactly one read of it; the official RMW bodies
(ASL/LSR/ROL/ROR/INC/DEC memory forms) touch the target with no other
access, while the combo bodies (DCP/ISB/SLO/RLA/SRE/RRA) read the target
one more time after the write, through the arithmetic instruction they
chain to.  Stated as the exact access logs appended by each body. -/
theorem rmw_access_pattern : ∀ (c : CPU FlatBus) (v : Nat),
    ((asl c v).bus.log = c.bus.log ++ [.rd (word v), .wr (word v)]) ∧
    ((lsr c v).bus.log = c.bus.log ++ [.rd (word v), .wr (word v)]) ∧
    ((rol c v).bus.log = c.bus.log ++ [.rd (word v), .wr (word v)]) ∧
    ((ror c v).bus.log = c.bus.log ++ [.rd (word v), .wr (word v)]) ∧
    ((inc c v).bus.log = c.bus.log ++ [.rd (word v), .wr (word v)]) ∧
    ((dec c v).bus.log = c.bus.log ++ [.rd (word v), .wr (word v)]) ∧
    ((dcp c v).bus.log = c.bus.log ++ [.rd (word v), .wr (word v), .rd (word v)]) ∧
    ((isb c v).bus.log = c.bus.log ++ [.rd (word v), .wr (word v), .rd (word v)]) ∧
    ((slo c v).bus.log = c.bus.log ++ [.rd (word v), .wr (word v), .rd (word v)]) ∧
    ((rla c v).bus.log = c.bus.log ++ [.rd (word v), .wr (word v), .rd (word v)]) ∧
    ((sre c v).bus.log = c.bus.log ++ [.rd (word v), .wr (word v), .rd (word v)]) ∧
    ((rra c v).bus.log = c.bus.log ++ [.rd (word v), .wr (word v), .rd (word v)]) := by
  intro c v
  refine ⟨?_, ?_, ?_, ?_, ?_, ?_, ?_, ?_, ?_, ?_, ?_, ?_⟩ <;>
    simp [asl, lsr, rol, ror, inc, dec, dcp, isb, slo, rla, sre, rra, cmp, sbc, ora, and,
          eor, adc, CPU.read, CPU.write]

/-! ### PPU registers (src/ppu/register.rs, src/ppu/vram_address.rs)

Controller, Mask and Status are u8 flag registers; their is_set tests all
share the implementation modeled by pIsSet. -/

namespace Controller

def NMI : Nat := 0x80
def SLAVE : Nat := 0x40
def SPRITE_SIZE : Nat := 0x20
def BG_TABLE_ADDR : Nat := 0x10
def SPRITE_TABLE_ADDR : Nat := 0x08
def VRAM_ADDR_INCR : Nat := 0x04

end Controller

namespace Mask

def SPRITE : Nat := 0x10
def BACKGROUND : Nat := 0x08
def SPRITE_LEFT : Nat := 0x04
def BACKGROUND_LEFT : Nat := 0x02

end Mask

namespace Status

def VBLANK : Nat := 0x80
def SPRITE_ZERO_HIT : Nat := 0x40
def SPRITE_OVERFLOW : Nat := 0x20

end Status

/-- Controller::name_table_select. -/
def ctrl_name_table_select (c : Nat) : Nat := c &&& 0b11

/-- Controller::base_sprite_table_addr. -/
def ctrl_base_sprite_table_addr (c : Nat) : Nat :=
  if pIsSet c Controller.SPRITE_TABLE_ADDR then 0x1000 else 0x0000

/-- Controller::sprite_8x16_pixels. -/
def ctrl_sprite_8x16_pixels (c : Nat) : Bool := pIsSet c Controller.SPRITE_SIZE

/-- Controller::vram_increment. -/
def ctrl_vram_increment (c : Nat) : Nat :=
  if pIsSet c Controller.VRAM_ADDR_INCR then 32 else 1

/-- VRAMAddress::coarse_x_scroll. -/
def coarse_x_scroll (v : Nat) : Nat := v &&& 0b11111

/-- VRAMAddress::coarse_y_scroll.  Rust precedence makes the shift bind
tighter than the mask, so this is v &&& (0b1111100000 >>> 5). -/
def coarse_y_scroll (v : Nat) : Nat := v &&& (0b1111100000 >>> 5)

/-- VRAMAddress::fine_y_scroll. -/
def fine_y_scroll (v : Nat) : Nat := (v &&& 0b111000000000000) >>> 12

/-- VRAMAddress::name_table_address_index. -/
def name_table_address_index (v : Nat) : Nat := v &&& 0b111111111111

/-- VRAMAddress::name_table_select. -/
def vram_name_table_select (v : Nat) : Nat := v &&& 0b110000000000

/-- VRAMAddress::attribute_address_index. -/
def attribute_address_index (v : Nat) : Nat :=
  vram_name_table_select v ||| ((v >>> 4) &&& 0b111000) ||| ((v >>> 2) &&& 0b000111)

/-- ppu::register::Register: the PPU register file and scroll latches. -/
structure Register where
  controller : Nat
  mask : Nat
  status : Nat
  data : Nat
  object_attribute_memory_address : Nat
  v : Nat
  t : Nat
  fine_x : Nat
  write_toggle : Bool

/-- Register::sprite_size. -/
def Register.sprite_size (r : Register) : Nat :=
  if pIsSet r.controller Controller.SPRITE_SIZE then 16 else 8

/-- Register::rendering_enabled. -/
def Register.rendering_enabled (r : Register) : Bool :=
  pIsSet r.mask Mask.SPRITE || pIsSet r.mask Mask.BACKGROUND

/-- Register::is_enabled_background. -/
def Register.is_enabled_background (r : Register) (x : Nat) : Bool :=
  pIsSet r.mask Mask.BACKGROUND && ! (x < 8 && pIsSet r.mask Mask.BACKGROUND_LEFT)

/-- Register::is_enabled_sprite (x is an i32). -/
def Register.is_enabled_sprite (r : Register) (x : Int) : Bool :=
  pIsSet r.mask Mask.SPRITE && ! (x < 8 && pIsSet r.mask Mask.SPRITE_LEFT)

/-- Register::incr_v. -/
def Register.incr_v (r : Register) : Register :=
  { r with v := wordAdd r.v (ctrl_vram_increment r.controller) }

/-- Register::write_controller: latch CTRL and set the nametable bits of t. -/
def Register.write_controller (r : Register) (value : Nat) : Register :=
  let r := { r with controller := value }
  { r with t := (r.t &&& bnot16 0b110000000000) |||
                (ctrl_name_table_select r.controller <<< 10) }

/-- Register::read_status: returns the pre-clear status, clears VBLANK and
resets the write toggle. -/
def Register.read_status (r : Register) : Nat × Register :=
  (r.status, { r with status := pUnset r.status Status.VBLANK, write_toggle := false })

/-- Register::write_scroll: w-toggled coarse-X/fine-X then coarse-Y/fine-Y. -/
def Register.write_scroll (r : Register) (position : Nat) : Register :=
  if ! r.write_toggle then
    { r with t := (r.t &&& bnot16 0b0000000011111) ||| ((position &&& 0b11111000) >>> 3),
             fine_x := position &&& 0b111,
             write_toggle := true }
  else
    { r with t := (r.t &&& bnot16 0b111001111100000) ||| ((position &&& 0b111) <<< 12) |||
                  ((position &&& 0b11111000) <<< 2),
             write_toggle := false }

/-- Register::write_vram_address: w-toggled high-six/low-eight writes, the
second write copying t into v. -/
def Register.write_vram_address (r : Register) (addr : Nat) : Register :=
  if ! r.write_toggle then
    { r with t := (r.t &&& bnot16 0b11111100000000) ||| ((addr &&& 0b111111) <<< 8),
             write_toggle := true }
  else
    let r := { r with t := (r.t &&& bnot16 0b11111111) ||| addr }
    { r with v := r.t, write_toggle := false }

/-- Register::incr_coarse_x: wrap coarse X at 31, toggling the horizontal
nametable bit. -/
def Register.incr_coarse_x (r : Register) : Register :=
  if coarse_x_scroll r.v == 31 then
    let r := { r with v := r.v &&& bnot16 0b11111 }
    { r with v := r.v ^^^ 0x0400 }
  else { r with v := wordAdd r.v 1 }

/-- Register::incr_y: fine Y, then coarse Y with the 29-wrap that toggles
the vertical nametable bit and the 31-wrap that does not. -/
def Register.incr_y (r : Register) : Register :=
  if fine_y_scroll r.v < 7 then { r with v := wordAdd r.v 0x1000 }
  else
    let r := { r with v := r.v &&& bnot16 0x7000 }
    let y := coarse_y_scroll r.v
    let (y, r) :=
      if y == 29 then (0, { r with v := r.v ^^^ 0x0800 })
      else if y == 31 then (0, r)
      else (y + 1, r)
    { r with v := (r.v &&& bnot16 0x03E0) ||| (y <<< 5) }

/-- Register::copy_x. -/
def Register.copy_x (r : Register) : Register :=
  { r with v := (r.v &&& bnot16 0b10000011111) ||| (r.t &&& 0b10000011111) }

/-- Register::copy_y. -/
def Register.copy_y (r : Register) : Register :=
  { r with v := (r.v &&& bnot16 0b111101111100000) ||| (r.t &&& 0b111101111100000) }

/-! ### Background pipeline data (src/ppu/background.rs) -/

def NAME_TABLE_FIRST : Nat := 0x2000
def ATTRIBUTE_TABLE_FIRST : Nat := 0x23C0
def TILE_HEIGHT : Nat := 8

structure BackgroundPixel where
  enabled : Bool
  color : Nat

/-- background::Pixel::ZERO. -/
def BackgroundPixel.ZERO : BackgroundPixel := { enabled := false, color := 0x00 }

structure TilePattern where
  low : Nat
  high : Nat

structure TileAttribute where
  low : Nat
  high : Nat
  low_latch : Bool
  high_latch : Bool

structure Tile where
  pattern : TilePattern
  attr : TileAttribute

/-- Tile::pixel_pallete: sample the fine-X-indexed bits of the pattern and
attribute shift registers. -/
def Tile.pixel_pallete (t : Tile) (x : Nat) : Nat × Nat :=
  let p := byteSub 15 x
  let pixel := (wordNth t.pattern.high p <<< 1) ||| wordNth t.pattern.low p
  let a := byteSub 15 x
  let attr := (nth t.attr.high a <<< 1) ||| nth t.attr.low a
  (pixel, attr)

/-- Tile::shift: advance the pattern and attribute shift registers one bit. -/
def Tile.shift (t : Tile) : Tile :=
  { pattern := { low := wordShl t.pattern.low 1, high := wordShl t.pattern.high 1 },
    attr := { t.attr with
      low := byteShl t.attr.low 1 ||| (if t.attr.low_latch then 1 else 0),
      high := byteShl t.attr.high 1 ||| (if t.attr.high_latch then 1 else 0) } }

/-- Tile::reload: load the next pattern pair into the low shift bytes and
latch the attribute quadrant bits. -/
def Tile.reload (t : Tile) (next_ptn : TilePattern) (next_attr : Nat) : Tile :=
  { pattern := { low := (t.pattern.low &&& 0xFF00) ||| next_ptn.low,
                 high := (t.pattern.high &&& 0xFF00) ||| next_ptn.high },
    attr := { t.attr with
      low_latch := nth next_attr 0 == 1,
      high_latch := nth next_attr 1 == 1 } }

/-! ### Sprites (src/ppu/sprite.rs) -/

def SPRITE_COUNT : Nat := 64
def SPRITE_LIMIT : Nat := 8
def OAM_SIZE : Nat := 4 * SPRITE_COUNT

structure SpritePixel where
  enabled : Bool
  color : Nat
  behide_background : Bool

/-- sprite::Pixel::ZERO. -/
def SpritePixel.ZERO : SpritePixel :=
  { enabled := false, color := 0x00, behide_background := true }

namespace SpriteAttribute

def FLIP_VERTICALLY : Nat := 0x80
def FLIP_HORIZONTALLY : Nat := 0x40
def BEHIND_BACKGROUND : Nat := 0x20

end SpriteAttribute

/-- SpriteAttribute::pallete. -/
def sprite_attr_pallete (a : Nat) : Nat := a &&& 0b11

structure Sprite where
  y : Nat
  tile_index : Nat
  attr : Nat
  x : Nat

/-- Sprite::valid: not all four bytes 0xFF. -/
def Sprite.valid (s : Sprite) : Bool :=
  ! (s.x == 0xFF && s.y == 0xFF && s.tile_index == 0xFF && s.attr == 0xFF)

/-- Sprite::row (u16 wrapping arithmetic, with vertical flip). -/
def Sprite.row (s : Sprite) (line : Nat) (sprite_height : Nat) : Nat :=
  let row := wordSub (wordSub line s.y) 1
  if pIsSet s.attr SpriteAttribute.FLIP_VERTICALLY then
    wordSub (wordSub sprite_height 1) row
  else row

/-- Sprite::col (u16 wrapping arithmetic, with horizontal flip, truncated
to u8 at the end). -/
def Sprite.col (s : Sprite) (x : Nat) : Nat :=
  let col := wordSub 7 (wordSub x s.x)
  if pIsSet s.attr SpriteAttribute.FLIP_HORIZONTALLY then byte (wordSub (wordSub 8 1) col)
  else byte col

/-! ### Scan state (src/ppu.rs) -/

def MAX_DOT : Nat := 340
def MAX_LINE : Nat := 261
def WIDTH : Nat := 256

structure Scan where
  dot : Nat
  line : Nat
deriving Repr, DecidableEq

inductive ScanUpdate where
  | dot
  | line
  | frame
deriving Repr, DecidableEq

/-- Scan::clear. -/
def Scan.clear : Scan := { dot := 0, line := 0 }

/-- Scan::skip. -/
def Scan.skip (s : Scan) : Scan := { s with dot := wordAdd s.dot 1 }

/-- Scan::next_dot: the dot is incremented, and when it reaches MAX_DOT it
is reduced modulo MAX_DOT (340) and the line advances; a line past
MAX_LINE (261) wraps to 0 and reports a frame boundary. -/
def Scan.next_dot (s : Scan) : Scan × ScanUpdate :=
  let dot := wordAdd s.dot 1
  if MAX_DOT ≤ dot then
    let dot := dot % MAX_DOT
    let line := wordAdd s.line 1
    if MAX_LINE < line then ({ dot := dot, line := 0 }, .frame)
    else ({ dot := dot, line := line }, .line)
  else ({ dot := dot, line := s.line }, .dot)

/-! ### The PPU (src/ppu.rs)

The PPU owns its bus (a Box of dyn Memory); arrays (OAM, secondary OAM,
the eight fetched sprites) are modeled as total functions from the index.
An index that would be out of bounds in Rust (a panic) accesses the total
function at that index instead. -/

structure PPU (σ : Type) where
  reg : Register
  bus : σ
  name_table_entry : Nat
  attr_table_entry : Nat
  bg_temp_addr : Nat
  tile : Tile
  next_pattern : TilePattern
  primary_oam : Nat → Nat
  secondary_oam : Nat → Nat
  sprites : Nat → Sprite
  sprite_zero_on_line : Bool
  internal_data_bus : Nat
  frames : Nat
  scan : Scan

/-- Pointwise store into a function-modeled array. -/
def upd (f : Nat → Nat) (i v : Nat) : Nat → Nat :=
  fun j => if j = i then v else f j

/-- Pointwise store into the fetched-sprite array. -/
def updSprite (f : Nat → Sprite) (i : Nat) (v : Sprite) : Nat → Sprite :=
  fun j => if j = i then v else f j

/-- self.bus.read from inside the PPU (addresses are u16-typed). -/
def PPU.busRead (p : PPU σ) (addr : Nat) : Nat × PPU σ :=
  let r := Memory.read p.bus (word addr)
  (r.1, { p with bus := r.2 })

/-- self.bus.write from inside the PPU (addresses are u16-typed). -/
def PPU.busWrite (p : PPU σ) (addr v : Nat) : PPU σ :=
  { p with bus := Memory.write p.bus (word addr) v }

/-- PPU::fetch_background_pixel: the eight-dot background fetch pipeline
(nametable byte, attribute byte, pattern pair), the coarse increments at
dots 256/257, the vertical copy on the pre-render window, and the unused
nametable fetches at dots 337-340. -/
def PPU.fetch_background_pixel (p : PPU σ) : PPU σ :=
  if p.scan.dot == 321 then
    { p with bg_temp_addr := NAME_TABLE_FIRST ||| name_table_address_index p.reg.v }
  else if (1 ≤ p.scan.dot ∧ p.scan.dot ≤ 255) ∨ (322 ≤ p.scan.dot ∧ p.scan.dot ≤ 336) then
    match p.scan.dot % 8 with
    | 1 =>
        { p with bg_temp_addr := NAME_TABLE_FIRST ||| name_table_address_index p.reg.v,
                 tile := p.tile.reload p.next_pattern p.attr_table_entry }
    | 2 =>
        let (v, p) := p.busRead p.bg_temp_addr
        { p with name_table_entry := v }
    | 3 =>
        { p with bg_temp_addr := ATTRIBUTE_TABLE_FIRST ||| attribute_address_index p.reg.v }
    | 4 =>
        let (v, p) := p.busRead p.bg_temp_addr
        let v := if wordNth (coarse_x_scroll p.reg.v) 1 == 1 then byteShr v 2 else v
        let v := if wordNth (coarse_y_scroll p.reg.v) 1 == 1 then byteShr v 4 else v
        { p with attr_table_entry := v }
    | 5 =>
        let base := if pIsSet p.reg.controller Controller.BG_TABLE_ADDR then 0x1000 else 0x0000
        let index := byteMul (byteMul p.name_table_entry TILE_HEIGHT) 2
        { p with bg_temp_addr := wordAdd (wordAdd base index) (fine_y_scroll p.reg.v) }
    | 6 =>
        let (v, p) := p.busRead p.bg_temp_addr
        { p with next_pattern := { p.next_pattern with low := v } }
    | 7 =>
        { p with bg_temp_addr := wordAdd p.bg_temp_addr TILE_HEIGHT }
    | 0 =>
        let (v, p) := p.busRead p.bg_temp_addr
        let p := { p with next_pattern := { p.next_pattern with high := v } }
        if p.reg.rendering_enabled then { p with reg := p.reg.incr_coarse_x } else p
    | _ => p
  else if p.scan.dot == 256 then
    let (v, p) := p.busRead p.bg_temp_addr
    let p := { p with next_pattern := { p.next_pattern with high := v } }
    if p.reg.rendering_enabled then { p with reg := p.reg.incr_y } else p
  else if p.scan.dot == 257 then
    let p := { p with tile := p.tile.reload p.next_pattern p.attr_table_entry }
    if p.reg.rendering_enabled then { p with reg := p.reg.copy_x } else p
  else if 280 ≤ p.scan.dot ∧ p.scan.dot ≤ 304 then
    if p.scan.line == 261 ∧ p.reg.rendering_enabled then { p with reg := p.reg.copy_y } else p
  else if p.scan.dot == 337 ∨ p.scan.dot == 339 then
    { p with bg_temp_addr := NAME_TABLE_FIRST ||| name_table_address_index p.reg.v }
  else if p.scan.dot == 338 ∨ p.scan.dot == 340 then
    let (v, p) := p.busRead p.bg_temp_addr
    { p with name_table_entry := v }
  else p

/-- PPU::get_background_pixel: sample the shift registers at fine X, shift
them on dots 1-256 and 321-336, and read the palette color. -/
def PPU.get_background_pixel (p : PPU σ) (x : Nat) : BackgroundPixel × PPU σ :=
  let (pixel, pallete) := p.tile.pixel_pallete p.reg.fine_x
  let p :=
    if (1 ≤ p.scan.dot ∧ p.scan.dot ≤ 256) ∨ (321 ≤ p.scan.dot ∧ p.scan.dot ≤ 336) then
      { p with tile := p.tile.shift }
    else p
  if p.reg.is_enabled_background x then
    let (color, p) := p.busRead (wordAdd (wordAdd (wordMul pallete 4) pixel) 0x3F00)
    ({ enabled := pixel != 0, color := color }, p)
  else (BackgroundPixel.ZERO, p)

/-- The sprite-evaluation loop over the 64 primary-OAM entries (the dot-0
body of PPU::fetch_sprite_pixel).  The state threads the secondary OAM,
the sprite-zero-on-line flag, the accepted count n, and the position of
the secondary-OAM write iterator, which advances by one on every tested
sprite and by four when a sprite is copied; writes past index 31 (which
would panic the Rust iterato) land harmlessly in the total function. -/
def spriteEvalGo (line sprite_size : Nat) (primary : Nat → Nat) :
    List Nat → (Nat → Nat) × Bool × Nat × Nat → (Nat → Nat) × Bool × Nat × Nat
  | [], st => st
  | i :: rest, (sec, szol, n, pos) =>
      let first := i * 4
      let y := primary first
      if pos < 32 then
        let row := wordSub line (primary first)
        if row < sprite_size then
          let szol := if n == 0 then true else szol
          let sec := upd sec pos y
          let sec := upd sec (pos + 1) (primary (first + 1))
          let sec := upd sec (pos + 2) (primary (first + 2))
          let sec := upd sec (pos + 3) (primary (first + 3))
          spriteEvalGo line sprite_size primary rest (sec, szol, n + 1, pos + 4)
        else spriteEvalGo line sprite_size primary rest (sec, szol, n, pos + 1)
      else spriteEvalGo line sprite_size primary rest (sec, szol, n, pos)

/-- PPU::fetch_sprite_pixel: dot 0 runs sprite evaluation into secondary
OAM (setting SPRITE_OVERFLOW when eight or more sprites were accepted and
rendering is enabled); dots 257-320 latch one of the eight Sprite structs
from secondary OAM (tile_index, attr and x all read the same byte, as in
the source). -/
def PPU.fetch_sprite_pixel (p : PPU σ) : PPU σ :=
  if p.scan.dot == 0 then
    let sprite_size := if pIsSet p.reg.controller Controller.SPRITE_SIZE then 16 else 8
    let st := spriteEvalGo p.scan.line sprite_size p.primary_oam
      (List.range SPRITE_COUNT) (fun _ => 0, false, 0, 0)
    let p := { p with secondary_oam := st.1, sprite_zero_on_line := st.2.1 }
    if SPRITE_LIMIT ≤ st.2.2.1 ∧ p.reg.rendering_enabled then
      { p with reg := { p.reg with status := pSet p.reg.status Status.SPRITE_OVERFLOW } }
    else p
  else if 257 ≤ p.scan.dot ∧ p.scan.dot ≤ 320 then
    let i := (wordSub p.scan.dot 257) / 8
    let n := wordMul i 4
    let spr : Sprite :=
      { y := p.secondary_oam n,
        tile_index := p.secondary_oam (n + 1),
        attr := p.secondary_oam (n + 1),
        x := p.secondary_oam (n + 1) }
    { p with sprites := updSprite p.sprites i spr }
  else p

/-- The per-sprite loop of PPU::get_sprite_pixel: break on the first
invalid sprite, skip out-of-range sprites, compose the 2-bit pixel with
flips, set SPRITE_ZERO_HIT under the guard conditions, and return the
first opaque sprite pixel. -/
def getSpritePixelGo (x : Int) (y : Nat) (bg : BackgroundPixel) :
    PPU σ → List Nat → SpritePixel × PPU σ
  | p, [] => (SpritePixel.ZERO, p)
  | p, i :: rest =>
      let sprite := p.sprites i
      if ¬ sprite.valid then (SpritePixel.ZERO, p)
      else if (sprite.x : Int) < x - 7 ∧ x < (sprite.x : Int) then
        getSpritePixelGo x y bg p rest
      else
        let row := sprite.row y p.reg.sprite_size
        let col := sprite.col ((x.emod 65536).toNat)
        let tile_idx := sprite.tile_index
        let (base, tile_idx, row) :=
          if ctrl_sprite_8x16_pixels p.reg.controller then
            let tile_idx := tile_idx &&& 0xFE
            let (tile_idx, row) :=
              if 7 < row then (wordAdd tile_idx 1, row - 8) else (tile_idx, row)
            (tile_idx &&& 1, tile_idx, row)
          else (ctrl_base_sprite_table_addr p.reg.controller, tile_idx, row)
        let tile_addr := wordAdd (wordAdd base (wordMul tile_idx 16)) row
        let (low, p) := p.busRead tile_addr
        let (high, p) := p.busRead (wordAdd tile_addr 8)
        let pixel := byteAdd (nth low col) (byteShl (nth high col) 1)
        if pixel == 0 then getSpritePixelGo x y bg p rest
        else
          let p :=
            if i == 0 ∧ p.sprite_zero_on_line ∧
               ¬ pIsSet p.reg.status Status.SPRITE_ZERO_HIT ∧
               sprite.x ≠ 0xFF ∧ x < 0xFF ∧ bg.enabled then
              { p with reg := { p.reg with status := pSet p.reg.status Status.SPRITE_ZERO_HIT } }
            else p
          let addr := wordAdd (wordAdd 0x3F10 (wordMul (sprite_attr_pallete sprite.attr) 4)) pixel
          let (color, p) := p.busRead addr
          ({ enabled := pixel != 0, color := color,
             behide_background := pIsSet sprite.attr SpriteAttribute.BEHIND_BACKGROUND }, p)

/-- PPU::get_sprite_pixel. -/
def PPU.get_sprite_pixel (p : PPU σ) (x : Int) (bg : BackgroundPixel) : SpritePixel × PPU σ :=
  if ¬ p.reg.is_enabled_sprite x then (SpritePixel.ZERO, p)
  else getSpritePixelGo x p.scan.line bg p (List.range SPRITE_LIMIT)

/-- PPU::select_pixel. -/
def PPU.select_pixel (p : PPU σ) (bg : BackgroundPixel) (sprite : SpritePixel) : Nat × PPU σ :=
  match bg.enabled, sprite.enabled with
  | false, false => p.busRead 0x3F00
  | false, true => (sprite.color, p)
  | true, false => (bg.color, p)
  | true, true => if sprite.behide_background then (bg.color, p) else (sprite.color, p)

/-! ### Interrupt latch (src/interrupt.rs) -/

namespace Interrupt

def RESET : Nat := 1 <<< 3
def NMI : Nat := 1 <<< 2
def IRQ : Nat := 1 <<< 1
def BRK : Nat := 1 <<< 0
def NO_INTERRUPT : Nat := 0

/-- Interrupt::get: the highest-priority pending bit. -/
def get (i : Nat) : Nat :=
  if pIsSet i RESET then RESET
  else if pIsSet i NMI then NMI
  else if pIsSet i IRQ then IRQ
  else if pIsSet i BRK then BRK
  else NO_INTERRUPT

/-- Interrupt::set. -/
def set (i s : Nat) : Nat := i ||| s

/-- Interrupt::unset. -/
def unset (i s : Nat) : Nat := i &&& bnot8 s

end Interrupt

/-- PPU::step: one dot.  Returns the raised interrupt (the Interrupt::NMI
bit) if any, and the successor PPU.  The first match arm covers lines
0-239 only, binding pre_rendered to (line == 261), which is always false
there; line 261 falls into the final catch-all arm, so the pre-render
status clear and the odd-frame dot skip written under pre_rendered are
unreachable.  After the match the scan advances, counting a frame when
the scan wraps. -/
def PPU.step (p : PPU σ) : Option Nat × PPU σ :=
  let r : Option Nat × PPU σ :=
    if p.scan.line ≤ 239 then
      let pre_rendered := p.scan.line == 261
      let x := wordSub p.scan.dot 2
      let rb := p.get_background_pixel x
      let bg := rb.1
      let p := rb.2
      let rs := p.get_sprite_pixel (x : Int) bg
      let sprite := rs.1
      let p := rs.2
      let p :=
        if p.reg.rendering_enabled then (p.fetch_background_pixel).fetch_sprite_pixel
        else p
      let p :=
        if p.scan.line < MAX_LINE ∧ x < WIDTH then
          let rp := if p.reg.rendering_enabled then p.select_pixel bg sprite else (0, p)
          rp.2
        else p
      let p :=
        if pre_rendered then
          let p :=
            if p.scan.dot == 1 then
              let st := pUnset p.reg.status
                (Status.VBLANK ||| Status.SPRITE_ZERO_HIT ||| Status.SPRITE_OVERFLOW)
              { p with reg := { p.reg with status := st } }
            else p
          if p.scan.dot == 341 ∧ p.reg.rendering_enabled ∧ p.frames % 2 ≠ 0 then
            { p with scan := p.scan.skip }
          else p
        else p
      (none, p)
    else if p.scan.line == 240 then (none, p)
    else if p.scan.line == 241 then
      if p.scan.dot == 1 then
        let p := { p with reg := { p.reg with status := pSet p.reg.status Status.VBLANK } }
        if pIsSet p.reg.controller Controller.NMI then (some Interrupt.NMI, p) else (none, p)
      else (none, p)
    else (none, p)
  let interrupt := r.1
  let p := r.2
  let rs := p.scan.next_dot
  let p := { p with scan := rs.1 }
  let p := if rs.2 = ScanUpdate.frame then { p with frames := p.frames + 1 } else p
  (interrupt, p)

/-- PPU::read_register: ports 0x2002 (status with open-bus low bits, the
race suppression near VBLANK onset, clearing VBLANK and w), 0x2004 (OAM
data, 0xFF during the sprite-evaluation window), 0x2007 (buffered VRAM
reads below 0x3F00, direct palette reads, v increment), open bus
otherwise; every read refreshes the internal data bus. -/
def PPU.read_register (p : PPU σ) (addr : Nat) : Nat × PPU σ :=
  let r : Nat × PPU σ :=
    if addr == 0x2002 then
      let rs := p.reg.read_status
      let p := { p with reg := rs.2 }
      let result := rs.1 ||| (p.internal_data_bus &&& 0b11111)
      let result :=
        if p.scan.line == 241 ∧ p.scan.dot < 2 then result &&& bnot8 0x80 else result
      (result, p)
    else if addr == 0x2004 then
      if p.scan.line < 240 ∧ 1 ≤ p.scan.dot ∧ p.scan.dot ≤ 64 then (0xFF, p)
      else (p.primary_oam p.reg.object_attribute_memory_address, p)
    else if addr == 0x2007 then
      let rr : Nat × PPU σ :=
        if p.reg.v ≤ 0x3EFF then
          let data := p.reg.data
          let rv := p.busRead p.reg.v
          (data, { rv.2 with reg := { rv.2.reg with data := rv.1 } })
        else p.busRead p.reg.v
      (rr.1, { rr.2 with reg := rr.2.reg.incr_v })
    else (0x00, p)
  (r.1, { r.2 with internal_data_bus := r.1 })

/-- PPU::write_register: ports 0x2000 (CTRL and nametable bits of t),
0x2001 (MASK), 0x2003 (OAMADDR), 0x2004 (OAM data, incrementing OAMADDR),
0x2005 (scroll), 0x2006 (VRAM address), 0x2007 (VRAM write, incrementing
v). -/
def PPU.write_register (p : PPU σ) (addr value : Nat) : PPU σ :=
  if addr == 0x2000 then { p with reg := p.reg.write_controller value }
  else if addr == 0x2001 then { p with reg := { p.reg with mask := value } }
  else if addr == 0x2003 then
    { p with reg := { p.reg with object_attribute_memory_address := value } }
  else if addr == 0x2004 then
    let p := { p with primary_oam := upd p.primary_oam p.reg.object_attribute_memory_address value }
    { p with reg := { p.reg with object_attribute_memory_address :=
        p.reg.object_attribute_memory_address + 1 } }
  else if addr == 0x2005 then { p with reg := p.reg.write_scroll value }
  else if addr == 0x2006 then { p with reg := p.reg.write_vram_address value }
  else if addr == 0x2007 then
    let p := p.busWrite p.reg.v value
    { p with reg := p.reg.incr_v }
  else p

/-! ### Buses and the cartridge mapper contract (src/memory_map.rs,
src/types.rs).  The mapper (dyn Mapper behind an Rc) is abstract: any type
with read, write and mirroring.  The single mapper instance shared by the
CPU bus and the PPU bus lives inside the PPU's bus. -/

inductive Mirroring where
  | vertical
  | horizontal
deriving Repr, DecidableEq

class Mapper (μ : Type) where
  read : μ → Nat → Nat
  write : μ → Nat → Nat → μ
  mirroring : μ → Mirroring

structure PPUBus (μ : Type) where
  name_table : Nat → Nat
  pallete_ram_idx : Nat → Nat
  mapper : μ
  mirroring : Mirroring

/-- PPUBus::to_name_table_address. -/
def PPUBus.to_name_table_address (b : PPUBus μ) (base : Nat) : Nat :=
  match b.mirroring with
  | .vertical => base &&& 0x0800
  | .horizontal =>
      if 0x2800 ≤ base then word (0x0800 + base) % 0x0400 else base % 0x0400

/-- PPUBus::to_pallete_address. -/
def to_pallete_address (base : Nat) : Nat :=
  let addr := base % 32
  if addr % 4 == 0 then addr ||| 0x10 else addr

instance instMemoryPPUBus [Mapper μ] : Memory (PPUBus μ) where
  read b addr :=
    if addr ≤ 0x1FFF then (Mapper.read b.mapper addr, b)
    else if addr ≤ 0x2FFF then (byte (b.name_table (b.to_name_table_address addr)), b)
    else if addr ≤ 0x3EFF then
      (byte (b.name_table (b.to_name_table_address (addr - 0x1000))), b)
    else if addr ≤ 0x3FFF then (byte (b.pallete_ram_idx (to_pallete_address addr)), b)
    else (0, b)
  write b addr v :=
    if addr ≤ 0x1FFF then { b with mapper := Mapper.write b.mapper addr v }
    else if addr ≤ 0x2FFF then
      { b with name_table := upd b.name_table (b.to_name_table_address addr) (byte v) }
    else if addr ≤ 0x3EFF then
      { b with name_table := upd b.name_table (b.to_name_table_address (addr - 0x1000)) (byte v) }
    else if addr ≤ 0x3FFF then
      { b with pallete_ram_idx := upd b.pallete_ram_idx (to_pallete_address addr) (byte v) }
    else b

/-- The CPU bus (impl Memory for CPUBus): 0x2000-byte work RAM indexed
directly (not masked), the PPU register window, and the mapper window. -/
structure CPUBus (μ : Type) where
  wram : Nat → Nat
  ppu : PPU (PPUBus μ)

/-- to_ppu_addr (src/memory_map.rs): (0x2000 wrapping_add addr) mod 8. -/
def to_ppu_addr (addr : Nat) : Nat := word (0x2000 + addr) % 8

instance instMemoryCPUBus [Mapper μ] : Memory (CPUBus μ) where
  read b addr :=
    if addr ≤ 0x1FFF then (byte (b.wram addr), b)
    else if addr ≤ 0x3FFF then
      let r := b.ppu.read_register (to_ppu_addr addr)
      (r.1, { b with ppu := r.2 })
    else if 0x4020 ≤ addr ∧ addr ≤ 0xFFFF then (Mapper.read b.ppu.bus.mapper addr, b)
    else (0, b)
  write b addr v :=
    if addr ≤ 0x1FFF then { b with wram := upd b.wram addr (byte v) }
    else if addr ≤ 0x3FFF then { b with ppu := b.ppu.write_register (to_ppu_addr addr) v }
    else if 0x4020 ≤ addr ∧ addr ≤ 0xFFFF then
      { b with ppu := { b.ppu with bus :=
          { b.ppu.bus with mapper := Mapper.write b.ppu.bus.mapper addr v } } }
    else b

/-! ### The scheduler (src/nes.rs).  The Rust NES shares one PPU between
the scheduler and the CPU bus through an Rc of a RefCell; here the PPU is
stored once, inside the CPU bus, and the scheduler reaches it through
cpu.bus.ppu. -/

structure NES (μ : Type) where
  cpu : CPU (CPUBus μ)
  interrupt : Nat
  cycles : Nat

def U128_MAX : Nat := 2 ^ 128 - 1

/-- NES::diff_cycles.  (With the cycle counter modeled as unbounded Nat,
before is always at most after and the second branch is not taken.) -/
def NES.diff_cycles (before after : Nat) : Nat :=
  if before ≤ after then after - before else U128_MAX - before + after

/-- NES::handle_interrupt: the pre-instruction interrupt poll.  RESET and
NMI are always serviced and cleared; IRQ and BRK are serviced and cleared
only when cpu.interrupted() is true, that is, when the I flag is SET. -/
def NES.handle_interrupt [Mapper μ] (n : NES μ) : NES μ :=
  let interrupt := Interrupt.get n.interrupt
  if interrupt = Interrupt.RESET then
    { n with cpu := n.cpu.reset, interrupt := Interrupt.unset n.interrupt interrupt }
  else if interrupt = Interrupt.NMI then
    { n with cpu := n.cpu.non_markable_interrupt,
             interrupt := Interrupt.unset n.interrupt interrupt }
  else if interrupt = Interrupt.IRQ then
    if n.cpu.interrupted then
      { n with cpu := n.cpu.interrupt_request,
               interrupt := Interrupt.unset n.interrupt interrupt }
    else n
  else if interrupt = Interrupt.BRK then
    if n.cpu.interrupted then
      { n with cpu := n.cpu.break_interrupt,
               interrupt := Interrupt.unset n.interrupt interrupt }
    else n
  else n

/-- NES::cpu_step: poll interrupts, run one CPU instruction, and report
the consumed cycles. -/
def NES.cpu_step [Mapper μ] (n : NES μ) : Nat × NES μ :=
  let before := n.cpu.cycles
  let n := n.handle_interrupt
  let n := { n with cpu := n.cpu.step }
  let after := n.cpu.cycles
  (NES.diff_cycles before after, n)

/-- One iteration of the PPU-tick loop inside NES::step: a single PPU
dot, latching any interrupt the PPU raises.  (The line comparison around
each tick drives only a render TODO in the source and has no effect.) -/
def NES.tick [Mapper μ] (n : NES μ) : NES μ :=
  let r := n.cpu.bus.ppu.step
  { n with cpu := { n.cpu with bus := { n.cpu.bus with ppu := r.2 } },
           interrupt := match r.1 with
             | some it => Interrupt.set n.interrupt it
             | none => n.interrupt }

/-- The PPU-tick loop inside NES::step: run the given number of dots. -/
def NES.ppu_ticks [Mapper μ] : Nat → NES μ → NES μ
  | 0, n => n
  | k + 1, n => NES.ppu_ticks k n.tick

/-- NES::step: one CPU step, then three PPU dots per consumed CPU cycle. -/
def NES.step [Mapper μ] (n : NES μ) : NES μ :=
  let r := n.cpu_step
  let n := { r.2 with cycles := r.2.cycles + r.1 }
  NES.ppu_ticks (r.1 * 3) n

/-- The loop body of NES::frame, with explicit fuel standing in for the
unbounded Rust loop: step, then exit once the frame counter has moved
away from the value captured at entry.  Returns none only when the fuel
runs out. -/
def NES.frame_go [Mapper μ] : Nat → Nat → NES μ → Option (NES μ)
  | 0, _, _ => none
  | fuel + 1, current, n =>
      let n := n.step
      if n.cpu.bus.ppu.frames ≠ current then some n
      else NES.frame_go fuel current n

/-- NES::frame: repeatedly step until the PPU frame counter advances. -/
def NES.frame [Mapper μ] (fuel : Nat) (n : NES μ) : Option (NES μ) :=
  NES.frame_go fuel n.cpu.bus.ppu.frames n

/-! ### Default states (Default derives and PPU::new / NES::default) -/

def defaultRegister : Register :=
  { controller := 0, mask := 0, status := 0, data := 0,
    object_attribute_memory_address := 0, v := 0, t := 0, fine_x := 0, write_toggle := false }

def defaultTile : Tile :=
  { pattern := { low := 0, high := 0 },
    attr := { low := 0, high := 0, low_latch := false, high_latch := false } }

def defaultSprite : Sprite := { y := 0, tile_index := 0, attr := 0, x := 0 }

/-- PPU::new: every register, latch, counter and memory zeroed, over the
given bus. -/
def PPU.new (bus : σ) : PPU σ :=
  { reg := defaultRegister, bus := bus, name_table_entry := 0, attr_table_entry := 0,
    bg_temp_addr := 0, tile := defaultTile, next_pattern := { low := 0, high := 0 },
    primary_oam := fun _ => 0, secondary_oam := fun _ => 0, sprites := fun _ => defaultSprite,
    sprite_zero_on_line := false, internal_data_bus := 0, frames := 0,
    scan := { dot := 0, line := 0 } }

/-- A trivial test mapper over Unit: reads return 0, writes are dropped.
Stands in for the abstract dyn Mapper in concrete scenario states. -/
instance : Mapper Unit where
  read _ _ := 0
  write m _ _ := m
  mirroring _ := .vertical

/-- A fresh PPU bus over the trivial mapper. -/
def ppuBus0 : PPUBus Unit :=
  { name_table := fun _ => 0, pallete_ram_idx := fun _ => 0, mapper := (),
    mirroring := .vertical }

/-- A fresh CPU bus (zeroed work RAM, fresh PPU) over the trivial mapper. -/
def cpuBus0 : CPUBus Unit := { wram := fun _ => 0, ppu := PPU.new ppuBus0 }

/-! ### Claim theorems about the PPU, the buses and the scheduler -/

/-- C3: the scan does not advance dots modulo 341.  From an in-range state
the dot wraps as (dot+1) mod 340: after dot 339 the line ends and the next
line begins at dot 0, so dot 340 is never reached (the claimed advancement
(dot+1) mod 341 would keep dot 340 on the same line); and if the dot were
340, the successor dot would be 341 mod 340 = 1, not (340+1) mod 341 = 0.
Scan::next_dot compares MAX_DOT (340) with less-or-equal and reduces
modulo MAX_DOT, so each line has 340 dots instead of 341. -/
theorem scan_wraps_at_339 :
    Scan.next_dot { dot := 339, line := 0 } = ({ dot := 0, line := 1 }, .line) ∧
    Scan.next_dot { dot := 340, line := 0 } = ({ dot := 1, line := 1 }, .line) ∧
    Scan.next_dot { dot := 339, line := 261 } = ({ dot := 0, line := 0 }, .frame) := by
  decide

/-- C2: at scan line 261 (pre-render) dot 1, one PPU step does NOT clear
the VBLANK, sprite-0-hit and sprite-overflow bits: PPUSTATUS is unchanged.
The clearing code sits under the match arm for lines 0 to 239 (whose
pre_rendered binding is false there), and line 261 falls into the final
catch-all arm, which only advances the scan. -/
theorem prerender_does_not_clear_status {σ : Type} [Memory σ] (p : PPU σ)
    (hl : p.scan.line = 261) (hd : p.scan.dot = 1) :
    ((PPU.step p).2).reg.status = p.reg.status := by
  simp [PPU.step, hl, hd, Scan.next_dot, wordAdd, MAX_DOT, MAX_LINE]

/-- Concrete pre-render state for C2: line 261, dot 1, with VBLANK,
sprite-0-hit and sprite-overflow all set (status = 0xE0). -/
def ppuC2 : PPU FlatBus :=
  { PPU.new { mem := fun _ => 0, log := [] } with
    reg := { defaultRegister with status := 0xE0 },
    scan := { dot := 1, line := 261 } }

/-- Witness for C2 at the concrete state: the status bits stay 0xE0. -/
theorem prerender_does_not_clear_status_witness :
    ppuC2.scan.line = 261 ∧ ppuC2.scan.dot = 1 ∧
    ((PPU.step ppuC2).2).reg.status = ppuC2.reg.status :=
  ⟨by decide, by decide, prerender_does_not_clear_status ppuC2 (by decide) (by decide)⟩

/-- Work-RAM image after writing 0x42 to address 0x0000 through the CPU
bus. -/
def busC5 : CPUBus Unit := Memory.write cpuBus0 0x0000 0x42

/-- C5: the CPU bus does not mirror work RAM every 0x0800 bytes.  The
wram array is 0x2000 bytes indexed by the raw address with no 0x07FF
mask, so after writing 0x42 at 0x0000, reading 0x0800 (which the claim
says must alias 0x0000) still returns 0x00 while 0x0000 returns 0x42. -/
theorem wram_not_mirrored :
    (Memory.read busC5 0x0800).1 = 0x00 ∧ (Memory.read busC5 0x0000).1 = 0x42 := by
  decide

/-- Concrete NES state with an IRQ pending and the I flag CLEAR: by the
claim the poll must service the IRQ; the code does nothing. -/
def nesC1 : NES Unit :=
  { cpu := { a := 0, x := 0, y := 0, s := 0xFD, p := 0x00, pc := 0x8000, cycles := 0,
             bus := cpuBus0 },
    interrupt := Interrupt.IRQ, cycles := 0 }

/-- Concrete NES state with an IRQ pending and the I flag SET (P = 0x04):
by the claim the poll must not service the IRQ; the code services it. -/
def nesC1I : NES Unit :=
  { cpu := { a := 0, x := 0, y := 0, s := 0xFD, p := 0x04, pc := 0x8000, cycles := 0,
             bus := cpuBus0 },
    interrupt := Interrupt.IRQ, cycles := 0 }

/-- C1: the scheduler's IRQ gating is inverted.  With IRQ pending and I
clear, handle_interrupt leaves the latch set, consumes no cycles and does
not load the vector (the IRQ is not serviced); with IRQ pending and I set,
it clears the latch, runs the 7-cycle IRQ entry and loads PC from the
0xFFFE/F vector (0x0000 under the trivial mapper).  CPU::interrupted
returns true when I is SET, and the scheduler services IRQ when
interrupted() is true -- the opposite of the claimed gate.  (cpu.step()
additionally always runs after the poll, serviced or not.) -/
theorem irq_gating_inverted :
    ((NES.handle_interrupt nesC1).interrupt = Interrupt.IRQ ∧
     (NES.handle_interrupt nesC1).cpu.cycles = 0 ∧
     (NES.handle_interrupt nesC1).cpu.pc = 0x8000) ∧
    ((NES.handle_interrupt nesC1I).interrupt = 0 ∧
     (NES.handle_interrupt nesC1I).cpu.cycles = 7 ∧
     (NES.handle_interrupt nesC1I).cpu.pc = 0x0000) := by
  decide


/-! ### Infrastructure for the frame-termination claim: every CPU
operation is cycle-monotone and preserves any invariant that survives raw
bus accesses.  BusPres packages the invariant's stability under
Memory.read and Memory.write; COK and VOK state monotonicity plus
preservation for state-transforming and value-returning CPU operations. -/

section CycleMono

variable {σ : Type} [Memory σ] (P : σ → Prop)

/-- The bus invariant survives every raw bus access. -/
def BusPres : Prop :=
  (∀ b a, P b → P (Memory.read b a).2) ∧ (∀ b a v, P b → P (Memory.write b a v))

/-- Cycle monotonicity plus bus-invariant preservation, for state steps. -/
def COK (f : CPU σ → CPU σ) : Prop :=
  ∀ c, c.cycles ≤ (f c).cycles ∧ (P c.bus → P (f c).bus)

/-- The same for value-returning operations. -/
def VOK (f : CPU σ → Nat × CPU σ) : Prop :=
  ∀ c, c.cycles ≤ (f c).2.cycles ∧ (P c.bus → P (f c).2.bus)

theorem COK_lda (hbp : BusPres P) (v : Nat) : COK P (fun c => lda c v) := by
  intro c
  simp only [lda, ldx, ldy, sta, stx, sty, tax, tsx, tay, txa, txs, tya, pha, php, pla, plp, and, eor, ora, bit, adc, sbc, cmp, cpx, cpy, inc, inx, iny, dec, dex, dey, asl, asl_for_accumelator, lsr, lsr_for_accumelator, rol, rol_for_accumelator, ror, ror_for_accumelator, jmp, jsr, rts, rti, bcc, bcs, beq, bmi, bne, bpl, bvc, bvs, clc, cld, cli, clv, sec, sed, sei, brk, nop, branch, lax, sax, dcp, isb, slo, rla, sre, rra, CPU.reset, CPU.non_markable_interrupt, CPU.interrupt_request, CPU.break_interrupt, CPU.read, CPU.write, CPU.read_word, CPU.read_on_indirect, CPU.push_stack, CPU.push_stack_word, CPU.pull_stack, CPU.pull_stack_word]
  refine ⟨?_, fun hp => ?_⟩ <;> (try split_ifs) <;>
    (try dsimp only) <;>
    (first
      | omega
      | ((repeat (first | apply hbp.1 | apply hbp.2)); exact hp))

theorem COK_ldx (hbp : BusPres P) (v : Nat) : COK P (fun c => ldx c v) := by
  intro c
  simp only [lda, ldx, ldy, sta, stx, sty, tax, tsx, tay, txa, txs, tya, pha, php, pla, plp, and, eor, ora, bit, adc, sbc, cmp, cpx, cpy, inc, inx, iny, dec, dex, dey, asl, asl_for_accumelator, lsr, lsr_for_accumelator, rol, rol_for_accumelator, ror, ror_for_accumelator, jmp, jsr, rts, rti, bcc, bcs, beq, bmi, bne, bpl, bvc, bvs, clc, cld, cli, clv, sec, sed, sei, brk, nop, branch, lax, sax, dcp, isb, slo, rla, sre, rra, CPU.reset, CPU.non_markable_interrupt, CPU.interrupt_request, CPU.break_interrupt, CPU.read, CPU.write, CPU.read_word, CPU.read_on_indirect, CPU.push_stack, CPU.push_stack_word, CPU.pull_stack, CPU.pull_stack_word]
  refine ⟨?_, fun hp => ?_⟩ <;> (try split_ifs) <;>
    (try dsimp only) <;>
    (first
      | omega
      | ((repeat (first | apply hbp.1 | apply hbp.2)); exact hp))

theorem COK_ldy (hbp : BusPres P) (v : Nat) : COK P (fun c => ldy c v) := by
  intro c
  simp only [lda, ldx, ldy, sta, stx, sty, tax, tsx, tay, txa, txs, tya, pha, php, pla, plp, and, eor, ora, bit, adc, sbc, cmp, cpx, cpy, inc, inx, iny, dec, dex, dey, asl, asl_for_accumelator, lsr, lsr_for_accumelator, rol, rol_for_accumelator, ror, ror_for_accumelator, jmp, jsr, rts, rti, bcc, bcs, beq, bmi, bne, bpl, bvc, bvs, clc, cld, cli, clv, sec, sed, sei, brk, nop, branch, lax, sax, dcp, isb, slo, rla, sre, rra, CPU.reset, CPU.non_markable_interrupt, CPU.interrupt_request, CPU.break_interrupt, CPU.read, CPU.write, CPU.read_word, CPU.read_on_indirect, CPU.push_stack, CPU.push_stack_word, CPU.pull_stack, CPU.pull_stack_word]
  refine ⟨?_, fun hp => ?_⟩ <;> (try split_ifs) <;>
    (try dsimp only) <;>
    (first
      | omega
      | ((repeat (first | apply hbp.1 | apply hbp.2)); exact hp))

theorem COK_sta (hbp : BusPres P) (v : Nat) : COK P (fun c => sta c v) := by
  intro c
  simp only [lda, ldx, ldy, sta, stx, sty, tax, tsx, tay, txa, txs, tya, pha, php, pla, plp, and, eor, ora, bit, adc, sbc, cmp, cpx, cpy, inc, inx, iny, dec, dex, dey, asl, asl_for_accumelator, lsr, lsr_for_accumelator, rol, rol_for_accumelator, ror, ror_for_accumelator, jmp, jsr, rts, rti, bcc, bcs, beq, bmi, bne, bpl, bvc, bvs, clc, cld, cli, clv, sec, sed, sei, brk, nop, branch, lax, sax, dcp, isb, slo, rla, sre, rra, CPU.reset, CPU.non_markable_interrupt, CPU.interrupt_request, CPU.break_interrupt, CPU.read, CPU.write, CPU.read_word, CPU.read_on_indirect, CPU.push_stack, CPU.push_stack_word, CPU.pull_stack, CPU.pull_stack_word]
  refine ⟨?_, fun hp => ?_⟩ <;> (try split_ifs) <;>
    (try dsimp only) <;>
    (first
      | omega
      | ((repeat (first | apply hbp.1 | apply hbp.2)); exact hp))

theorem COK_stx (hbp : BusPres P) (v : Nat) : COK P (fun c => stx c v) := by
  intro c
  simp only [lda, ldx, ldy, sta, stx, sty, tax, tsx, tay, txa, txs, tya, pha, php, pla, plp, and, eor, ora, bit, adc, sbc, cmp, cpx, cpy, inc, inx, iny, dec, dex, dey, asl, asl_for_accumelator, lsr, lsr_for_accumelator, rol, rol_for_accumelator, ror, ror_for_accumelator, jmp, jsr, rts, rti, bcc, bcs, beq, bmi, bne, bpl, bvc, bvs, clc, cld, cli, clv, sec, sed, sei, brk, nop, branch, lax, sax, dcp, isb, slo, rla, sre, rra, CPU.reset, CPU.non_markable_interrupt, CPU.interrupt_request, CPU.break_interrupt, CPU.read, CPU.write, CPU.read_word, CPU.read_on_indirect, CPU.push_stack, CPU.push_stack_word, CPU.pull_stack, CPU.pull_stack_word]
  refine ⟨?_, fun hp => ?_⟩ <;> (try split_ifs) <;>
    (try dsimp only) <;>
    (first
      | omega
      | ((repeat (first | apply hbp.1 | apply hbp.2)); exact hp))

theorem COK_sty (hbp : BusPres P) (v : Nat) : COK P (fun c => sty c v) := by
  intro c
  simp only [lda, ldx, ldy, sta, stx, sty, tax, tsx, tay, txa, txs, tya, pha, php, pla, plp, and, eor, ora, bit, adc, sbc, cmp, cpx, cpy, inc, inx, iny, dec, dex, dey, asl, asl_for_accumelator, lsr, lsr_for_accumelator, rol, rol_for_accumelator, ror, ror_for_accumelator, jmp, jsr, rts, rti, bcc, bcs, beq, bmi, bne, bpl, bvc, bvs, clc, cld, cli, clv, sec, sed, sei, brk, nop, branch, lax, sax, dcp, isb, slo, rla, sre, rra, CPU.reset, CPU.non_markable_interrupt, CPU.interrupt_request, CPU.break_interrupt, CPU.read, CPU.write, CPU.read_word, CPU.read_on_indirect, CPU.push_stack, CPU.push_stack_word, CPU.pull_stack, CPU.pull_stack_word]
  refine ⟨?_, fun hp => ?_⟩ <;> (try split_ifs) <;>
    (try dsimp only) <;>
    (first
      | omega
      | ((repeat (first | apply hbp.1 | apply hbp.2)); exact hp))

theorem COK_and (hbp : BusPres P) (v : Nat) : COK P (fun c => and c v) := by
  intro c
  simp only [lda, ldx, ldy, sta, stx, sty, tax, tsx, tay, txa, txs, tya, pha, php, pla, plp, and, eor, ora, bit, adc, sbc, cmp, cpx, cpy, inc, inx, iny, dec, dex, dey, asl, asl_for_accumelator, lsr, lsr_for_accumelator, rol, rol_for_accumelator, ror, ror_for_accumelator, jmp, jsr, rts, rti, bcc, bcs, beq, bmi, bne, bpl, bvc, bvs, clc, cld, cli, clv, sec, sed, sei, brk, nop, branch, lax, sax, dcp, isb, slo, rla, sre, rra, CPU.reset, CPU.non_markable_interrupt, CPU.interrupt_request, CPU.break_interrupt, CPU.read, CPU.write, CPU.read_word, CPU.read_on_indirect, CPU.push_stack, CPU.push_stack_word, CPU.pull_stack, CPU.pull_stack_word]
  refine ⟨?_, fun hp => ?_⟩ <;> (try split_ifs) <;>
    (try dsimp only) <;>
    (first
      | omega
      | ((repeat (first | apply hbp.1 | apply hbp.2)); exact hp))

theorem COK_eor (hbp : BusPres P) (v : Nat) : COK P (fun c => eor c v) := by
  intro c
  simp only [lda, ldx, ldy, sta, stx, sty, tax, tsx, tay, txa, txs, tya, pha, php, pla, plp, and, eor, ora, bit, adc, sbc, cmp, cpx, cpy, inc, inx, iny, dec, dex, dey, asl, asl_for_accumelator, lsr, lsr_for_accumelator, rol, rol_for_accumelator, ror, ror_for_accumelator, jmp, jsr, rts, rti, bcc, bcs, beq, bmi, bne, bpl, bvc, bvs, clc, cld, cli, clv, sec, sed, sei, brk, nop, branch, lax, sax, dcp, isb, slo, rla, sre, rra, CPU.reset, CPU.non_markable_interrupt, CPU.interrupt_request, CPU.break_interrupt, CPU.read, CPU.write, CPU.read_word, CPU.read_on_indirect, CPU.push_stack, CPU.push_stack_word, CPU.pull_stack, CPU.pull_stack_word]
  refine ⟨?_, fun hp => ?_⟩ <;> (try split_ifs) <;>
    (try dsimp only) <;>
    (first
      | omega
      | ((repeat (first | apply hbp.1 | apply hbp.2)); exact hp))

theorem COK_ora (hbp : BusPres P) (v : Nat) : COK P (fun c => ora c v) := by
  intro c
  simp only [lda, ldx, ldy, sta, stx, sty, tax, tsx, tay, txa, txs, tya, pha, php, pla, plp, and, eor, ora, bit, adc, sbc, cmp, cpx, cpy, inc, inx, iny, dec, dex, dey, asl, asl_for_accumelator, lsr, lsr_for_accumelator, rol, rol_for_accumelator, ror, ror_for_accumelator, jmp, jsr, rts, rti, bcc, bcs, beq, bmi, bne, bpl, bvc, bvs, clc, cld, cli, clv, sec, sed, sei, brk, nop, branch, lax, sax, dcp, isb, slo, rla, sre, rra, CPU.reset, CPU.non_markable_interrupt, CPU.interrupt_request, CPU.break_interrupt, CPU.read, CPU.write, CPU.read_word, CPU.read_on_indirect, CPU.push_stack, CPU.push_stack_word, CPU.pull_stack, CPU.pull_stack_word]
  refine ⟨?_, fun hp => ?_⟩ <;> (try split_ifs) <;>
    (try dsimp only) <;>
    (first
      | omega
      | ((repeat (first | apply hbp.1 | apply hbp.2)); exact hp))

theorem COK_bit (hbp : BusPres P) (v : Nat) : COK P (fun c => bit c v) := by
  intro c
  simp only [lda, ldx, ldy, sta, stx, sty, tax, tsx, tay, txa, txs, tya, pha, php, pla, plp, and, eor, ora, bit, adc, sbc, cmp, cpx, cpy, inc, inx, iny, dec, dex, dey, asl, asl_for_accumelator, lsr, lsr_for_accumelator, rol, rol_for_accumelator, ror, ror_for_accumelator, jmp, jsr, rts, rti, bcc, bcs, beq, bmi, bne, bpl, bvc, bvs, clc, cld, cli, clv, sec, sed, sei, brk, nop, branch, lax, sax, dcp, isb, slo, rla, sre, rra, CPU.reset, CPU.non_markable_interrupt, CPU.interrupt_request, CPU.break_interrupt, CPU.read, CPU.write, CPU.read_word, CPU.read_on_indirect, CPU.push_stack, CPU.push_stack_word, CPU.pull_stack, CPU.pull_stack_word]
  refine ⟨?_, fun hp => ?_⟩ <;> (try split_ifs) <;>
    (try dsimp only) <;>
    (first
      | omega
      | ((repeat (first | apply hbp.1 | apply hbp.2)); exact hp))

theorem COK_adc (hbp : BusPres P) (v : Nat) : COK P (fun c => adc c v) := by
  intro c
  simp only [lda, ldx, ldy, sta, stx, sty, tax, tsx, tay, txa, txs, tya, pha, php, pla, plp, and, eor, ora, bit, adc, sbc, cmp, cpx, cpy, inc, inx, iny, dec, dex, dey, asl, asl_for_accumelator, lsr, lsr_for_accumelator, rol, rol_for_accumelator, ror, ror_for_accumelator, jmp, jsr, rts, rti, bcc, bcs, beq, bmi, bne, bpl, bvc, bvs, clc, cld, cli, clv, sec, sed, sei, brk, nop, branch, lax, sax, dcp, isb, slo, rla, sre, rra, CPU.reset, CPU.non_markable_interrupt, CPU.interrupt_request, CPU.break_interrupt, CPU.read, CPU.write, CPU.read_word, CPU.read_on_indirect, CPU.push_stack, CPU.push_stack_word, CPU.pull_stack, CPU.pull_stack_word]
  refine ⟨?_, fun hp => ?_⟩ <;> (try split_ifs) <;>
    (try dsimp only) <;>
    (first
      | omega
      | ((repeat (first | apply hbp.1 | apply hbp.2)); exact hp))

theorem COK_sbc (hbp : BusPres P) (v : Nat) : COK P (fun c => sbc c v) := by
  intro c
  simp only [lda, ldx, ldy, sta, stx, sty, tax, tsx, tay, txa, txs, tya, pha, php, pla, plp, and, eor, ora, bit, adc, sbc, cmp, cpx, cpy, inc, inx, iny, dec, dex, dey, asl, asl_for_accumelator, lsr, lsr_for_accumelator, rol, rol_for_accumelator, ror, ror_for_accumelator, jmp, jsr, rts, rti, bcc, bcs, beq, bmi, bne, bpl, bvc, bvs, clc, cld, cli, clv, sec, sed, sei, brk, nop, branch, lax, sax, dcp, isb, slo, rla, sre, rra, CPU.reset, CPU.non_markable_interrupt, CPU.interrupt_request, CPU.break_interrupt, CPU.read, CPU.write, CPU.read_word, CPU.read_on_indirect, CPU.push_stack, CPU.push_stack_word, CPU.pull_stack, CPU.pull_stack_word]
  refine ⟨?_, fun hp => ?_⟩ <;> (try split_ifs) <;>
    (try dsimp only) <;>
    (first
      | omega
      | ((repeat (first | apply hbp.1 | apply hbp.2)); exact hp))

theorem COK_cmp (hbp : BusPres P) (v : Nat) : COK P (fun c => cmp c v) := by
  intro c
  simp only [lda, ldx, ldy, sta, stx, sty, tax, tsx, tay, txa, txs, tya, pha, php, pla, plp, and, eor, ora, bit, adc, sbc, cmp, cpx, cpy, inc, inx, iny, dec, dex, dey, asl, asl_for_accumelator, lsr, lsr_for_accumelator, rol, rol_for_accumelator, ror, ror_for_accumelator, jmp, jsr, rts, rti, bcc, bcs, beq, bmi, bne, bpl, bvc, bvs, clc, cld, cli, clv, sec, sed, sei, brk, nop, branch, lax, sax, dcp, isb, slo, rla, sre, rra, CPU.reset, CPU.non_markable_interrupt, CPU.interrupt_request, CPU.break_interrupt, CPU.read, CPU.write, CPU.read_word, CPU.read_on_indirect, CPU.push_stack, CPU.push_stack_word, CPU.pull_stack, CPU.pull_stack_word]
  refine ⟨?_, fun hp => ?_⟩ <;> (try split_ifs) <;>
    (try dsimp only) <;>
    (first
      | omega
      | ((repeat (first | apply hbp.1 | apply hbp.2)); exact hp))

theorem COK_cpx (hbp : BusPres P) (v : Nat) : COK P (fun c => cpx c v) := by
  intro c
  simp only [lda, ldx, ldy, sta, stx, sty, tax, tsx, tay, txa, txs, tya, pha, php, pla, plp, and, eor, ora, bit, adc, sbc, cmp, cpx, cpy, inc, inx, iny, dec, dex, dey, asl, asl_for_accumelator, lsr, lsr_for_accumelator, rol, rol_for_accumelator, ror, ror_for_accumelator, jmp, jsr, rts, rti, bcc, bcs, beq, bmi, bne, bpl, bvc, bvs, clc, cld, cli, clv, sec, sed, sei, brk, nop, branch, lax, sax, dcp, isb, slo, rla, sre, rra, CPU.reset, CPU.non_markable_interrupt, CPU.interrupt_request, CPU.break_interrupt, CPU.read, CPU.write, CPU.read_word, CPU.read_on_indirect, CPU.push_stack, CPU.push_stack_word, CPU.pull_stack, CPU.pull_stack_word]
  refine ⟨?_, fun hp => ?_⟩ <;> (try split_ifs) <;>
    (try dsimp only) <;>
    (first
      | omega
      | ((repeat (first | apply hbp.1 | apply hbp.2)); exact hp))

theorem COK_cpy (hbp : BusPres P) (v : Nat) : COK P (fun c => cpy c v) := by
  intro c
  simp only [lda, ldx, ldy, sta, stx, sty, tax, tsx, tay, txa, txs, tya, pha, php, pla, plp, and, eor, ora, bit, adc, sbc, cmp, cpx, cpy, inc, inx, iny, dec, dex, dey, asl, asl_for_accumelator, lsr, lsr_for_accumelator, rol, rol_for_accumelator, ror, ror_for_accumelator, jmp, jsr, rts, rti, bcc, bcs, beq, bmi, bne, bpl, bvc, bvs, clc, cld, cli, clv, sec, sed, sei, brk, nop, branch, lax, sax, dcp, isb, slo, rla, sre, rra, CPU.reset, CPU.non_markable_interrupt, CPU.interrupt_request, CPU.break_interrupt, CPU.read, CPU.write, CPU.read_word, CPU.read_on_indirect, CPU.push_stack, CPU.push_stack_word, CPU.pull_stack, CPU.pull_stack_word]
  refine ⟨?_, fun hp => ?_⟩ <;> (try split_ifs) <;>
    (try dsimp only) <;>
    (first
      | omega
      | ((repeat (first | apply hbp.1 | apply hbp.2)); exact hp))

theorem COK_inc (hbp : BusPres P) (v : Nat) : COK P (fun c => inc c v) := by
  intro c
  simp only [lda, ldx, ldy, sta, stx, sty, tax, tsx, tay, txa, txs, tya, pha, php, pla, plp, and, eor, ora, bit, adc, sbc, cmp, cpx, cpy, inc, inx, iny, dec, dex, dey, asl, asl_for_accumelator, lsr, lsr_for_accumelator, rol, rol_for_accumelator, ror, ror_for_accumelator, jmp, jsr, rts, rti, bcc, bcs, beq, bmi, bne, bpl, bvc, bvs, clc, cld, cli, clv, sec, sed, sei, brk, nop, branch, lax, sax, dcp, isb, slo, rla, sre, rra, CPU.reset, CPU.non_markable_interrupt, CPU.interrupt_request, CPU.break_interrupt, CPU.read, CPU.write, CPU.read_word, CPU.read_on_indirect, CPU.push_stack, CPU.push_stack_word, CPU.pull_stack, CPU.pull_stack_word]
  refine ⟨?_, fun hp => ?_⟩ <;> (try split_ifs) <;>
    (try dsimp only) <;>
    (first
      | omega
      | ((repeat (first | apply hbp.1 | apply hbp.2)); exact hp))

theorem COK_dec (hbp : BusPres P) (v : Nat) : COK P (fun c => dec c v) := by
  intro c
  simp only [lda, ldx, ldy, sta, stx, sty, tax, tsx, tay, txa, txs, tya, pha, php, pla, plp, and, eor, ora, bit, adc, sbc, cmp, cpx, cpy, inc, inx, iny, dec, dex, dey, asl, asl_for_accumelator, lsr, lsr_for_accumelator, rol, rol_for_accumelator, ror, ror_for_accumelator, jmp, jsr, rts, rti, bcc, bcs, beq, bmi, bne, bpl, bvc, bvs, clc, cld, cli, clv, sec, sed, sei, brk, nop, branch, lax, sax, dcp, isb, slo, rla, sre, rra, CPU.reset, CPU.non_markable_interrupt, CPU.interrupt_request, CPU.break_interrupt, CPU.read, CPU.write, CPU.read_word, CPU.read_on_indirect, CPU.push_stack, CPU.push_stack_word, CPU.pull_stack, CPU.pull_stack_word]
  refine ⟨?_, fun hp => ?_⟩ <;> (try split_ifs) <;>
    (try dsimp only) <;>
    (first
      | omega
      | ((repeat (first | apply hbp.1 | apply hbp.2)); exact hp))

theorem COK_asl (hbp : BusPres P) (v : Nat) : COK P (fun c => asl c v) := by
  intro c
  simp only [lda, ldx, ldy, sta, stx, sty, tax, tsx, tay, txa, txs, tya, pha, php, pla, plp, and, eor, ora, bit, adc, sbc, cmp, cpx, cpy, inc, inx, iny, dec, dex, dey, asl, asl_for_accumelator, lsr, lsr_for_accumelator, rol, rol_for_accumelator, ror, ror_for_accumelator, jmp, jsr, rts, rti, bcc, bcs, beq, bmi, bne, bpl, bvc, bvs, clc, cld, cli, clv, sec, sed, sei, brk, nop, branch, lax, sax, dcp, isb, slo, rla, sre, rra, CPU.reset, CPU.non_markable_interrupt, CPU.interrupt_request, CPU.break_interrupt, CPU.read, CPU.write, CPU.read_word, CPU.read_on_indirect, CPU.push_stack, CPU.push_stack_word, CPU.pull_stack, CPU.pull_stack_word]
  refine ⟨?_, fun hp => ?_⟩ <;> (try split_ifs) <;>
    (try dsimp only) <;>
    (first
      | omega
      | ((repeat (first | apply hbp.1 | apply hbp.2)); exact hp))

theorem COK_lsr (hbp : BusPres P) (v : Nat) : COK P (fun c => lsr c v) := by
  intro c
  simp only [lda, ldx, ldy, sta, stx, sty, tax, tsx, tay, txa, txs, tya, pha, php, pla, plp, and, eor, ora, bit, adc, sbc, cmp, cpx, cpy, inc, inx, iny, dec, dex, dey, asl, asl_for_accumelator, lsr, lsr_for_accumelator, rol, rol_for_accumelator, ror, ror_for_accumelator, jmp, jsr, rts, rti, bcc, bcs, beq, bmi, bne, bpl, bvc, bvs, clc, cld, cli, clv, sec, sed, sei, brk, nop, branch, lax, sax, dcp, isb, slo, rla, sre, rra, CPU.reset, CPU.non_markable_interrupt, CPU.interrupt_request, CPU.break_interrupt, CPU.read, CPU.write, CPU.read_word, CPU.read_on_indirect, CPU.push_stack, CPU.push_stack_word, CPU.pull_stack, CPU.pull_stack_word]
  refine ⟨?_, fun hp => ?_⟩ <;> (try split_ifs) <;>
    (try dsimp only) <;>
    (first
      | omega
      | ((repeat (first | apply hbp.1 | apply hbp.2)); exact hp))

theorem COK_rol (hbp : BusPres P) (v : Nat) : COK P (fun c => rol c v) := by
  intro c
  simp only [lda, ldx, ldy, sta, stx, sty, tax, tsx, tay, txa, txs, tya, pha, php, pla, plp, and, eor, ora, bit, adc, sbc, cmp, cpx, cpy, inc, inx, iny, dec, dex, dey, asl, asl_for_accumelator, lsr, lsr_for_accumelator, rol, rol_for_accumelator, ror, ror_for_accumelator, jmp, jsr, rts, rti, bcc, bcs, beq, bmi, bne, bpl, bvc, bvs, clc, cld, cli, clv, sec, sed, sei, brk, nop, branch, lax, sax, dcp, isb, slo, rla, sre, rra, CPU.reset, CPU.non_markable_interrupt, CPU.interrupt_request, CPU.break_interrupt, CPU.read, CPU.write, CPU.read_word, CPU.read_on_indirect, CPU.push_stack, CPU.push_stack_word, CPU.pull_stack, CPU.pull_stack_word]
  refine ⟨?_, fun hp => ?_⟩ <;> (try split_ifs) <;>
    (try dsimp only) <;>
    (first
      | omega
      | ((repeat (first | apply hbp.1 | apply hbp.2)); exact hp))

theorem COK_ror (hbp : BusPres P) (v : Nat) : COK P (fun c => ror c v) := by
  intro c
  simp only [lda, ldx, ldy, sta, stx, sty, tax, tsx, tay, txa, txs, tya, pha, php, pla, plp, and, eor, ora, bit, adc, sbc, cmp, cpx, cpy, inc, inx, iny, dec, dex, dey, asl, asl_for_accumelator, lsr, lsr_for_accumelator, rol, rol_for_accumelator, ror, ror_for_accumelator, jmp, jsr, rts, rti, bcc, bcs, beq, bmi, bne, bpl, bvc, bvs, clc, cld, cli, clv, sec, sed, sei, brk, nop, branch, lax, sax, dcp, isb, slo, rla, sre, rra, CPU.reset, CPU.non_markable_interrupt, CPU.interrupt_request, CPU.break_interrupt, CPU.read, CPU.write, CPU.read_word, CPU.read_on_indirect, CPU.push_stack, CPU.push_stack_word, CPU.pull_stack, CPU.pull_stack_word]
  refine ⟨?_, fun hp => ?_⟩ <;> (try split_ifs) <;>
    (try dsimp only) <;>
    (first
      | omega
      | ((repeat (first | apply hbp.1 | apply hbp.2)); exact hp))

theorem COK_jmp (hbp : BusPres P) (v : Nat) : COK P (fun c => jmp c v) := by
  intro c
  simp only [lda, ldx, ldy, sta, stx, sty, tax, tsx, tay, txa, txs, tya, pha, php, pla, plp, and, eor, ora, bit, adc, sbc, cmp, cpx, cpy, inc, inx, iny, dec, dex, dey, asl, asl_for_accumelator, lsr, lsr_for_accumelator, rol, rol_for_accumelator, ror, ror_for_accumelator, jmp, jsr, rts, rti, bcc, bcs, beq, bmi, bne, bpl, bvc, bvs, clc, cld, cli, clv, sec, sed, sei, brk, nop, branch, lax, sax, dcp, isb, slo, rla, sre, rra, CPU.reset, CPU.non_markable_interrupt, CPU.interrupt_request, CPU.break_interrupt, CPU.read, CPU.write, CPU.read_word, CPU.read_on_indirect, CPU.push_stack, CPU.push_stack_word, CPU.pull_stack, CPU.pull_stack_word]
  refine ⟨?_, fun hp => ?_⟩ <;> (try split_ifs) <;>
    (try dsimp only) <;>
    (first
      | omega
      | ((repeat (first | apply hbp.1 | apply hbp.2)); exact hp))

theorem COK_jsr (hbp : BusPres P) (v : Nat) : COK P (fun c => jsr c v) := by
  intro c
  simp only [lda, ldx, ldy, sta, stx, sty, tax, tsx, tay, txa, txs, tya, pha, php, pla, plp, and, eor, ora, bit, adc, sbc, cmp, cpx, cpy, inc, inx, iny, dec, dex, dey, asl, asl_for_accumelator, lsr, lsr_for_accumelator, rol, rol_for_accumelator, ror, ror_for_accumelator, jmp, jsr, rts, rti, bcc, bcs, beq, bmi, bne, bpl, bvc, bvs, clc, cld, cli, clv, sec, sed, sei, brk, nop, branch, lax, sax, dcp, isb, slo, rla, sre, rra, CPU.reset, CPU.non_markable_interrupt, CPU.interrupt_request, CPU.break_interrupt, CPU.read, CPU.write, CPU.read_word, CPU.read_on_indirect, CPU.push_stack, CPU.push_stack_word, CPU.pull_stack, CPU.pull_stack_word]
  refine ⟨?_, fun hp => ?_⟩ <;> (try split_ifs) <;>
    (try dsimp only) <;>
    (first
      | omega
      | ((repeat (first | apply hbp.1 | apply hbp.2)); exact hp))

theorem COK_bcc (hbp : BusPres P) (v : Nat) : COK P (fun c => bcc c v) := by
  intro c
  simp only [lda, ldx, ldy, sta, stx, sty, tax, tsx, tay, txa, txs, tya, pha, php, pla, plp, and, eor, ora, bit, adc, sbc, cmp, cpx, cpy, inc, inx, iny, dec, dex, dey, asl, asl_for_accumelator, lsr, lsr_for_accumelator, rol, rol_for_accumelator, ror, ror_for_accumelator, jmp, jsr, rts, rti, bcc, bcs, beq, bmi, bne, bpl, bvc, bvs, clc, cld, cli, clv, sec, sed, sei, brk, nop, branch, lax, sax, dcp, isb, slo, rla, sre, rra, CPU.reset, CPU.non_markable_interrupt, CPU.interrupt_request, CPU.break_interrupt, CPU.read, CPU.write, CPU.read_word, CPU.read_on_indirect, CPU.push_stack, CPU.push_stack_word, CPU.pull_stack, CPU.pull_stack_word]
  refine ⟨?_, fun hp => ?_⟩ <;> (try split_ifs) <;>
    (try dsimp only) <;>
    (first
      | omega
      | ((repeat (first | apply hbp.1 | apply hbp.2)); exact hp))

theorem COK_bcs (hbp : BusPres P) (v : Nat) : COK P (fun c => bcs c v) := by
  intro c
  simp only [lda, ldx, ldy, sta, stx, sty, tax, tsx, tay, txa, txs, tya, pha, php, pla, plp, and, eor, ora, bit, adc, sbc, cmp, cpx, cpy, inc, inx, iny, dec, dex, dey, asl, asl_for_accumelator, lsr, lsr_for_accumelator, rol, rol_for_accumelator, ror, ror_for_accumelator, jmp, jsr, rts, rti, bcc, bcs, beq, bmi, bne, bpl, bvc, bvs, clc, cld, cli, clv, sec, sed, sei, brk, nop, branch, lax, sax, dcp, isb, slo, rla, sre, rra, CPU.reset, CPU.non_markable_interrupt, CPU.interrupt_request, CPU.break_interrupt, CPU.read, CPU.write, CPU.read_word, CPU.read_on_indirect, CPU.push_stack, CPU.push_stack_word, CPU.pull_stack, CPU.pull_stack_word]
  refine ⟨?_, fun hp => ?_⟩ <;> (try split_ifs) <;>
    (try dsimp only) <;>
    (first
      | omega
      | ((repeat (first | apply hbp.1 | apply hbp.2)); exact hp))

theorem COK_beq (hbp : BusPres P) (v : Nat) : COK P (fun c => beq c v) := by
  intro c
  simp only [lda, ldx, ldy, sta, stx, sty, tax, tsx, tay, txa, txs, tya, pha, php, pla, plp, and, eor, ora, bit, adc, sbc, cmp, cpx, cpy, inc, inx, iny, dec, dex, dey, asl, asl_for_accumelator, lsr, lsr_for_accumelator, rol, rol_for_accumelator, ror, ror_for_accumelator, jmp, jsr, rts, rti, bcc, bcs, beq, bmi, bne, bpl, bvc, bvs, clc, cld, cli, clv, sec, sed, sei, brk, nop, branch, lax, sax, dcp, isb, slo, rla, sre, rra, CPU.reset, CPU.non_markable_interrupt, CPU.interrupt_request, CPU.break_interrupt, CPU.read, CPU.write, CPU.read_word, CPU.read_on_indirect, CPU.push_stack, CPU.push_stack_word, CPU.pull_stack, CPU.pull_stack_word]
  refine ⟨?_, fun hp => ?_⟩ <;> (try split_ifs) <;>
    (try dsimp only) <;>
    (first
      | omega
      | ((repeat (first | apply hbp.1 | apply hbp.2)); exact hp))

theorem COK_bmi (hbp : BusPres P) (v : Nat) : COK P (fun c => bmi c v) := by
  intro c
  simp only [lda, ldx, ldy, sta, stx, sty, tax, tsx, tay, txa, txs, tya, pha, php, pla, plp, and, eor, ora, bit, adc, sbc, cmp, cpx, cpy, inc, inx, iny, dec, dex, dey, asl, asl_for_accumelator, lsr, lsr_for_accumelator, rol, rol_for_accumelator, ror, ror_for_accumelator, jmp, jsr, rts, rti, bcc, bcs, beq, bmi, bne, bpl, bvc, bvs, clc, cld, cli, clv, sec, sed, sei, brk, nop, branch, lax, sax, dcp, isb, slo, rla, sre, rra, CPU.reset, CPU.non_markable_interrupt, CPU.interrupt_request, CPU.break_interrupt, CPU.read, CPU.write, CPU.read_word, CPU.read_on_indirect, CPU.push_stack, CPU.push_stack_word, CPU.pull_stack, CPU.pull_stack_word]
  refine ⟨?_, fun hp => ?_⟩ <;> (try split_ifs) <;>
    (try dsimp only) <;>
    (first
      | omega
      | ((repeat (first | apply hbp.1 | apply hbp.2)); exact hp))

theorem COK_bne (hbp : BusPres P) (v : Nat) : COK P (fun c => bne c v) := by
  intro c
  simp only [lda, ldx, ldy, sta, stx, sty, tax, tsx, tay, txa, txs, tya, pha, php, pla, plp, and, eor, ora, bit, adc, sbc, cmp, cpx, cpy, inc, inx, iny, dec, dex, dey, asl, asl_for_accumelator, lsr, lsr_for_accumelator, rol, rol_for_accumelator, ror, ror_for_accumelator, jmp, jsr, rts, rti, bcc, bcs, beq, bmi, bne, bpl, bvc, bvs, clc, cld, cli, clv, sec, sed, sei, brk, nop, branch, lax, sax, dcp, isb, slo, rla, sre, rra, CPU.reset, CPU.non_markable_interrupt, CPU.interrupt_request, CPU.break_interrupt, CPU.read, CPU.write, CPU.read_word, CPU.read_on_indirect, CPU.push_stack, CPU.push_stack_word, CPU.pull_stack, CPU.pull_stack_word]
  refine ⟨?_, fun hp => ?_⟩ <;> (try split_ifs) <;>
    (try dsimp only) <;>
    (first
      | omega
      | ((repeat (first | apply hbp.1 | apply hbp.2)); exact hp))

theorem COK_bpl (hbp : BusPres P) (v : Nat) : COK P (fun c => bpl c v) := by
  intro c
  simp only [lda, ldx, ldy, sta, stx, sty, tax, tsx, tay, txa, txs, tya, pha, php, pla, plp, and, eor, ora, bit, adc, sbc, cmp, cpx, cpy, inc, inx, iny, dec, dex, dey, asl, asl_for_accumelator, lsr, lsr_for_accumelator, rol, rol_for_accumelator, ror, ror_for_accumelator, jmp, jsr, rts, rti, bcc, bcs, beq, bmi, bne, bpl, bvc, bvs, clc, cld, cli, clv, sec, sed, sei, brk, nop, branch, lax, sax, dcp, isb, slo, rla, sre, rra, CPU.reset, CPU.non_markable_interrupt, CPU.interrupt_request, CPU.break_interrupt, CPU.read, CPU.write, CPU.read_word, CPU.read_on_indirect, CPU.push_stack, CPU.push_stack_word, CPU.pull_stack, CPU.pull_stack_word]
  refine ⟨?_, fun hp => ?_⟩ <;> (try split_ifs) <;>
    (try dsimp only) <;>
    (first
      | omega
      | ((repeat (first | apply hbp.1 | apply hbp.2)); exact hp))

theorem COK_bvc (hbp : BusPres P) (v : Nat) : COK P (fun c => bvc c v) := by
  intro c
  simp only [lda, ldx, ldy, sta, stx, sty, tax, tsx, tay, txa, txs, tya, pha, php, pla, plp, and, eor, ora, bit, adc, sbc, cmp, cpx, cpy, inc, inx, iny, dec, dex, dey, asl, asl_for_accumelator, lsr, lsr_for_accumelator, rol, rol_for_accumelator, ror, ror_for_accumelator, jmp, jsr, rts, rti, bcc, bcs, beq, bmi, bne, bpl, bvc, bvs, clc, cld, cli, clv, sec, sed, sei, brk, nop, branch, lax, sax, dcp, isb, slo, rla, sre, rra, CPU.reset, CPU.non_markable_interrupt, CPU.interrupt_request, CPU.break_interrupt, CPU.read, CPU.write, CPU.read_word, CPU.read_on_indirect, CPU.push_stack, CPU.push_stack_word, CPU.pull_stack, CPU.pull_stack_word]
  refine ⟨?_, fun hp => ?_⟩ <;> (try split_ifs) <;>
    (try dsimp only) <;>
    (first
      | omega
      | ((repeat (first | apply hbp.1 | apply hbp.2)); exact hp))

theorem COK_bvs (hbp : BusPres P) (v : Nat) : COK P (fun c => bvs c v) := by
  intro c
  simp only [lda, ldx, ldy, sta, stx, sty, tax, tsx, tay, txa, txs, tya, pha, php, pla, plp, and, eor, ora, bit, adc, sbc, cmp, cpx, cpy, inc, inx, iny, dec, dex, dey, asl, asl_for_accumelator, lsr, lsr_for_accumelator, rol, rol_for_accumelator, ror, ror_for_accumelator, jmp, jsr, rts, rti, bcc, bcs, beq, bmi, bne, bpl, bvc, bvs, clc, cld, cli, clv, sec, sed, sei, brk, nop, branch, lax, sax, dcp, isb, slo, rla, sre, rra, CPU.reset, CPU.non_markable_interrupt, CPU.interrupt_request, CPU.break_interrupt, CPU.read, CPU.write, CPU.read_word, CPU.read_on_indirect, CPU.push_stack, CPU.push_stack_word, CPU.pull_stack, CPU.pull_stack_word]
  refine ⟨?_, fun hp => ?_⟩ <;> (try split_ifs) <;>
    (try dsimp only) <;>
    (first
      | omega
      | ((repeat (first | apply hbp.1 | apply hbp.2)); exact hp))

theorem COK_branch (hbp : BusPres P) (v : Nat) : COK P (fun c => branch c v) := by
  intro c
  simp only [lda, ldx, ldy, sta, stx, sty, tax, tsx, tay, txa, txs, tya, pha, php, pla, plp, and, eor, ora, bit, adc, sbc, cmp, cpx, cpy, inc, inx, iny, dec, dex, dey, asl, asl_for_accumelator, lsr, lsr_for_accumelator, rol, rol_for_accumelator, ror, ror_for_accumelator, jmp, jsr, rts, rti, bcc, bcs, beq, bmi, bne, bpl, bvc, bvs, clc, cld, cli, clv, sec, sed, sei, brk, nop, branch, lax, sax, dcp, isb, slo, rla, sre, rra, CPU.reset, CPU.non_markable_interrupt, CPU.interrupt_request, CPU.break_interrupt, CPU.read, CPU.write, CPU.read_word, CPU.read_on_indirect, CPU.push_stack, CPU.push_stack_word, CPU.pull_stack, CPU.pull_stack_word]
  refine ⟨?_, fun hp => ?_⟩ <;> (try split_ifs) <;>
    (try dsimp only) <;>
    (first
      | omega
      | ((repeat (first | apply hbp.1 | apply hbp.2)); exact hp))

theorem COK_lax (hbp : BusPres P) (v : Nat) : COK P (fun c => lax c v) := by
  intro c
  simp only [lda, ldx, ldy, sta, stx, sty, tax, tsx, tay, txa, txs, tya, pha, php, pla, plp, and, eor, ora, bit, adc, sbc, cmp, cpx, cpy, inc, inx, iny, dec, dex, dey, asl, asl_for_accumelator, lsr, lsr_for_accumelator, rol, rol_for_accumelator, ror, ror_for_accumelator, jmp, jsr, rts, rti, bcc, bcs, beq, bmi, bne, bpl, bvc, bvs, clc, cld, cli, clv, sec, sed, sei, brk, nop, branch, lax, sax, dcp, isb, slo, rla, sre, rra, CPU.reset, CPU.non_markable_interrupt, CPU.interrupt_request, CPU.break_interrupt, CPU.read, CPU.write, CPU.read_word, CPU.read_on_indirect, CPU.push_stack, CPU.push_stack_word, CPU.pull_stack, CPU.pull_stack_word]
  refine ⟨?_, fun hp => ?_⟩ <;> (try split_ifs) <;>
    (try dsimp only) <;>
    (first
      | omega
      | ((repeat (first | apply hbp.1 | apply hbp.2)); exact hp))

theorem COK_sax (hbp : BusPres P) (v : Nat) : COK P (fun c => sax c v) := by
  intro c
  simp only [lda, ldx, ldy, sta, stx, sty, tax, tsx, tay, txa, txs, tya, pha, php, pla, plp, and, eor, ora, bit, adc, sbc, cmp, cpx, cpy, inc, inx, iny, dec, dex, dey, asl, asl_for_accumelator, lsr, lsr_for_accumelator, rol, rol_for_accumelator, ror, ror_for_accumelator, jmp, jsr, rts, rti, bcc, bcs, beq, bmi, bne, bpl, bvc, bvs, clc, cld, cli, clv, sec, sed, sei, brk, nop, branch, lax, sax, dcp, isb, slo, rla, sre, rra, CPU.reset, CPU.non_markable_interrupt, CPU.interrupt_request, CPU.break_interrupt, CPU.read, CPU.write, CPU.read_word, CPU.read_on_indirect, CPU.push_stack, CPU.push_stack_word, CPU.pull_stack, CPU.pull_stack_word]
  refine ⟨?_, fun hp => ?_⟩ <;> (try split_ifs) <;>
    (try dsimp only) <;>
    (first
      | omega
      | ((repeat (first | apply hbp.1 | apply hbp.2)); exact hp))

theorem COK_dcp (hbp : BusPres P) (v : Nat) : COK P (fun c => dcp c v) := by
  intro c
  simp only [lda, ldx, ldy, sta, stx, sty, tax, tsx, tay, txa, txs, tya, pha, php, pla, plp, and, eor, ora, bit, adc, sbc, cmp, cpx, cpy, inc, inx, iny, dec, dex, dey, asl, asl_for_accumelator, lsr, lsr_for_accumelator, rol, rol_for_accumelator, ror, ror_for_accumelator, jmp, jsr, rts, rti, bcc, bcs, beq, bmi, bne, bpl, bvc, bvs, clc, cld, cli, clv, sec, sed, sei, brk, nop, branch, lax, sax, dcp, isb, slo, rla, sre, rra, CPU.reset, CPU.non_markable_interrupt, CPU.interrupt_request, CPU.break_interrupt, CPU.read, CPU.write, CPU.read_word, CPU.read_on_indirect, CPU.push_stack, CPU.push_stack_word, CPU.pull_stack, CPU.pull_stack_word]
  refine ⟨?_, fun hp => ?_⟩ <;> (try split_ifs) <;>
    (try dsimp only) <;>
    (first
      | omega
      | ((repeat (first | apply hbp.1 | apply hbp.2)); exact hp))

theorem COK_isb (hbp : BusPres P) (v : Nat) : COK P (fun c => isb c v) := by
  intro c
  simp only [lda, ldx, ldy, sta, stx, sty, tax, tsx, tay, txa, txs, tya, pha, php, pla, plp, and, eor, ora, bit, adc, sbc, cmp, cpx, cpy, inc, inx, iny, dec, dex, dey, asl, asl_for_accumelator, lsr, lsr_for_accumelator, rol, rol_for_accumelator, ror, ror_for_accumelator, jmp, jsr, rts, rti, bcc, bcs, beq, bmi, bne, bpl, bvc, bvs, clc, cld, cli, clv, sec, sed, sei, brk, nop, branch, lax, sax, dcp, isb, slo, rla, sre, rra, CPU.reset, CPU.non_markable_interrupt, CPU.interrupt_request, CPU.break_interrupt, CPU.read, CPU.write, CPU.read_word, CPU.read_on_indirect, CPU.push_stack, CPU.push_stack_word, CPU.pull_stack, CPU.pull_stack_word]
  refine ⟨?_, fun hp => ?_⟩ <;> (try split_ifs) <;>
    (try dsimp only) <;>
    (first
      | omega
      | ((repeat (first | apply hbp.1 | apply hbp.2)); exact hp))

theorem COK_slo (hbp : BusPres P) (v : Nat) : COK P (fun c => slo c v) := by
  intro c
  simp only [lda, ldx, ldy, sta, stx, sty, tax, tsx, tay, txa, txs, tya, pha, php, pla, plp, and, eor, ora, bit, adc, sbc, cmp, cpx, cpy, inc, inx, iny, dec, dex, dey, asl, asl_for_accumelator, lsr, lsr_for_accumelator, rol, rol_for_accumelator, ror, ror_for_accumelator, jmp, jsr, rts, rti, bcc, bcs, beq, bmi, bne, bpl, bvc, bvs, clc, cld, cli, clv, sec, sed, sei, brk, nop, branch, lax, sax, dcp, isb, slo, rla, sre, rra, CPU.reset, CPU.non_markable_interrupt, CPU.interrupt_request, CPU.break_interrupt, CPU.read, CPU.write, CPU.read_word, CPU.read_on_indirect, CPU.push_stack, CPU.push_stack_word, CPU.pull_stack, CPU.pull_stack_word]
  refine ⟨?_, fun hp => ?_⟩ <;> (try split_ifs) <;>
    (try dsimp only) <;>
    (first
      | omega
      | ((repeat (first | apply hbp.1 | apply hbp.2)); exact hp))

theorem COK_rla (hbp : BusPres P) (v : Nat) : COK P (fun c => rla c v) := by
  intro c
  simp only [lda, ldx, ldy, sta, stx, sty, tax, tsx, tay, txa, txs, tya, pha, php, pla, plp, and, eor, ora, bit, adc, sbc, cmp, cpx, cpy, inc, inx, iny, dec, dex, dey, asl, asl_for_accumelator, lsr, lsr_for_accumelator, rol, rol_for_accumelator, ror, ror_for_accumelator, jmp, jsr, rts, rti, bcc, bcs, beq, bmi, bne, bpl, bvc, bvs, clc, cld, cli, clv, sec, sed, sei, brk, nop, branch, lax, sax, dcp, isb, slo, rla, sre, rra, CPU.reset, CPU.non_markable_interrupt, CPU.interrupt_request, CPU.break_interrupt, CPU.read, CPU.write, CPU.read_word, CPU.read_on_indirect, CPU.push_stack, CPU.push_stack_word, CPU.pull_stack, CPU.pull_stack_word]
  refine ⟨?_, fun hp => ?_⟩ <;> (try split_ifs) <;>
    (try dsimp only) <;>
    (first
      | omega
      | ((repeat (first | apply hbp.1 | apply hbp.2)); exact hp))

theorem COK_sre (hbp : BusPres P) (v : Nat) : COK P (fun c => sre c v) := by
  intro c
  simp only [lda, ldx, ldy, sta, stx, sty, tax, tsx, tay, txa, txs, tya, pha, php, pla, plp, and, eor, ora, bit, adc, sbc, cmp, cpx, cpy, inc, inx, iny, dec, dex, dey, asl, asl_for_accumelator, lsr, lsr_for_accumelator, rol, rol_for_accumelator, ror, ror_for_accumelator, jmp, jsr, rts, rti, bcc, bcs, beq, bmi, bne, bpl, bvc, bvs, clc, cld, cli, clv, sec, sed, sei, brk, nop, branch, lax, sax, dcp, isb, slo, rla, sre, rra, CPU.reset, CPU.non_markable_interrupt, CPU.interrupt_request, CPU.break_interrupt, CPU.read, CPU.write, CPU.read_word, CPU.read_on_indirect, CPU.push_stack, CPU.push_stack_word, CPU.pull_stack, CPU.pull_stack_word]
  refine ⟨?_, fun hp => ?_⟩ <;> (try split_ifs) <;>
    (try dsimp only) <;>
    (first
      | omega
      | ((repeat (first | apply hbp.1 | apply hbp.2)); exact hp))

theorem COK_rra (hbp : BusPres P) (v : Nat) : COK P (fun c => rra c v) := by
  intro c
  simp only [lda, ldx, ldy, sta, stx, sty, tax, tsx, tay, txa, txs, tya, pha, php, pla, plp, and, eor, ora, bit, adc, sbc, cmp, cpx, cpy, inc, inx, iny, dec, dex, dey, asl, asl_for_accumelator, lsr, lsr_for_accumelator, rol, rol_for_accumelator, ror, ror_for_accumelator, jmp, jsr, rts, rti, bcc, bcs, beq, bmi, bne, bpl, bvc, bvs, clc, cld, cli, clv, sec, sed, sei, brk, nop, branch, lax, sax, dcp, isb, slo, rla, sre, rra, CPU.reset, CPU.non_markable_interrupt, CPU.interrupt_request, CPU.break_interrupt, CPU.read, CPU.write, CPU.read_word, CPU.read_on_indirect, CPU.push_stack, CPU.push_stack_word, CPU.pull_stack, CPU.pull_stack_word]
  refine ⟨?_, fun hp => ?_⟩ <;> (try split_ifs) <;>
    (try dsimp only) <;>
    (first
      | omega
      | ((repeat (first | apply hbp.1 | apply hbp.2)); exact hp))

theorem COK_tax (hbp : BusPres P) : COK P tax := by
  intro c
  simp only [lda, ldx, ldy, sta, stx, sty, tax, tsx, tay, txa, txs, tya, pha, php, pla, plp, and, eor, ora, bit, adc, sbc, cmp, cpx, cpy, inc, inx, iny, dec, dex, dey, asl, asl_for_accumelator, lsr, lsr_for_accumelator, rol, rol_for_accumelator, ror, ror_for_accumelator, jmp, jsr, rts, rti, bcc, bcs, beq, bmi, bne, bpl, bvc, bvs, clc, cld, cli, clv, sec, sed, sei, brk, nop, branch, lax, sax, dcp, isb, slo, rla, sre, rra, CPU.reset, CPU.non_markable_interrupt, CPU.interrupt_request, CPU.break_interrupt, CPU.read, CPU.write, CPU.read_word, CPU.read_on_indirect, CPU.push_stack, CPU.push_stack_word, CPU.pull_stack, CPU.pull_stack_word]
  refine ⟨?_, fun hp => ?_⟩ <;> (try split_ifs) <;>
    (try dsimp only) <;>
    (first
      | omega
      | ((repeat (first | apply hbp.1 | apply hbp.2)); exact hp))

theorem COK_tsx (hbp : BusPres P) : COK P tsx := by
  intro c
  simp only [lda, ldx, ldy, sta, stx, sty, tax, tsx, tay, txa, txs, tya, pha, php, pla, plp, and, eor, ora, bit, adc, sbc, cmp, cpx, cpy, inc, inx, iny, dec, dex, dey, asl, asl_for_accumelator, lsr, lsr_for_accumelator, rol, rol_for_accumelator, ror, ror_for_accumelator, jmp, jsr, rts, rti, bcc, bcs, beq, bmi, bne, bpl, bvc, bvs, clc, cld, cli, clv, sec, sed, sei, brk, nop, branch, lax, sax, dcp, isb, slo, rla, sre, rra, CPU.reset, CPU.non_markable_interrupt, CPU.interrupt_request, CPU.break_interrupt, CPU.read, CPU.write, CPU.read_word, CPU.read_on_indirect, CPU.push_stack, CPU.push_stack_word, CPU.pull_stack, CPU.pull_stack_word]
  refine ⟨?_, fun hp => ?_⟩ <;> (try split_ifs) <;>
    (try dsimp only) <;>
    (first
      | omega
      | ((repeat (first | apply hbp.1 | apply hbp.2)); exact hp))

theorem COK_tay (hbp : BusPres P) : COK P tay := by
  intro c
  simp only [lda, ldx, ldy, sta, stx, sty, tax, tsx, tay, txa, txs, tya, pha, php, pla, plp, and, eor, ora, bit, adc, sbc, cmp, cpx, cpy, inc, inx, iny, dec, dex, dey, asl, asl_for_accumelator, lsr, lsr_for_accumelator, rol, rol_for_accumelator, ror, ror_for_accumelator, jmp, jsr, rts, rti, bcc, bcs, beq, bmi, bne, bpl, bvc, bvs, clc, cld, cli, clv, sec, sed, sei, brk, nop, branch, lax, sax, dcp, isb, slo, rla, sre, rra, CPU.reset, CPU.non_markable_interrupt, CPU.interrupt_request, CPU.break_interrupt, CPU.read, CPU.write, CPU.read_word, CPU.read_on_indirect, CPU.push_stack, CPU.push_stack_word, CPU.pull_stack, CPU.pull_stack_word]
  refine ⟨?_, fun hp => ?_⟩ <;> (try split_ifs) <;>
    (try dsimp only) <;>
    (first
      | omega
      | ((repeat (first | apply hbp.1 | apply hbp.2)); exact hp))

theorem COK_txa (hbp : BusPres P) : COK P txa := by
  intro c
  simp only [lda, ldx, ldy, sta, stx, sty, tax, tsx, tay, txa, txs, tya, pha, php, pla, plp, and, eor, ora, bit, adc, sbc, cmp, cpx, cpy, inc, inx, iny, dec, dex, dey, asl, asl_for_accumelator, lsr, lsr_for_accumelator, rol, rol_for_accumelator, ror, ror_for_accumelator, jmp, jsr, rts, rti, bcc, bcs, beq, bmi, bne, bpl, bvc, bvs, clc, cld, cli, clv, sec, sed, sei, brk, nop, branch, lax, sax, dcp, isb, slo, rla, sre, rra, CPU.reset, CPU.non_markable_interrupt, CPU.interrupt_request, CPU.break_interrupt, CPU.read, CPU.write, CPU.read_word, CPU.read_on_indirect, CPU.push_stack, CPU.push_stack_word, CPU.pull_stack, CPU.pull_stack_word]
  refine ⟨?_, fun hp => ?_⟩ <;> (try split_ifs) <;>
    (try dsimp only) <;>
    (first
      | omega
      | ((repeat (first | apply hbp.1 | apply hbp.2)); exact hp))

theorem COK_txs (hbp : BusPres P) : COK P txs := by
  intro c
  simp only [lda, ldx, ldy, sta, stx, sty, tax, tsx, tay, txa, txs, tya, pha, php, pla, plp, and, eor, ora, bit, adc, sbc, cmp, cpx, cpy, inc, inx, iny, dec, dex, dey, asl, asl_for_accumelator, lsr, lsr_for_accumelator, rol, rol_for_accumelator, ror, ror_for_accumelator, jmp, jsr, rts, rti, bcc, bcs, beq, bmi, bne, bpl, bvc, bvs, clc, cld, cli, clv, sec, sed, sei, brk, nop, branch, lax, sax, dcp, isb, slo, rla, sre, rra, CPU.reset, CPU.non_markable_interrupt, CPU.interrupt_request, CPU.break_interrupt, CPU.read, CPU.write, CPU.read_word, CPU.read_on_indirect, CPU.push_stack, CPU.push_stack_word, CPU.pull_stack, CPU.pull_stack_word]
  refine ⟨?_, fun hp => ?_⟩ <;> (try split_ifs) <;>
    (try dsimp only) <;>
    (first
      | omega
      | ((repeat (first | apply hbp.1 | apply hbp.2)); exact hp))

theorem COK_tya (hbp : BusPres P) : COK P tya := by
  intro c
  simp only [lda, ldx, ldy, sta, stx, sty, tax, tsx, tay, txa, txs, tya, pha, php, pla, plp, and, eor, ora, bit, adc, sbc, cmp, cpx, cpy, inc, inx, iny, dec, dex, dey, asl, asl_for_accumelator, lsr, lsr_for_accumelator, rol, rol_for_accumelator, ror, ror_for_accumelator, jmp, jsr, rts, rti, bcc, bcs, beq, bmi, bne, bpl, bvc, bvs, clc, cld, cli, clv, sec, sed, sei, brk, nop, branch, lax, sax, dcp, isb, slo, rla, sre, rra, CPU.reset, CPU.non_markable_interrupt, CPU.interrupt_request, CPU.break_interrupt, CPU.read, CPU.write, CPU.read_word, CPU.read_on_indirect, CPU.push_stack, CPU.push_stack_word, CPU.pull_stack, CPU.pull_stack_word]
  refine ⟨?_, fun hp => ?_⟩ <;> (try split_ifs) <;>
    (try dsimp only) <;>
    (first
      | omega
      | ((repeat (first | apply hbp.1 | apply hbp.2)); exact hp))

theorem COK_pha (hbp : BusPres P) : COK P pha := by
  intro c
  simp only [lda, ldx, ldy, sta, stx, sty, tax, tsx, tay, txa, txs, tya, pha, php, pla, plp, and, eor, ora, bit, adc, sbc, cmp, cpx, cpy, inc, inx, iny, dec, dex, dey, asl, asl_for_accumelator, lsr, lsr_for_accumelator, rol, rol_for_accumelator, ror, ror_for_accumelator, jmp, jsr, rts, rti, bcc, bcs, beq, bmi, bne, bpl, bvc, bvs, clc, cld, cli, clv, sec, sed, sei, brk, nop, branch, lax, sax, dcp, isb, slo, rla, sre, rra, CPU.reset, CPU.non_markable_interrupt, CPU.interrupt_request, CPU.break_interrupt, CPU.read, CPU.write, CPU.read_word, CPU.read_on_indirect, CPU.push_stack, CPU.push_stack_word, CPU.pull_stack, CPU.pull_stack_word]
  refine ⟨?_, fun hp => ?_⟩ <;> (try split_ifs) <;>
    (try dsimp only) <;>
    (first
      | omega
      | ((repeat (first | apply hbp.1 | apply hbp.2)); exact hp))

theorem COK_php (hbp : BusPres P) : COK P php := by
  intro c
  simp only [lda, ldx, ldy, sta, stx, sty, tax, tsx, tay, txa, txs, tya, pha, php, pla, plp, and, eor, ora, bit, adc, sbc, cmp, cpx, cpy, inc, inx, iny, dec, dex, dey, asl, asl_for_accumelator, lsr, lsr_for_accumelator, rol, rol_for_accumelator, ror, ror_for_accumelator, jmp, jsr, rts, rti, bcc, bcs, beq, bmi, bne, bpl, bvc, bvs, clc, cld, cli, clv, sec, sed, sei, brk, nop, branch, lax, sax, dcp, isb, slo, rla, sre, rra, CPU.reset, CPU.non_markable_interrupt, CPU.interrupt_request, CPU.break_interrupt, CPU.read, CPU.write, CPU.read_word, CPU.read_on_indirect, CPU.push_stack, CPU.push_stack_word, CPU.pull_stack, CPU.pull_stack_word]
  refine ⟨?_, fun hp => ?_⟩ <;> (try split_ifs) <;>
    (try dsimp only) <;>
    (first
      | omega
      | ((repeat (first | apply hbp.1 | apply hbp.2)); exact hp))

theorem COK_pla (hbp : BusPres P) : COK P pla := by
  intro c
  simp only [lda, ldx, ldy, sta, stx, sty, tax, tsx, tay, txa, txs, tya, pha, php, pla, plp, and, eor, ora, bit, adc, sbc, cmp, cpx, cpy, inc, inx, iny, dec, dex, dey, asl, asl_for_accumelator, lsr, lsr_for_accumelator, rol, rol_for_accumelator, ror, ror_for_accumelator, jmp, jsr, rts, rti, bcc, bcs, beq, bmi, bne, bpl, bvc, bvs, clc, cld, cli, clv, sec, sed, sei, brk, nop, branch, lax, sax, dcp, isb, slo, rla, sre, rra, CPU.reset, CPU.non_markable_interrupt, CPU.interrupt_request, CPU.break_interrupt, CPU.read, CPU.write, CPU.read_word, CPU.read_on_indirect, CPU.push_stack, CPU.push_stack_word, CPU.pull_stack, CPU.pull_stack_word]
  refine ⟨?_, fun hp => ?_⟩ <;> (try split_ifs) <;>
    (try dsimp only) <;>
    (first
      | omega
      | ((repeat (first | apply hbp.1 | apply hbp.2)); exact hp))

theorem COK_plp (hbp : BusPres P) : COK P plp := by
  intro c
  simp only [lda, ldx, ldy, sta, stx, sty, tax, tsx, tay, txa, txs, tya, pha, php, pla, plp, and, eor, ora, bit, adc, sbc, cmp, cpx, cpy, inc, inx, iny, dec, dex, dey, asl, asl_for_accumelator, lsr, lsr_for_accumelator, rol, rol_for_accumelator, ror, ror_for_accumelator, jmp, jsr, rts, rti, bcc, bcs, beq, bmi, bne, bpl, bvc, bvs, clc, cld, cli, clv, sec, sed, sei, brk, nop, branch, lax, sax, dcp, isb, slo, rla, sre, rra, CPU.reset, CPU.non_markable_interrupt, CPU.interrupt_request, CPU.break_interrupt, CPU.read, CPU.write, CPU.read_word, CPU.read_on_indirect, CPU.push_stack, CPU.push_stack_word, CPU.pull_stack, CPU.pull_stack_word]
  refine ⟨?_, fun hp => ?_⟩ <;> (try split_ifs) <;>
    (try dsimp only) <;>
    (first
      | omega
      | ((repeat (first | apply hbp.1 | apply hbp.2)); exact hp))

theorem COK_inx (hbp : BusPres P) : COK P inx := by
  intro c
  simp only [lda, ldx, ldy, sta, stx, sty, tax, tsx, tay, txa, txs, tya, pha, php, pla, plp, and, eor, ora, bit, adc, sbc, cmp, cpx, cpy, inc, inx, iny, dec, dex, dey, asl, asl_for_accumelator, lsr, lsr_for_accumelator, rol, rol_for_accumelator, ror, ror_for_accumelator, jmp, jsr, rts, rti, bcc, bcs, beq, bmi, bne, bpl, bvc, bvs, clc, cld, cli, clv, sec, sed, sei, brk, nop, branch, lax, sax, dcp, isb, slo, rla, sre, rra, CPU.reset, CPU.non_markable_interrupt, CPU.interrupt_request, CPU.break_interrupt, CPU.read, CPU.write, CPU.read_word, CPU.read_on_indirect, CPU.push_stack, CPU.push_stack_word, CPU.pull_stack, CPU.pull_stack_word]
  refine ⟨?_, fun hp => ?_⟩ <;> (try split_ifs) <;>
    (try dsimp only) <;>
    (first
      | omega
      | ((repeat (first | apply hbp.1 | apply hbp.2)); exact hp))

theorem COK_iny (hbp : BusPres P) : COK P iny := by
  intro c
  simp only [lda, ldx, ldy, sta, stx, sty, tax, tsx, tay, txa, txs, tya, pha, php, pla, plp, and, eor, ora, bit, adc, sbc, cmp, cpx, cpy, inc, inx, iny, dec, dex, dey, asl, asl_for_accumelator, lsr, lsr_for_accumelator, rol, rol_for_accumelator, ror, ror_for_accumelator, jmp, jsr, rts, rti, bcc, bcs, beq, bmi, bne, bpl, bvc, bvs, clc, cld, cli, clv, sec, sed, sei, brk, nop, branch, lax, sax, dcp, isb, slo, rla, sre, rra, CPU.reset, CPU.non_markable_interrupt, CPU.interrupt_request, CPU.break_interrupt, CPU.read, CPU.write, CPU.read_word, CPU.read_on_indirect, CPU.push_stack, CPU.push_stack_word, CPU.pull_stack, CPU.pull_stack_word]
  refine ⟨?_, fun hp => ?_⟩ <;> (try split_ifs) <;>
    (try dsimp only) <;>
    (first
      | omega
      | ((repeat (first | apply hbp.1 | apply hbp.2)); exact hp))

theorem COK_dex (hbp : BusPres P) : COK P dex := by
  intro c
  simp only [lda, ldx, ldy, sta, stx, sty, tax, tsx, tay, txa, txs, tya, pha, php, pla, plp, and, eor, ora, bit, adc, sbc, cmp, cpx, cpy, inc, inx, iny, dec, dex, dey, asl, asl_for_accumelator, lsr, lsr_for_accumelator, rol, rol_for_accumelator, ror, ror_for_accumelator, jmp, jsr, rts, rti, bcc, bcs, beq, bmi, bne, bpl, bvc, bvs, clc, cld, cli, clv, sec, sed, sei, brk, nop, branch, lax, sax, dcp, isb, slo, rla, sre, rra, CPU.reset, CPU.non_markable_interrupt, CPU.interrupt_request, CPU.break_interrupt, CPU.read, CPU.write, CPU.read_word, CPU.read_on_indirect, CPU.push_stack, CPU.push_stack_word, CPU.pull_stack, CPU.pull_stack_word]
  refine ⟨?_, fun hp => ?_⟩ <;> (try split_ifs) <;>
    (try dsimp only) <;>
    (first
      | omega
      | ((repeat (first | apply hbp.1 | apply hbp.2)); exact hp))

theorem COK_dey (hbp : BusPres P) : COK P dey := by
  intro c
  simp only [lda, ldx, ldy, sta, stx, sty, tax, tsx, tay, txa, txs, tya, pha, php, pla, plp, and, eor, ora, bit, adc, sbc, cmp, cpx, cpy, inc, inx, iny, dec, dex, dey, asl, asl_for_accumelator, lsr, lsr_for_accumelator, rol, rol_for_accumelator, ror, ror_for_accumelator, jmp, jsr, rts, rti, bcc, bcs, beq, bmi, bne, bpl, bvc, bvs, clc, cld, cli, clv, sec, sed, sei, brk, nop, branch, lax, sax, dcp, isb, slo, rla, sre, rra, CPU.reset, CPU.non_markable_interrupt, CPU.interrupt_request, CPU.break_interrupt, CPU.read, CPU.write, CPU.read_word, CPU.read_on_indirect, CPU.push_stack, CPU.push_stack_word, CPU.pull_stack, CPU.pull_stack_word]
  refine ⟨?_, fun hp => ?_⟩ <;> (try split_ifs) <;>
    (try dsimp only) <;>
    (first
      | omega
      | ((repeat (first | apply hbp.1 | apply hbp.2)); exact hp))

theorem COK_asl_for_accumelator (hbp : BusPres P) : COK P asl_for_accumelator := by
  intro c
  simp only [lda, ldx, ldy, sta, stx, sty, tax, tsx, tay, txa, txs, tya, pha, php, pla, plp, and, eor, ora, bit, adc, sbc, cmp, cpx, cpy, inc, inx, iny, dec, dex, dey, asl, asl_for_accumelator, lsr, lsr_for_accumelator, rol, rol_for_accumelator, ror, ror_for_accumelator, jmp, jsr, rts, rti, bcc, bcs, beq, bmi, bne, bpl, bvc, bvs, clc, cld, cli, clv, sec, sed, sei, brk, nop, branch, lax, sax, dcp, isb, slo, rla, sre, rra, CPU.reset, CPU.non_markable_interrupt, CPU.interrupt_request, CPU.break_interrupt, CPU.read, CPU.write, CPU.read_word, CPU.read_on_indirect, CPU.push_stack, CPU.push_stack_word, CPU.pull_stack, CPU.pull_stack_word]
  refine ⟨?_, fun hp => ?_⟩ <;> (try split_ifs) <;>
    (try dsimp only) <;>
    (first
      | omega
      | ((repeat (first | apply hbp.1 | apply hbp.2)); exact hp))

theorem COK_lsr_for_accumelator (hbp : BusPres P) : COK P lsr_for_accumelator := by
  intro c
  simp only [lda, ldx, ldy, sta, stx, sty, tax, tsx, tay, txa, txs, tya, pha, php, pla, plp, and, eor, ora, bit, adc, sbc, cmp, cpx, cpy, inc, inx, iny, dec, dex, dey, asl, asl_for_accumelator, lsr, lsr_for_accumelator, rol, rol_for_accumelator, ror, ror_for_accumelator, jmp, jsr, rts, rti, bcc, bcs, beq, bmi, bne, bpl, bvc, bvs, clc, cld, cli, clv, sec, sed, sei, brk, nop, branch, lax, sax, dcp, isb, slo, rla, sre, rra, CPU.reset, CPU.non_markable_interrupt, CPU.interrupt_request, CPU.break_interrupt, CPU.read, CPU.write, CPU.read_word, CPU.read_on_indirect, CPU.push_stack, CPU.push_stack_word, CPU.pull_stack, CPU.pull_stack_word]
  refine ⟨?_, fun hp => ?_⟩ <;> (try split_ifs) <;>
    (try dsimp only) <;>
    (first
      | omega
      | ((repeat (first | apply hbp.1 | apply hbp.2)); exact hp))

theorem COK_rol_for_accumelator (hbp : BusPres P) : COK P rol_for_accumelator := by
  intro c
  simp only [lda, ldx, ldy, sta, stx, sty, tax, tsx, tay, txa, txs, tya, pha, php, pla, plp, and, eor, ora, bit, adc, sbc, cmp, cpx, cpy, inc, inx, iny, dec, dex, dey, asl, asl_for_accumelator, lsr, lsr_for_accumelator, rol, rol_for_accumelator, ror, ror_for_accumelator, jmp, jsr, rts, rti, bcc, bcs, beq, bmi, bne, bpl, bvc, bvs, clc, cld, cli, clv, sec, sed, sei, brk, nop, branch, lax, sax, dcp, isb, slo, rla, sre, rra, CPU.reset, CPU.non_markable_interrupt, CPU.interrupt_request, CPU.break_interrupt, CPU.read, CPU.write, CPU.read_word, CPU.read_on_indirect, CPU.push_stack, CPU.push_stack_word, CPU.pull_stack, CPU.pull_stack_word]
  refine ⟨?_, fun hp => ?_⟩ <;> (try split_ifs) <;>
    (try dsimp only) <;>
    (first
      | omega
      | ((repeat (first | apply hbp.1 | apply hbp.2)); exact hp))

theorem COK_ror_for_accumelator (hbp : BusPres P) : COK P ror_for_accumelator := by
  intro c
  simp only [lda, ldx, ldy, sta, stx, sty, tax, tsx, tay, txa, txs, tya, pha, php, pla, plp, and, eor, ora, bit, adc, sbc, cmp, cpx, cpy, inc, inx, iny, dec, dex, dey, asl, asl_for_accumelator, lsr, lsr_for_accumelator, rol, rol_for_accumelator, ror, ror_for_accumelator, jmp, jsr, rts, rti, bcc, bcs, beq, bmi, bne, bpl, bvc, bvs, clc, cld, cli, clv, sec, sed, sei, brk, nop, branch, lax, sax, dcp, isb, slo, rla, sre, rra, CPU.reset, CPU.non_markable_interrupt, CPU.interrupt_request, CPU.break_interrupt, CPU.read, CPU.write, CPU.read_word, CPU.read_on_indirect, CPU.push_stack, CPU.push_stack_word, CPU.pull_stack, CPU.pull_stack_word]
  refine ⟨?_, fun hp => ?_⟩ <;> (try split_ifs) <;>
    (try dsimp only) <;>
    (first
      | omega
      | ((repeat (first | apply hbp.1 | apply hbp.2)); exact hp))

theorem COK_rts (hbp : BusPres P) : COK P rts := by
  intro c
  simp only [lda, ldx, ldy, sta, stx, sty, tax, tsx, tay, txa, txs, tya, pha, php, pla, plp, and, eor, ora, bit, adc, sbc, cmp, cpx, cpy, inc, inx, iny, dec, dex, dey, asl, asl_for_accumelator, lsr, lsr_for_accumelator, rol, rol_for_accumelator, ror, ror_for_accumelator, jmp, jsr, rts, rti, bcc, bcs, beq, bmi, bne, bpl, bvc, bvs, clc, cld, cli, clv, sec, sed, sei, brk, nop, branch, lax, sax, dcp, isb, slo, rla, sre, rra, CPU.reset, CPU.non_markable_interrupt, CPU.interrupt_request, CPU.break_interrupt, CPU.read, CPU.write, CPU.read_word, CPU.read_on_indirect, CPU.push_stack, CPU.push_stack_word, CPU.pull_stack, CPU.pull_stack_word]
  refine ⟨?_, fun hp => ?_⟩ <;> (try split_ifs) <;>
    (try dsimp only) <;>
    (first
      | omega
      | ((repeat (first | apply hbp.1 | apply hbp.2)); exact hp))

theorem COK_rti (hbp : BusPres P) : COK P rti := by
  intro c
  simp only [lda, ldx, ldy, sta, stx, sty, tax, tsx, tay, txa, txs, tya, pha, php, pla, plp, and, eor, ora, bit, adc, sbc, cmp, cpx, cpy, inc, inx, iny, dec, dex, dey, asl, asl_for_accumelator, lsr, lsr_for_accumelator, rol, rol_for_accumelator, ror, ror_for_accumelator, jmp, jsr, rts, rti, bcc, bcs, beq, bmi, bne, bpl, bvc, bvs, clc, cld, cli, clv, sec, sed, sei, brk, nop, branch, lax, sax, dcp, isb, slo, rla, sre, rra, CPU.reset, CPU.non_markable_interrupt, CPU.interrupt_request, CPU.break_interrupt, CPU.read, CPU.write, CPU.read_word, CPU.read_on_indirect, CPU.push_stack, CPU.push_stack_word, CPU.pull_stack, CPU.pull_stack_word]
  refine ⟨?_, fun hp => ?_⟩ <;> (try split_ifs) <;>
    (try dsimp only) <;>
    (first
      | omega
      | ((repeat (first | apply hbp.1 | apply hbp.2)); exact hp))

theorem COK_clc (hbp : BusPres P) : COK P clc := by
  intro c
  simp only [lda, ldx, ldy, sta, stx, sty, tax, tsx, tay, txa, txs, tya, pha, php, pla, plp, and, eor, ora, bit, adc, sbc, cmp, cpx, cpy, inc, inx, iny, dec, dex, dey, asl, asl_for_accumelator, lsr, lsr_for_accumelator, rol, rol_for_accumelator, ror, ror_for_accumelator, jmp, jsr, rts, rti, bcc, bcs, beq, bmi, bne, bpl, bvc, bvs, clc, cld, cli, clv, sec, sed, sei, brk, nop, branch, lax, sax, dcp, isb, slo, rla, sre, rra, CPU.reset, CPU.non_markable_interrupt, CPU.interrupt_request, CPU.break_interrupt, CPU.read, CPU.write, CPU.read_word, CPU.read_on_indirect, CPU.push_stack, CPU.push_stack_word, CPU.pull_stack, CPU.pull_stack_word]
  refine ⟨?_, fun hp => ?_⟩ <;> (try split_ifs) <;>
    (try dsimp only) <;>
    (first
      | omega
      | ((repeat (first | apply hbp.1 | apply hbp.2)); exact hp))

theorem COK_cld (hbp : BusPres P) : COK P cld := by
  intro c
  simp only [lda, ldx, ldy, sta, stx, sty, tax, tsx, tay, txa, txs, tya, pha, php, pla, plp, and, eor, ora, bit, adc, sbc, cmp, cpx, cpy, inc, inx, iny, dec, dex, dey, asl, asl_for_accumelator, lsr, lsr_for_accumelator, rol, rol_for_accumelator, ror, ror_for_accumelator, jmp, jsr, rts, rti, bcc, bcs, beq, bmi, bne, bpl, bvc, bvs, clc, cld, cli, clv, sec, sed, sei, brk, nop, branch, lax, sax, dcp, isb, slo, rla, sre, rra, CPU.reset, CPU.non_markable_interrupt, CPU.interrupt_request, CPU.break_interrupt, CPU.read, CPU.write, CPU.read_word, CPU.read_on_indirect, CPU.push_stack, CPU.push_stack_word, CPU.pull_stack, CPU.pull_stack_word]
  refine ⟨?_, fun hp => ?_⟩ <;> (try split_ifs) <;>
    (try dsimp only) <;>
    (first
      | omega
      | ((repeat (first | apply hbp.1 | apply hbp.2)); exact hp))

theorem COK_cli (hbp : BusPres P) : COK P cli := by
  intro c
  simp only [lda, ldx, ldy, sta, stx, sty, tax, tsx, tay, txa, txs, tya, pha, php, pla, plp, and, eor, ora, bit, adc, sbc, cmp, cpx, cpy, inc, inx, iny, dec, dex, dey, asl, asl_for_accumelator, lsr, lsr_for_accumelator, rol, rol_for_accumelator, ror, ror_for_accumelator, jmp, jsr, rts, rti, bcc, bcs, beq, bmi, bne, bpl, bvc, bvs, clc, cld, cli, clv, sec, sed, sei, brk, nop, branch, lax, sax, dcp, isb, slo, rla, sre, rra, CPU.reset, CPU.non_markable_interrupt, CPU.interrupt_request, CPU.break_interrupt, CPU.read, CPU.write, CPU.read_word, CPU.read_on_indirect, CPU.push_stack, CPU.push_stack_word, CPU.pull_stack, CPU.pull_stack_word]
  refine ⟨?_, fun hp => ?_⟩ <;> (try split_ifs) <;>
    (try dsimp only) <;>
    (first
      | omega
      | ((repeat (first | apply hbp.1 | apply hbp.2)); exact hp))

theorem COK_clv (hbp : BusPres P) : COK P clv := by
  intro c
  simp only [lda, ldx, ldy, sta, stx, sty, tax, tsx, tay, txa, txs, tya, pha, php, pla, plp, and, eor, ora, bit, adc, sbc, cmp, cpx, cpy, inc, inx, iny, dec, dex, dey, asl, asl_for_accumelator, lsr, lsr_for_accumelator, rol, rol_for_accumelator, ror, ror_for_accumelator, jmp, jsr, rts, rti, bcc, bcs, beq, bmi, bne, bpl, bvc, bvs, clc, cld, cli, clv, sec, sed, sei, brk, nop, branch, lax, sax, dcp, isb, slo, rla, sre, rra, CPU.reset, CPU.non_markable_interrupt, CPU.interrupt_request, CPU.break_interrupt, CPU.read, CPU.write, CPU.read_word, CPU.read_on_indirect, CPU.push_stack, CPU.push_stack_word, CPU.pull_stack, CPU.pull_stack_word]
  refine ⟨?_, fun hp => ?_⟩ <;> (try split_ifs) <;>
    (try dsimp only) <;>
    (first
      | omega
      | ((repeat (first | apply hbp.1 | apply hbp.2)); exact hp))

theorem COK_sec (hbp : BusPres P) : COK P sec := by
  intro c
  simp only [lda, ldx, ldy, sta, stx, sty, tax, tsx, tay, txa, txs, tya, pha, php, pla, plp, and, eor, ora, bit, adc, sbc, cmp, cpx, cpy, inc, inx, iny, dec, dex, dey, asl, asl_for_accumelator, lsr, lsr_for_accumelator, rol, rol_for_accumelator, ror, ror_for_accumelator, jmp, jsr, rts, rti, bcc, bcs, beq, bmi, bne, bpl, bvc, bvs, clc, cld, cli, clv, sec, sed, sei, brk, nop, branch, lax, sax, dcp, isb, slo, rla, sre, rra, CPU.reset, CPU.non_markable_interrupt, CPU.interrupt_request, CPU.break_interrupt, CPU.read, CPU.write, CPU.read_word, CPU.read_on_indirect, CPU.push_stack, CPU.push_stack_word, CPU.pull_stack, CPU.pull_stack_word]
  refine ⟨?_, fun hp => ?_⟩ <;> (try split_ifs) <;>
    (try dsimp only) <;>
    (first
      | omega
      | ((repeat (first | apply hbp.1 | apply hbp.2)); exact hp))

theorem COK_sed (hbp : BusPres P) : COK P sed := by
  intro c
  simp only [lda, ldx, ldy, sta, stx, sty, tax, tsx, tay, txa, txs, tya, pha, php, pla, plp, and, eor, ora, bit, adc, sbc, cmp, cpx, cpy, inc, inx, iny, dec, dex, dey, asl, asl_for_accumelator, lsr, lsr_for_accumelator, rol, rol_for_accumelator, ror, ror_for_accumelator, jmp, jsr, rts, rti, bcc, bcs, beq, bmi, bne, bpl, bvc, bvs, clc, cld, cli, clv, sec, sed, sei, brk, nop, branch, lax, sax, dcp, isb, slo, rla, sre, rra, CPU.reset, CPU.non_markable_interrupt, CPU.interrupt_request, CPU.break_interrupt, CPU.read, CPU.write, CPU.read_word, CPU.read_on_indirect, CPU.push_stack, CPU.push_stack_word, CPU.pull_stack, CPU.pull_stack_word]
  refine ⟨?_, fun hp => ?_⟩ <;> (try split_ifs) <;>
    (try dsimp only) <;>
    (first
      | omega
      | ((repeat (first | apply hbp.1 | apply hbp.2)); exact hp))

theorem COK_sei (hbp : BusPres P) : COK P sei := by
  intro c
  simp only [lda, ldx, ldy, sta, stx, sty, tax, tsx, tay, txa, txs, tya, pha, php, pla, plp, and, eor, ora, bit, adc, sbc, cmp, cpx, cpy, inc, inx, iny, dec, dex, dey, asl, asl_for_accumelator, lsr, lsr_for_accumelator, rol, rol_for_accumelator, ror, ror_for_accumelator, jmp, jsr, rts, rti, bcc, bcs, beq, bmi, bne, bpl, bvc, bvs, clc, cld, cli, clv, sec, sed, sei, brk, nop, branch, lax, sax, dcp, isb, slo, rla, sre, rra, CPU.reset, CPU.non_markable_interrupt, CPU.interrupt_request, CPU.break_interrupt, CPU.read, CPU.write, CPU.read_word, CPU.read_on_indirect, CPU.push_stack, CPU.push_stack_word, CPU.pull_stack, CPU.pull_stack_word]
  refine ⟨?_, fun hp => ?_⟩ <;> (try split_ifs) <;>
    (try dsimp only) <;>
    (first
      | omega
      | ((repeat (first | apply hbp.1 | apply hbp.2)); exact hp))

theorem COK_brk (hbp : BusPres P) : COK P brk := by
  intro c
  simp only [lda, ldx, ldy, sta, stx, sty, tax, tsx, tay, txa, txs, tya, pha, php, pla, plp, and, eor, ora, bit, adc, sbc, cmp, cpx, cpy, inc, inx, iny, dec, dex, dey, asl, asl_for_accumelator, lsr, lsr_for_accumelator, rol, rol_for_accumelator, ror, ror_for_accumelator, jmp, jsr, rts, rti, bcc, bcs, beq, bmi, bne, bpl, bvc, bvs, clc, cld, cli, clv, sec, sed, sei, brk, nop, branch, lax, sax, dcp, isb, slo, rla, sre, rra, CPU.reset, CPU.non_markable_interrupt, CPU.interrupt_request, CPU.break_interrupt, CPU.read, CPU.write, CPU.read_word, CPU.read_on_indirect, CPU.push_stack, CPU.push_stack_word, CPU.pull_stack, CPU.pull_stack_word]
  refine ⟨?_, fun hp => ?_⟩ <;> (try split_ifs) <;>
    (try dsimp only) <;>
    (first
      | omega
      | ((repeat (first | apply hbp.1 | apply hbp.2)); exact hp))

theorem COK_nop (hbp : BusPres P) : COK P nop := by
  intro c
  simp only [lda, ldx, ldy, sta, stx, sty, tax, tsx, tay, txa, txs, tya, pha, php, pla, plp, and, eor, ora, bit, adc, sbc, cmp, cpx, cpy, inc, inx, iny, dec, dex, dey, asl, asl_for_accumelator, lsr, lsr_for_accumelator, rol, rol_for_accumelator, ror, ror_for_accumelator, jmp, jsr, rts, rti, bcc, bcs, beq, bmi, bne, bpl, bvc, bvs, clc, cld, cli, clv, sec, sed, sei, brk, nop, branch, lax, sax, dcp, isb, slo, rla, sre, rra, CPU.reset, CPU.non_markable_interrupt, CPU.interrupt_request, CPU.break_interrupt, CPU.read, CPU.write, CPU.read_word, CPU.read_on_indirect, CPU.push_stack, CPU.push_stack_word, CPU.pull_stack, CPU.pull_stack_word]
  refine ⟨?_, fun hp => ?_⟩ <;> (try split_ifs) <;>
    (try dsimp only) <;>
    (first
      | omega
      | ((repeat (first | apply hbp.1 | apply hbp.2)); exact hp))

theorem COK_reset (hbp : BusPres P) : COK P (CPU.reset (σ := σ)) := by
  intro c
  simp only [lda, ldx, ldy, sta, stx, sty, tax, tsx, tay, txa, txs, tya, pha, php, pla, plp, and, eor, ora, bit, adc, sbc, cmp, cpx, cpy, inc, inx, iny, dec, dex, dey, asl, asl_for_accumelator, lsr, lsr_for_accumelator, rol, rol_for_accumelator, ror, ror_for_accumelator, jmp, jsr, rts, rti, bcc, bcs, beq, bmi, bne, bpl, bvc, bvs, clc, cld, cli, clv, sec, sed, sei, brk, nop, branch, lax, sax, dcp, isb, slo, rla, sre, rra, CPU.reset, CPU.non_markable_interrupt, CPU.interrupt_request, CPU.break_interrupt, CPU.read, CPU.write, CPU.read_word, CPU.read_on_indirect, CPU.push_stack, CPU.push_stack_word, CPU.pull_stack, CPU.pull_stack_word]
  refine ⟨?_, fun hp => ?_⟩ <;> (try split_ifs) <;>
    (try dsimp only) <;>
    (first
      | omega
      | ((repeat (first | apply hbp.1 | apply hbp.2)); exact hp))

theorem COK_nmi_entry (hbp : BusPres P) : COK P (CPU.non_markable_interrupt (σ := σ)) := by
  intro c
  simp only [lda, ldx, ldy, sta, stx, sty, tax, tsx, tay, txa, txs, tya, pha, php, pla, plp, and, eor, ora, bit, adc, sbc, cmp, cpx, cpy, inc, inx, iny, dec, dex, dey, asl, asl_for_accumelator, lsr, lsr_for_accumelator, rol, rol_for_accumelator, ror, ror_for_accumelator, jmp, jsr, rts, rti, bcc, bcs, beq, bmi, bne, bpl, bvc, bvs, clc, cld, cli, clv, sec, sed, sei, brk, nop, branch, lax, sax, dcp, isb, slo, rla, sre, rra, CPU.reset, CPU.non_markable_interrupt, CPU.interrupt_request, CPU.break_interrupt, CPU.read, CPU.write, CPU.read_word, CPU.read_on_indirect, CPU.push_stack, CPU.push_stack_word, CPU.pull_stack, CPU.pull_stack_word]
  refine ⟨?_, fun hp => ?_⟩ <;> (try split_ifs) <;>
    (try dsimp only) <;>
    (first
      | omega
      | ((repeat (first | apply hbp.1 | apply hbp.2)); exact hp))

theorem COK_irq_entry (hbp : BusPres P) : COK P (CPU.interrupt_request (σ := σ)) := by
  intro c
  simp only [lda, ldx, ldy, sta, stx, sty, tax, tsx, tay, txa, txs, tya, pha, php, pla, plp, and, eor, ora, bit, adc, sbc, cmp, cpx, cpy, inc, inx, iny, dec, dex, dey, asl, asl_for_accumelator, lsr, lsr_for_accumelator, rol, rol_for_accumelator, ror, ror_for_accumelator, jmp, jsr, rts, rti, bcc, bcs, beq, bmi, bne, bpl, bvc, bvs, clc, cld, cli, clv, sec, sed, sei, brk, nop, branch, lax, sax, dcp, isb, slo, rla, sre, rra, CPU.reset, CPU.non_markable_interrupt, CPU.interrupt_request, CPU.break_interrupt, CPU.read, CPU.write, CPU.read_word, CPU.read_on_indirect, CPU.push_stack, CPU.push_stack_word, CPU.pull_stack, CPU.pull_stack_word]
  refine ⟨?_, fun hp => ?_⟩ <;> (try split_ifs) <;>
    (try dsimp only) <;>
    (first
      | omega
      | ((repeat (first | apply hbp.1 | apply hbp.2)); exact hp))

theorem COK_brk_entry (hbp : BusPres P) : COK P (CPU.break_interrupt (σ := σ)) := by
  intro c
  simp only [lda, ldx, ldy, sta, stx, sty, tax, tsx, tay, txa, txs, tya, pha, php, pla, plp, and, eor, ora, bit, adc, sbc, cmp, cpx, cpy, inc, inx, iny, dec, dex, dey, asl, asl_for_accumelator, lsr, lsr_for_accumelator, rol, rol_for_accumelator, ror, ror_for_accumelator, jmp, jsr, rts, rti, bcc, bcs, beq, bmi, bne, bpl, bvc, bvs, clc, cld, cli, clv, sec, sed, sei, brk, nop, branch, lax, sax, dcp, isb, slo, rla, sre, rra, CPU.reset, CPU.non_markable_interrupt, CPU.interrupt_request, CPU.break_interrupt, CPU.read, CPU.write, CPU.read_word, CPU.read_on_indirect, CPU.push_stack, CPU.push_stack_word, CPU.pull_stack, CPU.pull_stack_word]
  refine ⟨?_, fun hp => ?_⟩ <;> (try split_ifs) <;>
    (try dsimp only) <;>
    (first
      | omega
      | ((repeat (first | apply hbp.1 | apply hbp.2)); exact hp))

theorem VOK_get_operand (hbp : BusPres P) (m : AddressingMode) :
    VOK P m.get_operand := by
  cases m <;>
    (intro c
     simp only [AddressingMode.get_operand, CPU.read, CPU.read_word, CPU.read_on_indirect]
     refine ⟨?_, fun hp => ?_⟩ <;> (try split_ifs) <;>
       (try dsimp only) <;>
    (first
      | omega
      | ((repeat (first | apply hbp.1 | apply hbp.2)); exact hp)))

/-- Compose an operand resolution with an operand-taking instruction. -/
theorem COK_comp1 (g : CPU σ → Nat × CPU σ) (f : CPU σ → Nat → CPU σ)
    (hg : VOK P g) (hf : ∀ v, COK P (fun c => f c v)) :
    COK P (fun c => f (g c).2 (g c).1) := by
  intro c
  obtain ⟨h1, h2⟩ := hg c
  obtain ⟨h3, h4⟩ := hf (g c).1 (g c).2
  exact ⟨le_trans h1 h3, fun hp => h4 (h2 hp)⟩

/-- Compose an operand resolution with an operand-free instruction. -/
theorem COK_comp0 (g : CPU σ → Nat × CPU σ) (f : CPU σ → CPU σ)
    (hg : VOK P g) (hf : COK P f) : COK P (fun c => f (g c).2) := by
  intro c
  obtain ⟨h1, h2⟩ := hg c
  obtain ⟨h3, h4⟩ := hf (g c).2
  exact ⟨le_trans h1 h3, fun hp => h4 (h2 hp)⟩

end CycleMono


section CycleMono2

variable {σ : Type} [Memory σ] (P : σ → Prop)

/-- Every decoded instruction is cycle-monotone and preserves any bus
invariant stable under raw accesses. -/
theorem COK_execute (hbp : BusPres P) (op : Opcode) : COK P (fun c => execute c op) := by
  rcases op with ⟨m, am⟩
  cases m with
  | LDA =>
      simp only [execute]
      exact COK_comp1 P _ _ (VOK_get_operand P hbp am) (COK_lda P hbp)
  | LDX =>
      simp only [execute]
      exact COK_comp1 P _ _ (VOK_get_operand P hbp am) (COK_ldx P hbp)
  | LDY =>
      simp only [execute]
      exact COK_comp1 P _ _ (VOK_get_operand P hbp am) (COK_ldy P hbp)
  | STA =>
      cases am <;> simp only [execute] <;>
        first
          | exact COK_comp1 P _ _ (VOK_get_operand P hbp _) (COK_sta P hbp)
          | (intro c
             obtain ⟨h1, h2⟩ :=
               VOK_get_operand P hbp AddressingMode.indirectIndexed c
             obtain ⟨h3, h4⟩ := COK_sta P hbp
               ((AddressingMode.get_operand AddressingMode.indirectIndexed c).1)
               ((AddressingMode.get_operand AddressingMode.indirectIndexed c).2)
             dsimp only at h3 h4
             refine ⟨?_, fun hp => ?_⟩ <;> (try dsimp only) <;>
               (first | omega | exact h4 (h2 hp)))
  | STX =>
      simp only [execute]
      exact COK_comp1 P _ _ (VOK_get_operand P hbp am) (COK_stx P hbp)
  | STY =>
      simp only [execute]
      exact COK_comp1 P _ _ (VOK_get_operand P hbp am) (COK_sty P hbp)
  | TAX =>
      simp only [execute]
      exact COK_comp0 P _ _ (VOK_get_operand P hbp am) (COK_tax P hbp)
  | TSX =>
      simp only [execute]
      exact COK_comp0 P _ _ (VOK_get_operand P hbp am) (COK_tsx P hbp)
  | TAY =>
      simp only [execute]
      exact COK_comp0 P _ _ (VOK_get_operand P hbp am) (COK_tay P hbp)
  | TXA =>
      simp only [execute]
      exact COK_comp0 P _ _ (VOK_get_operand P hbp am) (COK_txa P hbp)
  | TXS =>
      simp only [execute]
      exact COK_comp0 P _ _ (VOK_get_operand P hbp am) (COK_txs P hbp)
  | TYA =>
      simp only [execute]
      exact COK_comp0 P _ _ (VOK_get_operand P hbp am) (COK_tya P hbp)
  | PHA =>
      simp only [execute]
      exact COK_comp0 P _ _ (VOK_get_operand P hbp am) (COK_pha P hbp)
  | PHP =>
      simp only [execute]
      exact COK_comp0 P _ _ (VOK_get_operand P hbp am) (COK_php P hbp)
  | PLA =>
      simp only [execute]
      exact COK_comp0 P _ _ (VOK_get_operand P hbp am) (COK_pla P hbp)
  | PLP =>
      simp only [execute]
      exact COK_comp0 P _ _ (VOK_get_operand P hbp am) (COK_plp P hbp)
  | AND =>
      simp only [execute]
      exact COK_comp1 P _ _ (VOK_get_operand P hbp am) (COK_and P hbp)
  | EOR =>
      simp only [execute]
      exact COK_comp1 P _ _ (VOK_get_operand P hbp am) (COK_eor P hbp)
  | ORA =>
      simp only [execute]
      exact COK_comp1 P _ _ (VOK_get_operand P hbp am) (COK_ora P hbp)
  | BIT =>
      simp only [execute]
      exact COK_comp1 P _ _ (VOK_get_operand P hbp am) (COK_bit P hbp)
  | ADC =>
      simp only [execute]
      exact COK_comp1 P _ _ (VOK_get_operand P hbp am) (COK_adc P hbp)
  | SBC =>
      simp only [execute]
      exact COK_comp1 P _ _ (VOK_get_operand P hbp am) (COK_sbc P hbp)
  | CMP =>
      simp only [execute]
      exact COK_comp1 P _ _ (VOK_get_operand P hbp am) (COK_cmp P hbp)
  | CPX =>
      simp only [execute]
      exact COK_comp1 P _ _ (VOK_get_operand P hbp am) (COK_cpx P hbp)
  | CPY =>
      simp only [execute]
      exact COK_comp1 P _ _ (VOK_get_operand P hbp am) (COK_cpy P hbp)
  | INC =>
      simp only [execute]
      exact COK_comp1 P _ _ (VOK_get_operand P hbp am) (COK_inc P hbp)
  | INX =>
      simp only [execute]
      exact COK_comp0 P _ _ (VOK_get_operand P hbp am) (COK_inx P hbp)
  | INY =>
      simp only [execute]
      exact COK_comp0 P _ _ (VOK_get_operand P hbp am) (COK_iny P hbp)
  | DEC =>
      simp only [execute]
      exact COK_comp1 P _ _ (VOK_get_operand P hbp am) (COK_dec P hbp)
  | DEX =>
      simp only [execute]
      exact COK_comp0 P _ _ (VOK_get_operand P hbp am) (COK_dex P hbp)
  | DEY =>
      simp only [execute]
      exact COK_comp0 P _ _ (VOK_get_operand P hbp am) (COK_dey P hbp)
  | ASL =>
      cases am <;> simp only [execute] <;>
        first
          | exact COK_comp0 P _ _ (VOK_get_operand P hbp _) (COK_asl_for_accumelator P hbp)
          | exact COK_comp1 P _ _ (VOK_get_operand P hbp _) (COK_asl P hbp)
  | LSR =>
      cases am <;> simp only [execute] <;>
        first
          | exact COK_comp0 P _ _ (VOK_get_operand P hbp _) (COK_lsr_for_accumelator P hbp)
          | exact COK_comp1 P _ _ (VOK_get_operand P hbp _) (COK_lsr P hbp)
  | ROL =>
      cases am <;> simp only [execute] <;>
        first
          | exact COK_comp0 P _ _ (VOK_get_operand P hbp _) (COK_rol_for_accumelator P hbp)
          | exact COK_comp1 P _ _ (VOK_get_operand P hbp _) (COK_rol P hbp)
  | ROR =>
      cases am <;> simp only [execute] <;>
        first
          | exact COK_comp0 P _ _ (VOK_get_operand P hbp _) (COK_ror_for_accumelator P hbp)
          | exact COK_comp1 P _ _ (VOK_get_operand P hbp _) (COK_ror P hbp)
  | JMP =>
      simp only [execute]
      exact COK_comp1 P _ _ (VOK_get_operand P hbp am) (COK_jmp P hbp)
  | JSR =>
      simp only [execute]
      exact COK_comp1 P _ _ (VOK_get_operand P hbp am) (COK_jsr P hbp)
  | RTS =>
      simp only [execute]
      exact COK_comp0 P _ _ (VOK_get_operand P hbp am) (COK_rts P hbp)
  | RTI =>
      simp only [execute]
      exact COK_comp0 P _ _ (VOK_get_operand P hbp am) (COK_rti P hbp)
  | BCC =>
      simp only [execute]
      exact COK_comp1 P _ _ (VOK_get_operand P hbp am) (COK_bcc P hbp)
  | BCS =>
      simp only [execute]
      exact COK_comp1 P _ _ (VOK_get_operand P hbp am) (COK_bcs P hbp)
  | BEQ =>
      simp only [execute]
      exact COK_comp1 P _ _ (VOK_get_operand P hbp am) (COK_beq P hbp)
  | BMI =>
      simp only [execute]
      exact COK_comp1 P _ _ (VOK_get_operand P hbp am) (COK_bmi P hbp)
  | BNE =>
      simp only [execute]
      exact COK_comp1 P _ _ (VOK_get_operand P hbp am) (COK_bne P hbp)
  | BPL =>
      simp only [execute]
      exact COK_comp1 P _ _ (VOK_get_operand P hbp am) (COK_bpl P hbp)
  | BVC =>
      simp only [execute]
      exact COK_comp1 P _ _ (VOK_get_operand P hbp am) (COK_bvc P hbp)
  | BVS =>
      simp only [execute]
      exact COK_comp1 P _ _ (VOK_get_operand P hbp am) (COK_bvs P hbp)
  | CLC =>
      simp only [execute]
      exact COK_comp0 P _ _ (VOK_get_operand P hbp am) (COK_clc P hbp)
  | CLD =>
      simp only [execute]
      exact COK_comp0 P _ _ (VOK_get_operand P hbp am) (COK_cld P hbp)
  | CLI =>
      simp only [execute]
      exact COK_comp0 P _ _ (VOK_get_operand P hbp am) (COK_cli P hbp)
  | CLV =>
      simp only [execute]
      exact COK_comp0 P _ _ (VOK_get_operand P hbp am) (COK_clv P hbp)
  | SEC =>
      simp only [execute]
      exact COK_comp0 P _ _ (VOK_get_operand P hbp am) (COK_sec P hbp)
  | SED =>
      simp only [execute]
      exact COK_comp0 P _ _ (VOK_get_operand P hbp am) (COK_sed P hbp)
  | SEI =>
      simp only [execute]
      exact COK_comp0 P _ _ (VOK_get_operand P hbp am) (COK_sei P hbp)
  | BRK =>
      simp only [execute]
      exact COK_comp0 P _ _ (VOK_get_operand P hbp am) (COK_brk P hbp)
  | NOP =>
      simp only [execute]
      exact COK_comp0 P _ _ (VOK_get_operand P hbp am) (COK_nop P hbp)
  | LAX =>
      simp only [execute]
      exact COK_comp1 P _ _ (VOK_get_operand P hbp am) (COK_lax P hbp)
  | SAX =>
      simp only [execute]
      exact COK_comp1 P _ _ (VOK_get_operand P hbp am) (COK_sax P hbp)
  | DCP =>
      simp only [execute]
      exact COK_comp1 P _ _ (VOK_get_operand P hbp am) (COK_dcp P hbp)
  | ISB =>
      simp only [execute]
      exact COK_comp1 P _ _ (VOK_get_operand P hbp am) (COK_isb P hbp)
  | SLO =>
      simp only [execute]
      exact COK_comp1 P _ _ (VOK_get_operand P hbp am) (COK_slo P hbp)
  | RLA =>
      simp only [execute]
      exact COK_comp1 P _ _ (VOK_get_operand P hbp am) (COK_rla P hbp)
  | SRE =>
      simp only [execute]
      exact COK_comp1 P _ _ (VOK_get_operand P hbp am) (COK_sre P hbp)
  | RRA =>
      simp only [execute]
      exact COK_comp1 P _ _ (VOK_get_operand P hbp am) (COK_rra P hbp)

/-- CPU::step consumes at least one cycle (the opcode fetch) and preserves
any bus invariant stable under raw accesses. -/
theorem CPU.step_ok (hbp : BusPres P) (c : CPU σ) :
    c.cycles + 1 ≤ (CPU.step c).cycles ∧ (P c.bus → P (CPU.step c).bus) := by
  obtain ⟨h3, h4⟩ := COK_execute P hbp (decode (c.fetch).1) (c.fetch).2
  have hc : (c.fetch).2.cycles = c.cycles + 1 := by
    simp only [CPU.fetch, CPU.read]
  have hb : P c.bus → P (c.fetch).2.bus := by
    intro hp
    simp only [CPU.fetch, CPU.read]
    exact hbp.1 _ _ hp
  refine ⟨?_, fun hp => ?_⟩
  · have h5 := h3
    rw [hc] at h5
    simpa [CPU.step] using h5
  · have h6 := h4 (hb hp)
    simpa [CPU.step] using h6

end CycleMono2

end RustNES

namespace RustNES

section SF

variable {σ : Type} [Memory σ]

theorem gbp_scan (p : PPU σ) (x : Nat) : (p.get_background_pixel x).2.scan = p.scan := by
  simp only [PPU.get_background_pixel, PPU.busRead, Tile.pixel_pallete]
  (repeat' split) <;> rfl

theorem gbp_frames (p : PPU σ) (x : Nat) : (p.get_background_pixel x).2.frames = p.frames := by
  simp only [PPU.get_background_pixel, PPU.busRead, Tile.pixel_pallete]
  (repeat' split) <;> rfl

theorem gsp_go_sf (x : Int) (y : Nat) (bg : BackgroundPixel) :
    ∀ (l : List Nat) (p : PPU σ),
      (getSpritePixelGo x y bg p l).2.scan = p.scan ∧
      (getSpritePixelGo x y bg p l).2.frames = p.frames := by
  intro l
  induction l with
  | nil => intro p; exact ⟨rfl, rfl⟩
  | cons i rest ih =>
      intro p
      simp only [getSpritePixelGo, PPU.busRead]
      (repeat' split) <;> (first | exact ⟨rfl, rfl⟩ | exact ih _)

theorem gsp_scan (p : PPU σ) (x : Int) (bg : BackgroundPixel) :
    (p.get_sprite_pixel x bg).2.scan = p.scan := by
  simp only [PPU.get_sprite_pixel]
  split
  · rfl
  · exact (gsp_go_sf x p.scan.line bg (List.range SPRITE_LIMIT) p).1

theorem gsp_frames (p : PPU σ) (x : Int) (bg : BackgroundPixel) :
    (p.get_sprite_pixel x bg).2.frames = p.frames := by
  simp only [PPU.get_sprite_pixel]
  split
  · rfl
  · exact (gsp_go_sf x p.scan.line bg (List.range SPRITE_LIMIT) p).2

theorem fbp_scan (p : PPU σ) : (p.fetch_background_pixel).scan = p.scan := by
  simp only [PPU.fetch_background_pixel, PPU.busRead]
  (repeat' split) <;> rfl

theorem fbp_frames (p : PPU σ) : (p.fetch_background_pixel).frames = p.frames := by
  simp only [PPU.fetch_background_pixel, PPU.busRead]
  (repeat' split) <;> rfl

theorem fsp_scan (p : PPU σ) : (p.fetch_sprite_pixel).scan = p.scan := by
  simp only [PPU.fetch_sprite_pixel]
  (repeat' split) <;> rfl

theorem fsp_frames (p : PPU σ) : (p.fetch_sprite_pixel).frames = p.frames := by
  simp only [PPU.fetch_sprite_pixel]
  (repeat' split) <;> rfl


theorem select_pixel_scan (p : PPU σ) (bg : BackgroundPixel) (s : SpritePixel) :
    (p.select_pixel bg s).2.scan = p.scan := by
  obtain ⟨be, bc⟩ := bg
  obtain ⟨se, sc, sb⟩ := s
  unfold PPU.select_pixel
  cases be <;> cases se <;> (try split_ifs) <;> rfl

theorem select_pixel_frames (p : PPU σ) (bg : BackgroundPixel) (s : SpritePixel) :
    (p.select_pixel bg s).2.frames = p.frames := by
  obtain ⟨be, bc⟩ := bg
  obtain ⟨se, sc, sb⟩ := s
  unfold PPU.select_pixel
  cases be <;> cases se <;> (try split_ifs) <;> rfl

set_option maxHeartbeats 1600000 in
theorem ppu_step_sf (p : PPU σ) :
    (PPU.step p).2.scan = (p.scan.next_dot).1 ∧
    (PPU.step p).2.frames =
      p.frames + (if (p.scan.next_dot).2 = ScanUpdate.frame then 1 else 0) := by
  have main : (PPU.step p).2.scan = (p.scan.next_dot).1 ∧
      (PPU.step p).2.frames =
        (if (p.scan.next_dot).2 = ScanUpdate.frame then p.frames + 1 else p.frames) := by
    by_cases h1 : p.scan.line ≤ 239
    · have h261 : (p.scan.line == 261) = false := by
        rw [beq_eq_false_iff_ne]; omega
      constructor <;>
        simp only [PPU.step, h1, h261, if_true, Bool.false_eq_true, if_false, ite_true,
                   ite_false, apply_ite PPU.scan, apply_ite PPU.frames, apply_ite Prod.snd,
                   ite_self, gbp_scan, gbp_frames, gsp_scan, gsp_frames, fbp_scan, fbp_frames,
                   fsp_scan, fsp_frames, select_pixel_scan, select_pixel_frames]
    · constructor <;>
        simp only [PPU.step, h1, if_true, Bool.false_eq_true, if_false, ite_true,
                   ite_false, apply_ite PPU.scan, apply_ite PPU.frames, apply_ite Prod.snd,
                   ite_self, gbp_scan, gbp_frames, gsp_scan, gsp_frames, fbp_scan, fbp_frames,
                   fsp_scan, fsp_frames, select_pixel_scan, select_pixel_frames]
  refine ⟨main.1, ?_⟩
  rw [main.2]
  split_ifs <;> omega

theorem read_register_sf (p : PPU σ) (a : Nat) :
    (PPU.read_register p a).2.scan = p.scan ∧
    (PPU.read_register p a).2.frames = p.frames := by
  simp only [PPU.read_register, PPU.busRead]
  (repeat' split) <;> exact ⟨rfl, rfl⟩

theorem write_register_sf (p : PPU σ) (a v : Nat) :
    (PPU.write_register p a v).scan = p.scan ∧
    (PPU.write_register p a v).frames = p.frames := by
  simp only [PPU.write_register, PPU.busWrite]
  (repeat' split) <;> exact ⟨rfl, rfl⟩

theorem cpuBusReadEq [Mapper μ] (b : CPUBus μ) (a : Nat) :
    Memory.read b a =
      (if a ≤ 0x1FFF then (byte (b.wram a), b)
       else if a ≤ 0x3FFF then
         (let r := b.ppu.read_register (to_ppu_addr a)
          (r.1, { b with ppu := r.2 }))
       else if 0x4020 ≤ a ∧ a ≤ 0xFFFF then (Mapper.read b.ppu.bus.mapper a, b)
       else (0, b)) := rfl

theorem cpuBusWriteEq [Mapper μ] (b : CPUBus μ) (a v : Nat) :
    Memory.write b a v =
      (if a ≤ 0x1FFF then { b with wram := upd b.wram a (byte v) }
       else if a ≤ 0x3FFF then { b with ppu := b.ppu.write_register (to_ppu_addr a) v }
       else if 0x4020 ≤ a ∧ a ≤ 0xFFFF then
         { b with ppu := { b.ppu with bus :=
             { b.ppu.bus with mapper := Mapper.write b.ppu.bus.mapper a v } } }
       else b) := rfl

theorem cpuBus_read_sf [Mapper μ] (b : CPUBus μ) (a : Nat) :
    (Memory.read b a).2.ppu.scan = b.ppu.scan ∧
    (Memory.read b a).2.ppu.frames = b.ppu.frames := by
  rw [cpuBusReadEq]
  (repeat' split) <;>
    (first
      | exact ⟨rfl, rfl⟩
      | exact ⟨(read_register_sf b.ppu (to_ppu_addr a)).1,
               (read_register_sf b.ppu (to_ppu_addr a)).2⟩)

theorem cpuBus_write_sf [Mapper μ] (b : CPUBus μ) (a v : Nat) :
    (Memory.write b a v).ppu.scan = b.ppu.scan ∧
    (Memory.write b a v).ppu.frames = b.ppu.frames := by
  rw [cpuBusWriteEq]
  (repeat' split) <;>
    (first
      | exact ⟨rfl, rfl⟩
      | exact ⟨(write_register_sf b.ppu (to_ppu_addr a) v).1,
               (write_register_sf b.ppu (to_ppu_addr a) v).2⟩)

/-- The bus invariant used for frame termination: the PPU reached through
the CPU bus has fixed scan position and frame count. -/
def ScanFrames {μ : Type} (s : Scan) (f : Nat) : CPUBus μ → Prop :=
  fun b => b.ppu.scan = s ∧ b.ppu.frames = f

theorem busPres_ScanFrames {μ : Type} [Mapper μ] (s : Scan) (f : Nat) :
    BusPres (ScanFrames s f : CPUBus μ → Prop) := by
  unfold BusPres ScanFrames
  constructor
  · intro b a hp
    exact ⟨(cpuBus_read_sf b a).1.trans hp.1, (cpuBus_read_sf b a).2.trans hp.2⟩
  · intro b a v hp
    exact ⟨(cpuBus_write_sf b a v).1.trans hp.1, (cpuBus_write_sf b a v).2.trans hp.2⟩

/-- Dots until the current line ends (the first branch of next_dot is
taken), for an arbitrary u16 dot value. -/
def dotsToLineEnd (d : Nat) : Nat :=
  if d ≤ 339 then 340 - d else if d ≤ 65534 then 1 else 341

/-- Line ends until the frame event fires, for an arbitrary u16 line
value. -/
def linesToFrame (l : Nat) : Nat :=
  if l ≤ 261 then 262 - l else if l ≤ 65534 then 1 else 263

/-- Termination measure for the scan: strictly decreases on every
non-frame next_dot step. -/
def scanMeasure (s : Scan) : Nat :=
  (linesToFrame s.line - 1) * 400 + dotsToLineEnd s.dot

theorem nextDot_progress (s : Scan) (h1 : s.dot < 65536) (h2 : s.line < 65536) :
    (s.next_dot).1.dot < 65536 ∧ (s.next_dot).1.line < 65536 ∧
      ((s.next_dot).2 = ScanUpdate.frame ∨
        scanMeasure (s.next_dot).1 < scanMeasure s) := by
  simp only [Scan.next_dot, wordAdd, MAX_DOT, MAX_LINE]
  by_cases ha : 340 ≤ (s.dot + 1) % 65536
  · by_cases hb : 261 < (s.line + 1) % 65536
    · simp only [if_pos ha, if_pos hb]
      refine ⟨by omega, by omega, Or.inl ?_⟩
      trivial
    · simp only [if_pos ha, if_neg hb]
      refine ⟨by omega, by omega, Or.inr ?_⟩
      simp only [scanMeasure, linesToFrame, dotsToLineEnd]
      split_ifs <;> omega
  · simp only [if_neg ha]
    refine ⟨by omega, by omega, Or.inr ?_⟩
    simp only [scanMeasure, linesToFrame, dotsToLineEnd]
    split_ifs <;> omega

theorem handle_interrupt_ok {μ : Type} [Mapper μ] (s : Scan) (f : Nat) (n : NES μ) :
    n.cpu.cycles ≤ n.handle_interrupt.cpu.cycles ∧
      (ScanFrames s f n.cpu.bus → ScanFrames s f n.handle_interrupt.cpu.bus) := by
  simp only [NES.handle_interrupt]
  split_ifs
  · exact COK_reset (ScanFrames s f) (busPres_ScanFrames s f) n.cpu
  · exact COK_nmi_entry (ScanFrames s f) (busPres_ScanFrames s f) n.cpu
  · exact COK_irq_entry (ScanFrames s f) (busPres_ScanFrames s f) n.cpu
  · exact ⟨le_refl _, fun hp => hp⟩
  · exact COK_brk_entry (ScanFrames s f) (busPres_ScanFrames s f) n.cpu
  · exact ⟨le_refl _, fun hp => hp⟩
  · exact ⟨le_refl _, fun hp => hp⟩

theorem cpu_step_ok {μ : Type} [Mapper μ] (s : Scan) (f : Nat) (n : NES μ)
    (hp : ScanFrames s f n.cpu.bus) :
    1 ≤ (NES.cpu_step n).1 ∧ ScanFrames s f (NES.cpu_step n).2.cpu.bus := by
  obtain ⟨h1, h2⟩ := handle_interrupt_ok s f n
  obtain ⟨h3, h4⟩ := CPU.step_ok (ScanFrames s f) (busPres_ScanFrames s f)
    n.handle_interrupt.cpu
  simp only [NES.cpu_step, NES.diff_cycles]
  constructor
  · rw [if_pos (by omega)]
    omega
  · exact h4 (h2 hp)

theorem NES.tick_ppu {μ : Type} [Mapper μ] (n : NES μ) :
    n.tick.cpu.bus.ppu = (n.cpu.bus.ppu.step).2 := rfl

theorem ppu_ticks_progress {μ : Type} [Mapper μ] (k : Nat) :
    ∀ n : NES μ, n.cpu.bus.ppu.scan.dot < 65536 → n.cpu.bus.ppu.scan.line < 65536 →
      (NES.ppu_ticks k n).cpu.bus.ppu.scan.dot < 65536 ∧
      (NES.ppu_ticks k n).cpu.bus.ppu.scan.line < 65536 ∧
      n.cpu.bus.ppu.frames ≤ (NES.ppu_ticks k n).cpu.bus.ppu.frames ∧
      ((NES.ppu_ticks k n).cpu.bus.ppu.frames = n.cpu.bus.ppu.frames →
        scanMeasure (NES.ppu_ticks k n).cpu.bus.ppu.scan + k ≤
          scanMeasure n.cpu.bus.ppu.scan) := by
  induction k with
  | zero =>
      intro n h1 h2
      simp only [NES.ppu_ticks]
      exact ⟨h1, h2, le_refl _, fun _ => by omega⟩
  | succ k ih =>
      intro n h1 h2
      obtain ⟨hs, hf⟩ := ppu_step_sf n.cpu.bus.ppu
      obtain ⟨hd, hl, hor⟩ := nextDot_progress n.cpu.bus.ppu.scan h1 h2
      have h1t : n.tick.cpu.bus.ppu.scan.dot < 65536 := by
        rw [NES.tick_ppu, hs]; exact hd
      have h2t : n.tick.cpu.bus.ppu.scan.line < 65536 := by
        rw [NES.tick_ppu, hs]; exact hl
      obtain ⟨g1, g2, g3, g4⟩ := ih n.tick h1t h2t
      have hfr : n.tick.cpu.bus.ppu.frames =
          n.cpu.bus.ppu.frames +
            (if (n.cpu.bus.ppu.scan.next_dot).2 = ScanUpdate.frame then 1 else 0) := by
        rw [NES.tick_ppu]; exact hf
      have hsc : n.tick.cpu.bus.ppu.scan = (n.cpu.bus.ppu.scan.next_dot).1 := by
        rw [NES.tick_ppu]; exact hs
      simp only [NES.ppu_ticks]
      refine ⟨g1, g2, by omega, fun he => ?_⟩
      by_cases hc : (n.cpu.bus.ppu.scan.next_dot).2 = ScanUpdate.frame
      · rw [if_pos hc] at hfr
        omega
      · rw [if_neg hc] at hfr
        have hms := g4 (by omega)
        rcases hor with h | h
        · exact absurd h hc
        · rw [hsc] at hms
          omega

theorem nes_step_progress {μ : Type} [Mapper μ] (n : NES μ)
    (h1 : n.cpu.bus.ppu.scan.dot < 65536) (h2 : n.cpu.bus.ppu.scan.line < 65536) :
    (NES.step n).cpu.bus.ppu.scan.dot < 65536 ∧
    (NES.step n).cpu.bus.ppu.scan.line < 65536 ∧
    n.cpu.bus.ppu.frames ≤ (NES.step n).cpu.bus.ppu.frames ∧
    ((NES.step n).cpu.bus.ppu.frames = n.cpu.bus.ppu.frames →
      scanMeasure (NES.step n).cpu.bus.ppu.scan + 3 ≤
        scanMeasure n.cpu.bus.ppu.scan) := by
  obtain ⟨hc1, hc2⟩ := cpu_step_ok n.cpu.bus.ppu.scan n.cpu.bus.ppu.frames n ⟨rfl, rfl⟩
  simp only [ScanFrames] at hc2
  obtain ⟨hsc, hfr⟩ := hc2
  obtain ⟨g1, g2, g3, g4⟩ := ppu_ticks_progress ((NES.cpu_step n).1 * 3)
    { (NES.cpu_step n).2 with cycles := (NES.cpu_step n).2.cycles + (NES.cpu_step n).1 }
    (by dsimp only; rw [hsc]; exact h1)
    (by dsimp only; rw [hsc]; exact h2)
  dsimp only at g1 g2 g3 g4
  rw [hfr] at g3
  rw [hsc, hfr] at g4
  simp only [NES.step]
  refine ⟨g1, g2, g3, fun he => ?_⟩
  have hg := g4 he
  omega

theorem frame_go_some {μ : Type} [Mapper μ] (fuel : Nat) :
    ∀ (cur : Nat) (n : NES μ), n.cpu.bus.ppu.scan.dot < 65536 →
      n.cpu.bus.ppu.scan.line < 65536 → n.cpu.bus.ppu.frames = cur →
      scanMeasure n.cpu.bus.ppu.scan < 3 * fuel →
      (NES.frame_go fuel cur n).isSome = true := by
  induction fuel with
  | zero =>
      intro cur n _ _ _ hm
      exact absurd hm (by omega)
  | succ fuel ih =>
      intro cur n h1 h2 hcur hm
      obtain ⟨g1, g2, g3, g4⟩ := nes_step_progress n h1 h2
      simp only [NES.frame_go]
      split_ifs with hne
      · rfl
      · have heq : (NES.step n).cpu.bus.ppu.frames = cur := not_not.mp hne
        refine ih cur (NES.step n) g1 g2 heq ?_
        have hg := g4 (heq.trans hcur.symm)
        omega

def nes0 : NES Unit :=
  { cpu := { a := 0, x := 0, y := 0, s := 0, p := 0, pc := 0, cycles := 0, bus := cpuBus0 },
    interrupt := 0, cycles := 0 }

/-- C10: NES::frame terminates.  Every CPU step consumes at least one
cycle (the opcode fetch), so each scheduler step runs at least three PPU
dots; every PPU dot that does not raise the frame event strictly
decreases the scan measure, the frame counter never decreases, and the
loop exits as soon as the frame counter moves.  For every machine state
whose scan coordinates are in u16 range (as every Rust state is, the scan
fields being u16), the loop body runs at most 35100 times, so with fuel
35100 standing in for the unbounded Rust loop NES::frame returns some. -/
theorem nes_frame_terminates {μ : Type} [Mapper μ] (n : NES μ)
    (h1 : n.cpu.bus.ppu.scan.dot < 65536) (h2 : n.cpu.bus.ppu.scan.line < 65536) :
    (NES.frame 35100 n).isSome = true := by
  simp only [NES.frame]
  refine frame_go_some 35100 n.cpu.bus.ppu.frames n h1 h2 rfl ?_
  have hb : scanMeasure n.cpu.bus.ppu.scan ≤ 105141 := by
    simp only [scanMeasure, linesToFrame, dotsToLineEnd]
    split_ifs <;> omega
  omega

/-- Witness: the power-on NES over the unit mapper has in-range scan
coordinates, and its first frame completes. -/
theorem nes_frame_terminates_witness :
    (nes0.cpu.bus.ppu.scan.dot < 65536 ∧ nes0.cpu.bus.ppu.scan.line < 65536) ∧
    (NES.frame 35100 nes0).isSome = true :=
  ⟨⟨by decide, by decide⟩, nes_frame_terminates nes0 (by decide) (by decide)⟩

end SF

end RustNES
